import Mathlib

/-!
# Myst resource records and their hooks (engines/mohawk/myst_areas.cpp), the scenes of
Module1000 (engines/neverhood/module1000.cpp), the palette pass of taffich
(engines/mortevielle/taffich.cpp) and the plugin manager (base/plugins.cpp)

A shallow embedding of the resource decoders (the constructors of `MystResource` and of its
subclasses) and of the hooks of the resource types; of the scene selection of `Module1000`, of
the door of its first scene, of sprites of its second scene and of the text index of
`Scene1005`; of the Hercules palette pass of `taffich`; and of `PluginManager::tryLoadPlugin`.

* A constructor reading from `rlstStream` becomes a `Loader`: a function from the load state
  (stream cursor and the warnings raised so far) to either a fatal error or a result together
  with the new load state.
* A hook becomes a function on the history of the calls made so far (`List Effect`): reads of
  game variables, calls forwarded to sub-resources, calls of the engine and warnings are appended
  in program order. A hook that writes fields of its resource also returns the resource as it
  leaves it.
* A method of a module or of a sprite becomes a function on the state of the object, which
  carries the calls made on its collaborators so far in program order.
* `debugC` / `debugCN` / `debug` output is not modelled.
-/

set_option linter.dupNamespace false

namespace Mohawk

/-! ## Warnings and effects -/

/-- The `Common::Rect` of a resource: four `int16` coordinates. -/
structure Rect where
  left : Int
  top : Int
  right : Int
  bottom : Int
  deriving DecidableEq, Repr

/-- The calls of `warning(...)` in myst_areas.cpp, one constructor for each format string, with
the arguments of the format. -/
inductive Warning where
  /-- Message "Invalid _rect.top of -1 found - clamping to 0". -/
  | invalidRectTop
  /-- Message "Type 7 Resource with _numSubResources of %d, but no control variable". -/
  | type7NoControlVariable (numSubResources : Nat)
  /-- Message "Type 7 Resource Var %d: %d exceeds number of sub resources %d". -/
  | type7VarExceeds (var7 varValue numSubResources : Nat)
  /-- Message "Type 10 u0 non-zero". -/
  | type10U0NonZero
  /-- Message "Type 10 u1 non-zero". -/
  | type10U1NonZero
  /-- Message "TODO: Card contains Type 10 Resource - Function not yet implemented". -/
  | type10NotImplemented
  /-- Message "Movement type resource with null destination at position (%d, %d), (%d, %d)". -/
  | nullDestination (left top right bottom : Int)
  /-- Message "Type 8 Resource with _numSubImages of %d, but no control variable". -/
  | type8NoControlVariable (numSubImages : Nat)
  /-- Message "Type 8 Image Var %d: %d exceeds number of subImages %d". -/
  | type8VarExceeds (var8 varValue numSubImages : Nat)
  /-- Message "Type 6 _u0 != 1". -/
  | type6U0NotOne
  /-- Message "Type 6 _u3 != 0". -/
  | type6U3NonZero
  /-- Message "Type 11 u0 non-zero". -/
  | type11U0NonZero
  /-- Message "Type 11 u1 non-zero". -/
  | type11U1NonZero
  /-- Message "TODO: Card contains Type 12, Type 11 section Resource - Function not yet
  implemented". -/
  | type12NotImplemented
  deriving DecidableEq, Repr

/-- The virtual hooks of a resource that `MystResourceType7` overrides. -/
inductive Hook where
  | drawDataToScreen
  | handleAnimation
  | handleMouseUp
  | handleMouseDown
  | handleMouseEnter
  | handleMouseLeave
  deriving DecidableEq, Repr

/-- What a hook does to the outside world, in program order. -/
inductive Effect where
  /-- A call `_vm->_scriptParser->getVar(var)`. -/
  | getVar (var : Nat)
  /-- A call `_subResources[index]->hook()`. -/
  | subResource (index : Nat) (hook : Hook)
  /-- A call `warning(...)`. -/
  | warning (w : Warning)
  /-- A call `_vm->changeToCard(dest)`. -/
  | changeToCard (dest : Nat)
  /-- A call `_vm->_gfx->copyImageSectionToScreen(image, src, dest)`. -/
  | copyImageSectionToScreen (image : Nat) (src : Rect) (dest : Rect)
  /-- A call `_vm->_gfx->copyImageToScreen(image, dest)`. -/
  | copyImageToScreen (image : Nat) (dest : Rect)
  /-- A call `_vm->_video->playMovie(file, x, y)`. -/
  | playMovie (file : List Char) (x : Int) (y : Int)
  /-- A call `_vm->_video->playBackgroundMovie(file, x, y, loop)`, `loop` being the value of the
  field `_loop` that is passed. -/
  | playBackgroundMovie (file : List Char) (x : Int) (y : Int) (loop : Nat)
  /-- A call `_vm->_scriptParser->runOpcode(opcode)`. -/
  | runOpcode (opcode : Nat)
  /-- The assignment `_mouseDown = value` of a mouse handler of a Type 10 or Type 11 resource. It
  is kept in the history because the opcode that the handler runs next may come back to the
  resource: whether the assignment precedes the call is part of what the handler does. -/
  | setMouseDown (value : Bool)
  deriving DecidableEq, Repr

/-! ## The engine -/

/-- The enable bits tested by the base constructor. They are enumerators of myst_areas.h, which
is not among the sources, and are carried as parameters. -/
structure EnableFlags where
  kMystZipModeEnableFlag : Nat
  kMystHotspotEnableFlag : Nat
  kMystSubimageEnableFlag : Nat

/-- Modelled from the spec: one entry of `_view.conditionalImages` (the view is declared in
myst.h, which is not among the sources): the variable the entry depends on, the number of states
of that variable and one 16-bit image id for each state. -/
structure MystCondition where
  var : Nat
  numStates : Nat
  values : List Nat
  deriving DecidableEq, Repr

/-- Modelled from the spec: the `_view` of the engine (declared in myst.h, which is not among the
sources): the conditional images of the card, in the order of the view record, and the 16-bit id
of the main image. The counted array `conditionalImages` is a list. -/
structure MystView where
  conditionalImages : List MystCondition
  mainImage : Nat
  deriving DecidableEq, Repr

/-- The field `_view.conditionalImageCount`: the number of entries of `conditionalImages`. -/
def MystView.conditionalImageCount (view : MystView) : Nat :=
  view.conditionalImages.length

/-- The part of `MohawkEngine_Myst` that myst_areas.cpp uses. `getVar history var` is the value
`_scriptParser->getVar(var)` returns after the calls of `history` have been made. -/
structure MohawkEngine_Myst where
  zipMode : Bool
  enableFlags : EnableFlags
  getVar : List Effect → Nat → Nat
  view : MystView

/-! ## The resource stream -/

/-- Modelled from the spec: `Common::SeekableReadStream` (common/stream.h is not among the
sources). The stream is a sequence of bytes with a read cursor; fields are fixed-width
little-endian integers, and a read past the end of the stream is a fatal error of the load
("EOF before declared field count is a fatal error for that resource load") . -/
structure SeekableReadStream where
  data : List Nat
  pos : Nat
  deriving DecidableEq, Repr

/-- The fatal error of a resource load. -/
inductive LoadError where
  | truncatedStream
  deriving DecidableEq, Repr

/-- The state a constructor works on: the stream it reads and the warnings raised so far. -/
structure LoadState where
  rlstStream : SeekableReadStream
  warnings : List Warning
  deriving DecidableEq, Repr

/-- A computation of a constructor: it fails with a fatal error or returns a value and the new
load state. -/
def Loader (α : Type) : Type := LoadState → Except LoadError (α × LoadState)

namespace Loader

/-- Return a value without reading. -/
def pure {α : Type} (a : α) : Loader α := fun s => Except.ok (a, s)

/-- Sequencing of two statements: a fatal error in the first aborts the whole. -/
def bind {α β : Type} (x : Loader α) (f : α → Loader β) : Loader β := fun s =>
  match x s with
  | Except.ok (a, s1) => f a s1
  | Except.error e => Except.error e

instance : Monad Loader where
  pure := Loader.pure
  bind := Loader.bind

/-- The loop `for (i = 0; i < n; i++) xs.push_back(item)`: `n` items read one after the other,
kept in the order read. -/
def replicate {α : Type} : Nat → Loader α → Loader (List α)
  | 0, _ => Loader.pure []
  | n + 1, item => Loader.bind item (fun x => Loader.bind (replicate n item) (fun xs => Loader.pure (x :: xs)))

end Loader

/-- Modelled from the spec: `readByte` of common/stream.h. The byte under the cursor, the cursor
moving one byte on; a fatal error at the end of the stream. -/
def readByte : Loader Nat := fun s =>
  match s.rlstStream.data[s.rlstStream.pos]? with
  | some b => Except.ok (b % 256, { s with rlstStream := { s.rlstStream with pos := s.rlstStream.pos + 1 } })
  | none => Except.error LoadError.truncatedStream

/-- Modelled from the spec: `readUint16LE` of common/stream.h, an unsigned 16-bit little-endian
field. -/
def readUint16LE : Loader Nat := do
  let a ← readByte
  let b ← readByte
  pure (a + 256 * b)

/-- The value of a 16-bit pattern as an `int16`. -/
def toSint16 (x : Int) : Int := (x + 32768) % 65536 - 32768

/-- Modelled from the spec: `readSint16LE` of common/stream.h, a signed 16-bit little-endian
field. -/
def readSint16LE : Loader Int := do
  let u ← readUint16LE
  pure (toSint16 u)

/-- The call `warning(...)` inside a constructor. -/
def warning (w : Warning) : Loader Unit := fun s =>
  Except.ok ((), { s with warnings := s.warnings ++ [w] })

/-! ## MystResource -/

/-- The fields of `MystResource`. `hasParent` stands for `_parent != NULL`. -/
structure MystResource where
  hasParent : Bool
  flags : Nat
  rect : Rect
  dest : Nat
  enabled : Bool
  deriving DecidableEq, Repr

/-- The default of `_enabled`, lines 66-74 of myst_areas.cpp. -/
def MystResource.defaultEnabled (vm : MohawkEngine_Myst) (flags : Nat) : Bool :=
  if vm.zipMode then
    ((flags &&& vm.enableFlags.kMystZipModeEnableFlag) != 0) ||
    ((flags &&& vm.enableFlags.kMystHotspotEnableFlag) != 0) ||
    ((flags &&& vm.enableFlags.kMystSubimageEnableFlag) != 0)
  else
    ((flags &&& vm.enableFlags.kMystZipModeEnableFlag) == 0) &&
    (((flags &&& vm.enableFlags.kMystHotspotEnableFlag) != 0) ||
     ((flags &&& vm.enableFlags.kMystSubimageEnableFlag) != 0))

/-- The constructor `MystResource::MystResource(vm, rlstStream, parent)`. -/
def MystResource.MystResource (vm : MohawkEngine_Myst) (parent : Option MystResource) :
    Loader MystResource :=
  match parent with
  | none => do
    let flags ← readUint16LE
    let left ← readSint16LE
    let top ← readSint16LE
    let top ← (if top = -1 then do
        warning Warning.invalidRectTop
        pure (0 : Int)
      else pure top)
    let right ← readSint16LE
    let bottom ← readSint16LE
    let dest ← readUint16LE
    pure { hasParent := false, flags := flags,
           rect := { left := left, top := top, right := right, bottom := bottom },
           dest := dest, enabled := MystResource.defaultEnabled vm flags }
  | some p =>
    pure { hasParent := true, flags := p.flags,
           rect := { left := p.rect.left, top := p.rect.top, right := p.rect.right,
                     bottom := p.rect.bottom },
           dest := p.dest, enabled := MystResource.defaultEnabled vm p.flags }

/-- The hook `MystResource::handleMouseUp()`, lines 80-85: the resource as the hook leaves it and
the history. -/
def MystResource.handleMouseUp (r : Mohawk.MystResource) (history : List Effect) :
    Mohawk.MystResource × List Effect :=
  if r.dest ≠ 0 then
    (r, history ++ [Effect.changeToCard r.dest])
  else
    (r, history ++ [Effect.warning
      (Warning.nullDestination r.rect.left r.rect.top r.rect.right r.rect.bottom)])

/-- The fields of `MystResourceType13`, a resource with an enter and a leave opcode. -/
structure MystResourceType13 extends MystResource where
  enterOpcode : Nat
  leaveOpcode : Nat
  deriving DecidableEq, Repr

/-- The constructor `MystResourceType13::MystResourceType13(vm, rlstStream, parent)`. -/
def MystResourceType13.MystResourceType13 (vm : MohawkEngine_Myst)
    (parent : Option MystResource) : Loader MystResourceType13 := do
  let base ← MystResource.MystResource vm parent
  let enterOpcode ← readUint16LE
  let leaveOpcode ← readUint16LE
  pure { toMystResource := base, enterOpcode := enterOpcode, leaveOpcode := leaveOpcode }

/-- The hook `MystResourceType13::handleMouseEnter()`, lines 712-715. -/
def MystResourceType13.handleMouseEnter (r : Mohawk.MystResourceType13) (history : List Effect) :
    Mohawk.MystResourceType13 × List Effect :=
  (r, history ++ [Effect.runOpcode r.enterOpcode])

/-- The hook `MystResourceType13::handleMouseLeave()`, lines 717-720. -/
def MystResourceType13.handleMouseLeave (r : Mohawk.MystResourceType13) (history : List Effect) :
    Mohawk.MystResourceType13 × List Effect :=
  (r, history ++ [Effect.runOpcode r.leaveOpcode])

/-- The hook `MystResourceType13::handleMouseUp()`, lines 722-726: the body is empty. -/
def MystResourceType13.handleMouseUp (r : Mohawk.MystResourceType13) (history : List Effect) :
    Mohawk.MystResourceType13 × List Effect :=
  (r, history)

/-! ## Type 5 and Type 6: a script, a video -/

/-- Modelled from the spec: `skip` of common/stream.h, which moves the cursor `n` bytes on; as
for a read, going past the end of the stream is the fatal error of the load. -/
def skip (n : Nat) : Loader Unit := fun s =>
  if s.rlstStream.pos + n ≤ s.rlstStream.data.length then
    Except.ok ((), { s with rlstStream := { s.rlstStream with pos := s.rlstStream.pos + n } })
  else Except.error LoadError.truncatedStream

/-- The fields of `MystResourceType5`; `σ` is the type of the script that
`_scriptParser->readScript` builds. -/
structure MystResourceType5 (σ : Type) extends MystResource where
  script : σ
  deriving DecidableEq, Repr

/-- The constructor `MystResourceType5::MystResourceType5(vm, rlstStream, parent)`. The method
`vm->_scriptParser->readScript(rlstStream, kMystScriptNormal)` of myst_scripts.cpp is not among
the sources and is a parameter. -/
def MystResourceType5.MystResourceType5 {σ : Type} (vm : MohawkEngine_Myst)
    (readScript : Loader σ) (parent : Option MystResource) : Loader (MystResourceType5 σ) := do
  let base ← MystResource.MystResource vm parent
  let script ← readScript
  pure { toMystResource := base, script := script }

/-- The loop `for (uint32 i = 1; i < name.size(); i++)` of `convertMystVideoName`, lines 107-112,
from index `i` on, with `temp` as built so far; the character 92 is the backslash. The first
argument bounds the number of rounds left; the function gives it the size of the name, which the
loop never reaches. -/
def MystResourceType6.convertLoop (name : List Char) : Nat → Nat → List Char → List Char
  | 0, _, temp => temp
  | rounds + 1, i, temp =>
    if i < name.length then
      if name.getD i (Char.ofNat 0) = Char.ofNat 92 then
        MystResourceType6.convertLoop name rounds (i + 1) (temp ++ ['/'])
      else
        MystResourceType6.convertLoop name rounds (i + 1) (temp ++ [name.getD i (Char.ofNat 0)])
    else temp

/-- The function `MystResourceType6::convertMystVideoName(name)`, lines 104-115; a
`Common::String` is the list of its characters. -/
def MystResourceType6.convertMystVideoName (name : List Char) : List Char :=
  MystResourceType6.convertLoop name name.length 1 [] ++ ['.', 'm', 'o', 'v']

/-- The loop `do { c = readByte(); _videoFile += c; } while (c);` of the Type 6 constructor, run
on the `_videoFile` read so far. The first argument bounds the number of rounds; the constructor
gives it one more than the number of bytes left in the stream, and a round that finds no byte
left fails, so the bound itself is never what ends the loop. -/
def MystResourceType6.readVideoFile : Nat → List Char → Loader (List Char)
  | 0, _ => fun _ => Except.error LoadError.truncatedStream
  | rounds + 1, videoFile => do
    let c ← readByte
    if c ≠ 0 then MystResourceType6.readVideoFile rounds (videoFile ++ [Char.ofNat c])
    else pure (videoFile ++ [Char.ofNat c])

/-- The loop `while (_videoFile.size() != 0 && _videoFile.lastChar() == 0)
_videoFile.deleteLastChar();`. -/
def MystResourceType6.trimTrailingNulls (videoFile : List Char) : List Char :=
  (videoFile.reverse.dropWhile (fun ch => ch = Char.ofNat 0)).reverse

/-- The fields of `MystResourceType6`. -/
structure MystResourceType6 (σ : Type) extends MystResourceType5 σ where
  videoFile : List Char
  left : Nat
  top : Nat
  loop : Nat
  u0 : Nat
  playBlocking : Nat
  playOnCardChange : Nat
  u3 : Nat
  videoRunning : Bool
  deriving DecidableEq, Repr

/-- The constructor `MystResourceType6::MystResourceType6(vm, rlstStream, parent)`. -/
def MystResourceType6.MystResourceType6 {σ : Type} (vm : MohawkEngine_Myst)
    (readScript : Loader σ) (parent : Option MystResource) : Loader (MystResourceType6 σ) := do
  let base ← MystResourceType5.MystResourceType5 vm readScript parent
  let videoFile ← (fun s => MystResourceType6.readVideoFile
    (s.rlstStream.data.length - s.rlstStream.pos + 1) [] s)
  skip (videoFile.length % 2)
  let videoFile := MystResourceType6.trimTrailingNulls videoFile
  let videoFile := MystResourceType6.convertMystVideoName videoFile
  let left ← readUint16LE
  let top ← readUint16LE
  let loop ← readUint16LE
  let u0 ← readUint16LE
  let playBlocking ← readUint16LE
  let playOnCardChange ← readUint16LE
  let u3 ← readUint16LE
  (if u0 ≠ 1 then warning Warning.type6U0NotOne else pure ())
  (if u3 ≠ 0 then warning Warning.type6U3NonZero else pure ())
  pure { toMystResourceType5 := base, videoFile := videoFile, left := left % 10000,
         top := top % 10000, loop := loop, u0 := u0, playBlocking := playBlocking,
         playOnCardChange := playOnCardChange, u3 := u3, videoRunning := false }

/-- The hook `MystResourceType6::handleAnimation()`, lines 159-174: the resource as the hook
leaves it and the history. -/
def MystResourceType6.handleAnimation {σ : Type} (r : Mohawk.MystResourceType6 σ)
    (history : List Effect) : Mohawk.MystResourceType6 σ × List Effect :=
  if r.videoRunning = false then
    let history :=
      if r.playBlocking ≠ 0 then
        history ++ [Effect.playMovie r.videoFile r.rect.left r.rect.top]
      else
        history ++ [Effect.playBackgroundMovie r.videoFile r.rect.left r.rect.top r.loop]
    ({ r with videoRunning := true }, history)
  else (r, history)

/-! ## Type 7: a resource that switches between sub-resources -/

/-- The fields of `MystResourceType7`; `ρ` is the type of the sub-resources that
`vm->loadResource` builds. -/
structure MystResourceType7 (ρ : Type) extends MystResource where
  var7 : Nat
  numSubResources : Nat
  subResources : List ρ
  deriving Repr

/-- The constructor `MystResourceType7::MystResourceType7(vm, rlstStream, parent)`. The method
`vm->loadResource(rlstStream, parent)` of myst.cpp is not among the sources and is a parameter:
`loadResource parent` reads one sub-resource from the stream; the constructor passes `this`, of
which a constructor can only have seen the base fields. -/
def MystResourceType7.MystResourceType7 {ρ : Type} (vm : MohawkEngine_Myst)
    (loadResource : Option MystResource → Loader ρ) (parent : Option MystResource) :
    Loader (MystResourceType7 ρ) := do
  let base ← MystResource.MystResource vm parent
  let var7 ← readUint16LE
  let numSubResources ← readUint16LE
  let subResources ← Loader.replicate numSubResources (loadResource (some base))
  pure { toMystResource := base, var7 := var7, numSubResources := numSubResources,
         subResources := subResources }

/-- Modelled from the spec: a sub-record as `MohawkEngine_Myst::loadResource` builds it (myst.cpp
is not among the sources): the record type, the base fields and the payload of that type. -/
structure SubRecord (τ π : Type) where
  type : τ
  base : MystResource
  payload : π

/-- Modelled from the spec: `MohawkEngine_Myst::loadResource(rlstStream, parent)` (myst.cpp is not
among the sources). It produces one record of the type hierarchy from the stream and the optional
parent: the record type is determined first (`selectType`), then the constructor of that type
runs with the same stream and parent. Every constructor of the hierarchy starts with the base
constructor `MystResource::MystResource(vm, rlstStream, parent)` and goes on with the fields of
its own type (`typeSpecific`). -/
def loadResource {τ π : Type} (vm : MohawkEngine_Myst) (selectType : Loader τ)
    (typeSpecific : τ → MystResource → Loader π) (parent : Option MystResource) :
    Loader (SubRecord τ π) := do
  let type ← selectType
  let base ← MystResource.MystResource vm parent
  let payload ← typeSpecific type base
  pure { type := type, base := base, payload := payload }

/-- The hook `MystResourceType7::drawDataToScreen()`, lines 196-214. -/
def MystResourceType7.drawDataToScreen {ρ : Type} (vm : MohawkEngine_Myst)
    (r : Mohawk.MystResourceType7 ρ) (history : List Effect) : List Effect :=
  if r.var7 = 0xFFFF then
    if r.numSubResources = 1 then
      history ++ [Effect.subResource 0 Hook.drawDataToScreen]
    else if r.numSubResources ≠ 0 then
      history ++ [Effect.warning (Warning.type7NoControlVariable r.numSubResources)]
    else history
  else
    let varValue := vm.getVar history r.var7 % 65536
    let history := history ++ [Effect.getVar r.var7]
    if r.numSubResources = 1 ∧ varValue ≠ 0 then
      history ++ [Effect.subResource 0 Hook.drawDataToScreen]
    else if r.numSubResources ≠ 0 then
      if varValue < r.numSubResources then
        history ++ [Effect.subResource varValue Hook.drawDataToScreen]
      else
        history ++ [Effect.warning (Warning.type7VarExceeds r.var7 varValue r.numSubResources)]
    else history

/-- The hook `MystResourceType7::handleAnimation()`, lines 216-234. -/
def MystResourceType7.handleAnimation {ρ : Type} (vm : MohawkEngine_Myst)
    (r : Mohawk.MystResourceType7 ρ) (history : List Effect) : List Effect :=
  if r.var7 = 0xFFFF then
    if r.numSubResources = 1 then
      history ++ [Effect.subResource 0 Hook.handleAnimation]
    else if r.numSubResources ≠ 0 then
      history ++ [Effect.warning (Warning.type7NoControlVariable r.numSubResources)]
    else history
  else
    let varValue := vm.getVar history r.var7 % 65536
    let history := history ++ [Effect.getVar r.var7]
    if r.numSubResources = 1 ∧ varValue ≠ 0 then
      history ++ [Effect.subResource 0 Hook.handleAnimation]
    else if r.numSubResources ≠ 0 then
      if varValue < r.numSubResources then
        history ++ [Effect.subResource varValue Hook.handleAnimation]
      else
        history ++ [Effect.warning (Warning.type7VarExceeds r.var7 varValue r.numSubResources)]
    else history

/-- The hook `MystResourceType7::handleMouseUp()`, lines 236-254. -/
def MystResourceType7.handleMouseUp {ρ : Type} (vm : MohawkEngine_Myst)
    (r : Mohawk.MystResourceType7 ρ) (history : List Effect) : List Effect :=
  if r.var7 = 0xFFFF then
    if r.numSubResources = 1 then
      history ++ [Effect.subResource 0 Hook.handleMouseUp]
    else if r.numSubResources ≠ 0 then
      history ++ [Effect.warning (Warning.type7NoControlVariable r.numSubResources)]
    else history
  else
    let varValue := vm.getVar history r.var7 % 65536
    let history := history ++ [Effect.getVar r.var7]
    if r.numSubResources = 1 ∧ varValue ≠ 0 then
      history ++ [Effect.subResource 0 Hook.handleMouseUp]
    else if r.numSubResources ≠ 0 then
      if varValue < r.numSubResources then
        history ++ [Effect.subResource varValue Hook.handleMouseUp]
      else
        history ++ [Effect.warning (Warning.type7VarExceeds r.var7 varValue r.numSubResources)]
    else history

/-- The hook `MystResourceType7::handleMouseDown()`, lines 256-274. -/
def MystResourceType7.handleMouseDown {ρ : Type} (vm : MohawkEngine_Myst)
    (r : Mohawk.MystResourceType7 ρ) (history : List Effect) : List Effect :=
  if r.var7 = 0xFFFF then
    if r.numSubResources = 1 then
      history ++ [Effect.subResource 0 Hook.handleMouseDown]
    else if r.numSubResources ≠ 0 then
      history ++ [Effect.warning (Warning.type7NoControlVariable r.numSubResources)]
    else history
  else
    let varValue := vm.getVar history r.var7 % 65536
    let history := history ++ [Effect.getVar r.var7]
    if r.numSubResources = 1 ∧ varValue ≠ 0 then
      history ++ [Effect.subResource 0 Hook.handleMouseDown]
    else if r.numSubResources ≠ 0 then
      if varValue < r.numSubResources then
        history ++ [Effect.subResource varValue Hook.handleMouseDown]
      else
        history ++ [Effect.warning (Warning.type7VarExceeds r.var7 varValue r.numSubResources)]
    else history

/-- The hook `MystResourceType7::handleMouseEnter()`, lines 276-294. -/
def MystResourceType7.handleMouseEnter {ρ : Type} (vm : MohawkEngine_Myst)
    (r : Mohawk.MystResourceType7 ρ) (history : List Effect) : List Effect :=
  if r.var7 = 0xFFFF then
    if r.numSubResources = 1 then
      history ++ [Effect.subResource 0 Hook.handleMouseEnter]
    else if r.numSubResources ≠ 0 then
      history ++ [Effect.warning (Warning.type7NoControlVariable r.numSubResources)]
    else history
  else
    let varValue := vm.getVar history r.var7 % 65536
    let history := history ++ [Effect.getVar r.var7]
    if r.numSubResources = 1 ∧ varValue ≠ 0 then
      history ++ [Effect.subResource 0 Hook.handleMouseEnter]
    else if r.numSubResources ≠ 0 then
      if varValue < r.numSubResources then
        history ++ [Effect.subResource varValue Hook.handleMouseEnter]
      else
        history ++ [Effect.warning (Warning.type7VarExceeds r.var7 varValue r.numSubResources)]
    else history

/-- The hook `MystResourceType7::handleMouseLeave()`, lines 296-314. -/
def MystResourceType7.handleMouseLeave {ρ : Type} (vm : MohawkEngine_Myst)
    (r : Mohawk.MystResourceType7 ρ) (history : List Effect) : List Effect :=
  if r.var7 = 0xFFFF then
    if r.numSubResources = 1 then
      history ++ [Effect.subResource 0 Hook.handleMouseLeave]
    else if r.numSubResources ≠ 0 then
      history ++ [Effect.warning (Warning.type7NoControlVariable r.numSubResources)]
    else history
  else
    let varValue := vm.getVar history r.var7 % 65536
    let history := history ++ [Effect.getVar r.var7]
    if r.numSubResources = 1 ∧ varValue ≠ 0 then
      history ++ [Effect.subResource 0 Hook.handleMouseLeave]
    else if r.numSubResources ≠ 0 then
      if varValue < r.numSubResources then
        history ++ [Effect.subResource varValue Hook.handleMouseLeave]
      else
        history ++ [Effect.warning (Warning.type7VarExceeds r.var7 varValue r.numSubResources)]
    else history

/-- The virtual call of a hook on a Type 7 resource: the override of that hook. -/
def MystResourceType7.call {ρ : Type} (hook : Hook) (vm : MohawkEngine_Myst)
    (r : Mohawk.MystResourceType7 ρ) (history : List Effect) : List Effect :=
  match hook with
  | Hook.drawDataToScreen => MystResourceType7.drawDataToScreen vm r history
  | Hook.handleAnimation => MystResourceType7.handleAnimation vm r history
  | Hook.handleMouseUp => MystResourceType7.handleMouseUp vm r history
  | Hook.handleMouseDown => MystResourceType7.handleMouseDown vm r history
  | Hook.handleMouseEnter => MystResourceType7.handleMouseEnter vm r history
  | Hook.handleMouseLeave => MystResourceType7.handleMouseLeave vm r history

/-- The dispatch rule of the spec written once, as a routine that takes the hook as a parameter
("implementers must factor it as one routine parameterized by the hook"): the hook is only used
to name the call that is forwarded. The six hooks of the source are compared with it. -/
def MystResourceType7.switchRoutine {ρ : Type} (hook : Hook) (vm : MohawkEngine_Myst)
    (r : Mohawk.MystResourceType7 ρ) (history : List Effect) : List Effect :=
  if r.var7 = 0xFFFF then
    if r.numSubResources = 1 then
      history ++ [Effect.subResource 0 hook]
    else if r.numSubResources ≠ 0 then
      history ++ [Effect.warning (Warning.type7NoControlVariable r.numSubResources)]
    else history
  else
    let varValue := vm.getVar history r.var7 % 65536
    let history := history ++ [Effect.getVar r.var7]
    if r.numSubResources = 1 ∧ varValue ≠ 0 then
      history ++ [Effect.subResource 0 hook]
    else if r.numSubResources ≠ 0 then
      if varValue < r.numSubResources then
        history ++ [Effect.subResource varValue hook]
      else
        history ++ [Effect.warning (Warning.type7VarExceeds r.var7 varValue r.numSubResources)]
    else history

/-- The effect with the hook of a forwarded call replaced by `hook`; every other effect is left
as it is. -/
def Effect.withHook (hook : Hook) : Effect → Effect
  | Effect.subResource index _ => Effect.subResource index hook
  | e => e

/-- The number of calls forwarded to a sub-resource in a list of effects. -/
def subResourceCalls (effects : List Effect) : Nat :=
  effects.countP (fun e => match e with
    | Effect.subResource _ _ => true
    | _ => false)

/-- The number of warnings in a list of effects. -/
def warningCount (effects : List Effect) : Nat :=
  effects.countP (fun e => match e with
    | Effect.warning _ => true
    | _ => false)

/-- The number of variable reads in a list of effects. -/
def getVarCalls (effects : List Effect) : Nat :=
  effects.countP (fun e => match e with
    | Effect.getVar _ => true
    | _ => false)

/-! ## Type 8: a Type 7 resource with sub-images -/

/-- One entry of `MystResourceType8::_subImages`. -/
structure SubImage where
  wdib : Nat
  rect : Rect
  deriving DecidableEq, Repr

/-- The fields of `MystResourceType8`. -/
structure MystResourceType8 (ρ : Type) extends MystResourceType7 ρ where
  var8 : Nat
  numSubImages : Nat
  subImages : List SubImage
  deriving Repr

/-- The body of the loop over the sub-images in the Type 8 constructor, lines 326-340; `rect` is
the `_rect` of the resource. -/
def MystResourceType8.readSubImage (rect : Rect) : Loader SubImage := do
  let wdib ← readUint16LE
  let left ← readSint16LE
  if left ≠ -1 then do
    let top ← readSint16LE
    let right ← readSint16LE
    let bottom ← readSint16LE
    pure { wdib := wdib, rect := { left := left, top := top, right := right, bottom := bottom } }
  else
    pure { wdib := wdib,
           rect := { left := rect.left, top := toSint16 (333 - rect.bottom),
                     right := rect.right, bottom := toSint16 (333 - rect.top) } }

/-- The constructor `MystResourceType8::MystResourceType8(vm, rlstStream, parent)`. -/
def MystResourceType8.MystResourceType8 {ρ : Type} (vm : MohawkEngine_Myst)
    (loadResource : Option MystResource → Loader ρ) (parent : Option MystResource) :
    Loader (MystResourceType8 ρ) := do
  let base ← MystResourceType7.MystResourceType7 vm loadResource parent
  let var8 ← readUint16LE
  let numSubImages ← readUint16LE
  let subImages ← Loader.replicate numSubImages (MystResourceType8.readSubImage base.rect)
  pure { toMystResourceType7 := base, var8 := var8, numSubImages := numSubImages,
         subImages := subImages }

/-- The read `_subImages[subImageId]` with the `int16` index of `drawDataToScreen`. A read outside
the array is undefined in the source; here it gives a sub-image of zeros. -/
def MystResourceType8.subImageAt {ρ : Type} (r : Mohawk.MystResourceType8 ρ) (subImageId : Int) :
    SubImage :=
  if 0 ≤ subImageId then
    r.subImages.getD subImageId.toNat
      { wdib := 0, rect := { left := 0, top := 0, right := 0, bottom := 0 } }
  else { wdib := 0, rect := { left := 0, top := 0, right := 0, bottom := 0 } }

/-- The selection of the sub-image in `MystResourceType8::drawDataToScreen`, lines 359-381: the
values of `drawSubImage` and of the `int16 subImageId` after line 381, and the history. -/
def MystResourceType8.selectSubImage {ρ : Type} (vm : MohawkEngine_Myst)
    (r : Mohawk.MystResourceType8 ρ) (history : List Effect) : Bool × Int × List Effect :=
  if r.var8 = 0xFFFF then
    if r.numSubImages = 1 then
      (true, 0, history)
    else if r.numSubImages ≠ 0 then
      (false, 0, history ++ [Effect.warning (Warning.type8NoControlVariable r.numSubImages)])
    else (false, 0, history)
  else
    let varValue := vm.getVar history r.var8 % 65536
    let history := history ++ [Effect.getVar r.var8]
    if r.numSubImages = 1 ∧ varValue ≠ 0 then
      (true, 0, history)
    else if r.numSubImages ≠ 0 then
      if varValue < r.numSubImages then
        (true, toSint16 varValue, history)
      else
        (false, 0,
          history ++ [Effect.warning (Warning.type8VarExceeds r.var8 varValue r.numSubImages)])
    else (false, 0, history)

/-- The loop over the conditional images of the view, lines 397-399, from entry `conds` on:
`imageToDraw` is the value of the variable of that name before the loop goes on; the result is
its value after the loop, and the history. -/
def MystResourceType8.conditionalImage (vm : MohawkEngine_Myst) :
    List MystCondition → Nat → List Effect → Nat × List Effect
  | [], imageToDraw, history => (imageToDraw, history)
  | c :: conds, imageToDraw, history =>
    let tested := vm.getVar history c.var % 65536
    let history := history ++ [Effect.getVar c.var]
    if tested < c.numStates then
      let index := vm.getVar history c.var % 65536
      let history := history ++ [Effect.getVar c.var]
      MystResourceType8.conditionalImage vm conds (c.values.getD index 0) history
    else
      MystResourceType8.conditionalImage vm conds imageToDraw history

/-- The choice of `imageToDraw` in `MystResourceType8::drawDataToScreen`, lines 384-402, for a
sub-image with target id `wdib`. -/
def MystResourceType8.imageToDraw (vm : MohawkEngine_Myst) (wdib : Nat)
    (history : List Effect) : Nat × List Effect :=
  if wdib = 0xFFFF then
    if vm.view.conditionalImageCount = 0 then
      (vm.view.mainImage, history)
    else
      MystResourceType8.conditionalImage vm vm.view.conditionalImages 0 history
  else (wdib, history)

/-- The hook `MystResourceType8::drawDataToScreen()`, lines 354-406. -/
def MystResourceType8.drawDataToScreen {ρ : Type} (vm : MohawkEngine_Myst)
    (r : Mohawk.MystResourceType8 ρ) (history : List Effect) : List Effect :=
  let history := MystResourceType7.drawDataToScreen vm r.toMystResourceType7 history
  let selected := MystResourceType8.selectSubImage vm r history
  if selected.1 then
    let subImage := MystResourceType8.subImageAt r selected.2.1
    let image := MystResourceType8.imageToDraw vm subImage.wdib selected.2.2
    image.2 ++ [Effect.copyImageSectionToScreen image.1 subImage.rect r.rect]
  else selected.2.2

/-! ## Type 10 -/

/-- One entry of `_lists`: a count and that many 16-bit values. -/
structure ValueList where
  listCount : Nat
  list : List Nat
  deriving DecidableEq, Repr

/-- The body of the loop over the lists of a Type 10, 11 or 12 record (lines 500-507). -/
def readValueList : Loader ValueList := do
  let listCount ← readUint16LE
  let list ← Loader.replicate listCount readUint16LE
  pure { listCount := listCount, list := list }

/-- The fields of `MystResourceType10`. -/
structure MystResourceType10 (ρ : Type) extends MystResourceType8 ρ where
  kind : Nat
  rect10 : Rect
  u0 : Nat
  u1 : Nat
  mouseDownOpcode : Nat
  mouseDragOpcode : Nat
  mouseUpOpcode : Nat
  lists : List ValueList
  mouseDown : Bool
  deriving Repr

/-- The constructor `MystResourceType10::MystResourceType10(vm, rlstStream, parent)`. The four
coordinates of `_rect10` are read as unsigned words, in the order left, right, top, bottom, and
stored in `int16` fields. -/
def MystResourceType10.MystResourceType10 {ρ : Type} (vm : MohawkEngine_Myst)
    (loadResource : Option MystResource → Loader ρ) (parent : Option MystResource) :
    Loader (MystResourceType10 ρ) := do
  let base ← MystResourceType8.MystResourceType8 vm loadResource parent
  let kind ← readUint16LE
  let left ← readUint16LE
  let right ← readUint16LE
  let top ← readUint16LE
  let bottom ← readUint16LE
  let u0 ← readUint16LE
  let u1 ← readUint16LE
  let mouseDownOpcode ← readUint16LE
  let mouseDragOpcode ← readUint16LE
  let mouseUpOpcode ← readUint16LE
  (if u0 ≠ 0 then warning Warning.type10U0NonZero else pure ())
  (if u1 ≠ 0 then warning Warning.type10U1NonZero else pure ())
  let lists ← Loader.replicate 4 readValueList
  warning Warning.type10NotImplemented
  pure { toMystResourceType8 := base, kind := kind,
         rect10 := { left := toSint16 left, top := toSint16 top, right := toSint16 right,
                     bottom := toSint16 bottom },
         u0 := u0, u1 := u1, mouseDownOpcode := mouseDownOpcode,
         mouseDragOpcode := mouseDragOpcode, mouseUpOpcode := mouseUpOpcode,
         lists := lists, mouseDown := false }

/-- The hook `MystResourceType10::handleMouseDown()`, lines 519-523. -/
def MystResourceType10.handleMouseDown {ρ : Type} (r : Mohawk.MystResourceType10 ρ)
    (history : List Effect) : Mohawk.MystResourceType10 ρ × List Effect :=
  let r := { r with mouseDown := true }
  let history := history ++ [Effect.setMouseDown true]
  (r, history ++ [Effect.runOpcode r.mouseDownOpcode])

/-- The hook `MystResourceType10::handleMouseUp()`, lines 525-529. -/
def MystResourceType10.handleMouseUp {ρ : Type} (r : Mohawk.MystResourceType10 ρ)
    (history : List Effect) : Mohawk.MystResourceType10 ρ × List Effect :=
  let r := { r with mouseDown := false }
  let history := history ++ [Effect.setMouseDown false]
  (r, history ++ [Effect.runOpcode r.mouseUpOpcode])

/-- The hook `MystResourceType10::handleMouseMove()`, lines 531-535. -/
def MystResourceType10.handleMouseMove {ρ : Type} (r : Mohawk.MystResourceType10 ρ)
    (history : List Effect) : Mohawk.MystResourceType10 ρ × List Effect :=
  if r.mouseDown = true then
    (r, history ++ [Effect.runOpcode r.mouseDragOpcode])
  else (r, history)

/-! ## Type 11 -/

/-- The fields of `MystResourceType11`. -/
structure MystResourceType11 (ρ : Type) extends MystResourceType8 ρ where
  kind : Nat
  rect11 : Rect
  u0 : Nat
  u1 : Nat
  mouseDownOpcode : Nat
  mouseDragOpcode : Nat
  mouseUpOpcode : Nat
  lists : List ValueList
  mouseDown : Bool
  deriving Repr

/-- The constructor `MystResourceType11::MystResourceType11(vm, rlstStream, parent)`. The four
coordinates of `_rect11` are read as unsigned words, in the order left, right, top, bottom, and
stored in `int16` fields. -/
def MystResourceType11.MystResourceType11 {ρ : Type} (vm : MohawkEngine_Myst)
    (loadResource : Option MystResource → Loader ρ) (parent : Option MystResource) :
    Loader (MystResourceType11 ρ) := do
  let base ← MystResourceType8.MystResourceType8 vm loadResource parent
  let kind ← readUint16LE
  let left ← readUint16LE
  let right ← readUint16LE
  let top ← readUint16LE
  let bottom ← readUint16LE
  let u0 ← readUint16LE
  let u1 ← readUint16LE
  let mouseDownOpcode ← readUint16LE
  let mouseDragOpcode ← readUint16LE
  let mouseUpOpcode ← readUint16LE
  (if u0 ≠ 0 then warning Warning.type11U0NonZero else pure ())
  (if u1 ≠ 0 then warning Warning.type11U1NonZero else pure ())
  let lists ← Loader.replicate 3 readValueList
  pure { toMystResourceType8 := base, kind := kind,
         rect11 := { left := toSint16 left, top := toSint16 top, right := toSint16 right,
                     bottom := toSint16 bottom },
         u0 := u0, u1 := u1, mouseDownOpcode := mouseDownOpcode,
         mouseDragOpcode := mouseDragOpcode, mouseUpOpcode := mouseUpOpcode,
         lists := lists, mouseDown := false }

/-- The hook `MystResourceType11::handleMouseDown()`, lines 594-598. -/
def MystResourceType11.handleMouseDown {ρ : Type} (r : Mohawk.MystResourceType11 ρ)
    (history : List Effect) : Mohawk.MystResourceType11 ρ × List Effect :=
  let r := { r with mouseDown := true }
  let history := history ++ [Effect.setMouseDown true]
  (r, history ++ [Effect.runOpcode r.mouseDownOpcode])

/-- The hook `MystResourceType11::handleMouseUp()`, lines 600-604. -/
def MystResourceType11.handleMouseUp {ρ : Type} (r : Mohawk.MystResourceType11 ρ)
    (history : List Effect) : Mohawk.MystResourceType11 ρ × List Effect :=
  let r := { r with mouseDown := false }
  let history := history ++ [Effect.setMouseDown false]
  (r, history ++ [Effect.runOpcode r.mouseUpOpcode])

/-- The hook `MystResourceType11::handleMouseMove()`, lines 606-610. -/
def MystResourceType11.handleMouseMove {ρ : Type} (r : Mohawk.MystResourceType11 ρ)
    (history : List Effect) : Mohawk.MystResourceType11 ρ × List Effect :=
  if r.mouseDown = true then
    (r, history ++ [Effect.runOpcode r.mouseDragOpcode])
  else (r, history)

/-! ## Type 12 -/

/-- The fields of `MystResourceType12`, as the constructor (lines 612-682) and the hooks name
them. The class is declared in myst_areas.h, which is not among the sources; `_numFrames`,
`_firstFrame` and `_currentFrame` are 16-bit unsigned. -/
structure MystResourceType12 (ρ : Type) extends MystResourceType8 ρ where
  kind : Nat
  rect11 : Rect
  state0Frame : Nat
  state1Frame : Nat
  mouseDownOpcode : Nat
  mouseDragOpcode : Nat
  mouseUpOpcode : Nat
  lists : List ValueList
  numFrames : Nat
  firstFrame : Nat
  frameRect : Rect
  doAnimation : Bool
  currentFrame : Nat
  deriving Repr

/-- The constructor `MystResourceType12::MystResourceType12(vm, rlstStream, parent)`, lines
612-682. The coordinates of `_rect11` and of `_frameRect` are unsigned words stored in `int16`
fields, and the sums for `right` and `bottom` are stored in `int16` fields too. The constructor
does not assign `_currentFrame`: `currentFrame` is the value the field happens to hold. -/
def MystResourceType12.MystResourceType12 {ρ : Type} (vm : MohawkEngine_Myst)
    (loadResource : Option MystResource → Loader ρ) (parent : Option MystResource)
    (currentFrame : Nat) : Loader (MystResourceType12 ρ) := do
  let base ← MystResourceType8.MystResourceType8 vm loadResource parent
  let kind ← readUint16LE
  let left ← readUint16LE
  let right ← readUint16LE
  let top ← readUint16LE
  let bottom ← readUint16LE
  let state0Frame ← readUint16LE
  let state1Frame ← readUint16LE
  let mouseDownOpcode ← readUint16LE
  let mouseDragOpcode ← readUint16LE
  let mouseUpOpcode ← readUint16LE
  let lists ← Loader.replicate 3 readValueList
  warning Warning.type12NotImplemented
  let numFrames ← readUint16LE
  let firstFrame ← readUint16LE
  let frameWidth ← readUint16LE
  let frameHeight ← readUint16LE
  let frameLeft ← readUint16LE
  let frameTop ← readUint16LE
  pure { toMystResourceType8 := base, kind := kind,
         rect11 := { left := toSint16 left, top := toSint16 top, right := toSint16 right,
                     bottom := toSint16 bottom },
         state0Frame := state0Frame, state1Frame := state1Frame,
         mouseDownOpcode := mouseDownOpcode, mouseDragOpcode := mouseDragOpcode,
         mouseUpOpcode := mouseUpOpcode, lists := lists,
         numFrames := numFrames, firstFrame := firstFrame,
         frameRect := { left := toSint16 frameLeft, top := toSint16 frameTop,
                        right := toSint16 (toSint16 frameLeft + frameWidth),
                        bottom := toSint16 (toSint16 frameTop + frameHeight) },
         doAnimation := false, currentFrame := currentFrame % 65536 }

/-- The hook `MystResourceType12::handleAnimation()`, lines 689-696. `_currentFrame++` wraps at
16 bits; the difference `_currentFrame - _firstFrame` and its comparison with `_numFrames` are
made on `int` values. -/
def MystResourceType12.handleAnimation {ρ : Type} (r : Mohawk.MystResourceType12 ρ)
    (history : List Effect) : Mohawk.MystResourceType12 ρ × List Effect :=
  if r.doAnimation = true then
    let history := history ++ [Effect.copyImageToScreen r.currentFrame r.frameRect]
    let r := { r with currentFrame := (r.currentFrame + 1) % 65536 }
    if (r.currentFrame : Int) - (r.firstFrame : Int) ≥ (r.numFrames : Int) then
      ({ r with doAnimation := false }, history)
    else (r, history)
  else (r, history)

/-- The hook `MystResourceType12::handleMouseUp()`, lines 698-702. -/
def MystResourceType12.handleMouseUp {ρ : Type} (r : Mohawk.MystResourceType12 ρ)
    (history : List Effect) : Mohawk.MystResourceType12 ρ × List Effect :=
  ({ r with currentFrame := r.firstFrame, doAnimation := true }, history)

/-- The call `handleAnimation()` repeated `ticks` times. -/
def MystResourceType12.ticks {ρ : Type} (ticks : Nat)
    (p : Mohawk.MystResourceType12 ρ × List Effect) : Mohawk.MystResourceType12 ρ × List Effect :=
  Nat.iterate (fun q => MystResourceType12.handleAnimation q.1 q.2) ticks p

/-- The draws of the frames `first`, `first + 1`, ..., `first + count - 1` to `frameRect`. -/
def frameDraws (first count : Nat) (frameRect : Rect) : List Effect :=
  (List.range count).map (fun i => Effect.copyImageToScreen (first + i) frameRect)

/-! ## Sequences of mouse calls -/

/-- The three mouse hooks of a Type 10 or Type 11 resource. -/
inductive MouseCall where
  | handleMouseDown
  | handleMouseMove
  | handleMouseUp
  deriving DecidableEq, Repr

/-- One mouse call on a Type 10 resource. -/
def MystResourceType10.mouseCall {ρ : Type} (p : Mohawk.MystResourceType10 ρ × List Effect)
    (call : MouseCall) : Mohawk.MystResourceType10 ρ × List Effect :=
  match call with
  | MouseCall.handleMouseDown => MystResourceType10.handleMouseDown p.1 p.2
  | MouseCall.handleMouseMove => MystResourceType10.handleMouseMove p.1 p.2
  | MouseCall.handleMouseUp => MystResourceType10.handleMouseUp p.1 p.2

/-- One mouse call on a Type 11 resource. -/
def MystResourceType11.mouseCall {ρ : Type} (p : Mohawk.MystResourceType11 ρ × List Effect)
    (call : MouseCall) : Mohawk.MystResourceType11 ρ × List Effect :=
  match call with
  | MouseCall.handleMouseDown => MystResourceType11.handleMouseDown p.1 p.2
  | MouseCall.handleMouseMove => MystResourceType11.handleMouseMove p.1 p.2
  | MouseCall.handleMouseUp => MystResourceType11.handleMouseUp p.1 p.2

/-- The most recent call of `calls` that is a down or an up, if there is one. -/
def lastPress (calls : List MouseCall) : Option MouseCall :=
  (calls.filter (fun c => decide (c ≠ MouseCall.handleMouseMove))).getLast?

/-! ## Reading at a known cursor -/

/-- The load state with the cursor moved `n` bytes on. -/
def LoadState.skip (s : LoadState) (n : Nat) : LoadState :=
  { s with rlstStream := { s.rlstStream with pos := s.rlstStream.pos + n } }

/-- The load state after one more warning. -/
def LoadState.warn (s : LoadState) (w : Warning) : LoadState :=
  { s with warnings := s.warnings ++ [w] }

/-- The byte `i` places after the cursor (0 beyond the end of the stream). -/
def LoadState.byteAt (s : LoadState) (i : Nat) : Nat :=
  s.rlstStream.data.getD (s.rlstStream.pos + i) 0 % 256

/-- The unsigned little-endian value of the two bytes `i` and `i + 1` places after the cursor. -/
def LoadState.uint16At (s : LoadState) (i : Nat) : Nat :=
  s.byteAt i + 256 * s.byteAt (i + 1)

/-- The signed little-endian value of the two bytes `i` and `i + 1` places after the cursor. -/
def LoadState.sint16At (s : LoadState) (i : Nat) : Int :=
  if s.uint16At i < 32768 then (s.uint16At i : Int) else (s.uint16At i : Int) - 65536

/-- The number of bytes left between the cursor and the end of the stream. -/
def LoadState.remaining (s : LoadState) : Nat :=
  s.rlstStream.data.length - s.rlstStream.pos

/-- The signed 16-bit little-endian value of a byte pair, low byte first. -/
def sint16LE (lo hi : Nat) : Int :=
  if lo + 256 * hi < 32768 then ((lo + 256 * hi : Nat) : Int) else ((lo + 256 * hi : Nat) : Int) - 65536

/-- The stream as a constructor leaves it, `none` when the constructor fails. -/
def Loader.streamAfter {α : Type} (x : Loader α) (s : LoadState) : Option SeekableReadStream :=
  match x s with
  | Except.ok (_, s1) => some s1.rlstStream
  | Except.error _ => none

/-- The load state when the stream ends after its first `n` bytes. -/
def LoadState.truncate (s : LoadState) (n : Nat) : LoadState :=
  { s with rlstStream := { s.rlstStream with data := s.rlstStream.data.take n } }

/-- A constructor fails on a truncated stream: whenever it succeeds it has only moved the cursor
forward, it gives the same result on every stream that still holds all the bytes it has read,
and it fails with the fatal error on every stream that ends inside the bytes it has read. -/
def Loader.FailsOnTruncation {α : Type} (x : Loader α) : Prop :=
  ∀ s a s1, x s = Except.ok (a, s1) →
    s1.rlstStream.data = s.rlstStream.data ∧ s.rlstStream.pos ≤ s1.rlstStream.pos ∧
    (∀ n, s1.rlstStream.pos ≤ n → x (s.truncate n) = Except.ok (a, s1.truncate n)) ∧
    (∀ n, s.rlstStream.pos ≤ n → n < s1.rlstStream.pos →
      x (s.truncate n) = Except.error LoadError.truncatedStream)

/-- The items `xs` are read by `item` one after the other, in this order, starting in load state
`s` and ending in load state `s1`. -/
def Loader.ReadInOrder {α : Type} (item : Loader α) : LoadState → List α → LoadState → Prop
  | s, [], s1 => s1 = s
  | s, x :: xs, s1 => ∃ s2, item s = Except.ok (x, s2) ∧ Loader.ReadInOrder item s2 xs s1

/-- The load state with the warnings `ws` in place of its own. -/
def LoadState.withWarnings (s : LoadState) (ws : List Warning) : LoadState :=
  { s with warnings := ws }

/-- The value list that starts `i` places after the cursor: the count word and as many words
after it as the count says, in stream order. -/
def LoadState.valueListAt (s : LoadState) (i : Nat) : ValueList :=
  { listCount := s.uint16At i,
    list := (List.range (s.uint16At i)).map (fun j => s.uint16At (i + 2 + 2 * j)) }

/-- The `k` value lists that follow one another from `i` places after the cursor on. -/
def LoadState.valueLists (s : LoadState) : Nat → Nat → List ValueList
  | 0, _ => []
  | k + 1, i => s.valueListAt i :: LoadState.valueLists s k (i + 2 + 2 * s.uint16At i)

/-- The place, counted from the cursor, where the `k` value lists that start `i` places after
the cursor end. -/
def LoadState.valueListsEnd (s : LoadState) : Nat → Nat → Nat
  | 0, i => i
  | k + 1, i => LoadState.valueListsEnd s k (i + 2 + 2 * s.uint16At i)

deriving instance DecidableEq for Except

deriving instance DecidableEq for MystResourceType7

deriving instance DecidableEq for MystResourceType8

deriving instance DecidableEq for MystResourceType10

deriving instance DecidableEq for MystResourceType11

deriving instance DecidableEq for MystResourceType12

/-! ## Sample data -/

/-- An engine outside zip mode in which every variable is 0, with the enable bits 0x100, 2, 1. -/
def sampleVm : MohawkEngine_Myst :=
  { zipMode := false,
    enableFlags := { kMystZipModeEnableFlag := 256, kMystHotspotEnableFlag := 2,
                     kMystSubimageEnableFlag := 1 },
    getVar := fun _ _ => 0,
    view := { conditionalImages := [], mainImage := 9 } }

/-- The sample engine with every variable equal to `v`. -/
def sampleVmWith (v : Nat) : MohawkEngine_Myst :=
  { sampleVm with getVar := fun _ _ => v }

/-- An engine in which every variable is `v` and the view has the conditional images `conds`
and the main image 9. -/
def sampleVmView (conds : List MystCondition) (v : Nat) : MohawkEngine_Myst :=
  { sampleVm with getVar := fun _ _ => v, view := { conditionalImages := conds, mainImage := 9 } }

/-- A Type 8 resource without sub-resources, with control variable `var8`, `n` declared
sub-images and the sub-images `subImages`. -/
def sampleImageSwitch (var8 n : Nat) (subImages : List SubImage) : MystResourceType8 Nat :=
  { hasParent := false, flags := 3, rect := { left := 2, top := 0, right := 544, bottom := 333 },
    dest := 5, enabled := true, var7 := 0xFFFF, numSubResources := 0, subResources := [],
    var8 := var8, numSubImages := n, subImages := subImages }

/-- A Type 6 record read as a child (no base fields) with an empty script: the name bytes
92 (a backslash), 97 (the letter a) and the terminating 0, one pad byte, then left 100, top 200,
loop 1, u0 1, playBlocking 0, playOnCardChange 0 and u3 0. -/
def sampleVideoRecord : LoadState :=
  { rlstStream := { data := [92, 97, 0, 0, 100, 0, 200, 0, 1, 0, 1, 0, 0, 0, 0, 0, 0, 0],
                    pos := 0 },
    warnings := [] }

/-- The resource that the Type 6 constructor builds from the sample record as a child of the
sample Type 7 resource. -/
def sampleVideo : MystResourceType6 Unit :=
  { hasParent := true, flags := 3, rect := { left := 2, top := 0, right := 544, bottom := 333 },
    dest := 5, enabled := true, script := (), videoFile := ['a', '.', 'm', 'o', 'v'],
    left := 100, top := 200, loop := 1, u0 := 1, playBlocking := 0, playOnCardChange := 0,
    u3 := 0, videoRunning := false }

/-- A Type 10 record read as a child, without sub-resources and sub-images: var7 and var8 are
the sentinel, kind 1, rect10 (1, 2, 3, 4) in the order left, right, top, bottom, u0 = u1 = 0, the
opcodes 10 (down), 11 (drag) and 12 (up), and four empty lists. A Type 11 record is the same
with three lists (the first 34 bytes). -/
def sampleDragRecord : LoadState :=
  { rlstStream := { data := [255, 255, 0, 0, 255, 255, 0, 0, 1, 0, 1, 0, 3, 0, 2, 0, 4, 0,
                             0, 0, 0, 0, 10, 0, 11, 0, 12, 0, 0, 0, 0, 0, 0, 0, 0, 0],
                    pos := 0 },
    warnings := [] }

/-- The Type 8 part of the resources built from the sample drag record as a child of the sample
Type 7 resource. -/
def sampleDragBase : MystResourceType8 Unit :=
  { hasParent := true, flags := 3, rect := { left := 2, top := 0, right := 544, bottom := 333 },
    dest := 5, enabled := true, var7 := 0xFFFF, numSubResources := 0, subResources := [],
    var8 := 0xFFFF, numSubImages := 0, subImages := [] }

/-- The Type 10 resource built from the sample drag record. -/
def sampleDrag10 : MystResourceType10 Unit :=
  { sampleDragBase with
    kind := 1, rect10 := { left := 1, top := 2, right := 3, bottom := 4 }, u0 := 0, u1 := 0,
    mouseDownOpcode := 10, mouseDragOpcode := 11, mouseUpOpcode := 12,
    lists := [{ listCount := 0, list := [] }, { listCount := 0, list := [] },
              { listCount := 0, list := [] }, { listCount := 0, list := [] }],
    mouseDown := false }

/-- The Type 11 resource built from the first 34 bytes of the sample drag record. -/
def sampleDrag11 : MystResourceType11 Unit :=
  { sampleDragBase with
    kind := 1, rect11 := { left := 1, top := 2, right := 3, bottom := 4 }, u0 := 0, u1 := 0,
    mouseDownOpcode := 10, mouseDragOpcode := 11, mouseUpOpcode := 12,
    lists := [{ listCount := 0, list := [] }, { listCount := 0, list := [] },
              { listCount := 0, list := [] }],
    mouseDown := false }

/-- A Type 12 resource with first frame `f` and `n` frames; `_doAnimation` is false and the
frame counter holds 999. -/
def sampleFrames (f n : Nat) : MystResourceType12 Unit :=
  { sampleDragBase with
    kind := 1, rect11 := { left := 1, top := 2, right := 3, bottom := 4 }, state0Frame := 0,
    state1Frame := 0, mouseDownOpcode := 10, mouseDragOpcode := 11, mouseUpOpcode := 12,
    lists := [{ listCount := 0, list := [] }, { listCount := 0, list := [] },
              { listCount := 0, list := [] }],
    numFrames := n, firstFrame := f,
    frameRect := { left := 0, top := 0, right := 20, bottom := 30 },
    doAnimation := false, currentFrame := 999 }

/-- A Type 8 resource with the sentinel as control variable and one sub-image, of target id
`wdib`. -/
def sampleImage (wdib : Nat) : MystResourceType8 Nat :=
  sampleImageSwitch 0xFFFF 1
    [{ wdib := wdib, rect := { left := 0, top := 0, right := 10, bottom := 10 } }]

/-- The sample Type 8 resource with `n` sub-images, all with target id 7 and the same rect. -/
def sampleImageSwitchOf (var8 n : Nat) : MystResourceType8 Nat :=
  sampleImageSwitch var8 n
    (List.replicate n { wdib := 7, rect := { left := 0, top := 0, right := 10, bottom := 10 } })

/-- A Type 7 resource with control variable `var7` and `n` sub-resources (numbered 0 to n-1). -/
def sampleSwitch (var7 n : Nat) : MystResourceType7 Nat :=
  { hasParent := false, flags := 3, rect := { left := 2, top := 0, right := 544, bottom := 333 },
    dest := 5, enabled := true, var7 := var7, numSubResources := n,
    subResources := List.range n }

/-- The fields a Type 13 record has after the base fields, as a payload for `loadResource`. -/
def sampleTypeSpecific (_type : Nat) (_base : MystResource) : Loader (Nat × Nat) := do
  let enterOpcode ← readUint16LE
  let leaveOpcode ← readUint16LE
  pure (enterOpcode, leaveOpcode)

/-- A Type 7 record without parent: the 12 base bytes (flags 3, rect (2, 1, 544, 333), dest 5),
var7 = 3, numSubResources = 2 and two sub-records of 6 bytes each (a type word, then two
opcodes). -/
def sampleSwitchRecord : LoadState :=
  { rlstStream := { data := [3, 0, 2, 0, 1, 0, 32, 2, 77, 1, 5, 0, 3, 0, 2, 0,
                             13, 0, 7, 0, 9, 0, 13, 0, 8, 0, 10, 0], pos := 0 },
    warnings := [] }

/-- A 16-byte stream: flags 0x0003, left 2, top 0xFFFF (-1), right 544, bottom 333, dest 5,
then the words 7 and 9. -/
def sampleRecord : LoadState :=
  { rlstStream := { data := [3, 0, 2, 0, 255, 255, 32, 2, 77, 1, 5, 0, 7, 0, 9, 0], pos := 0 },
    warnings := [] }

/-- The bytes of a Type 12 record read as a child, without sub-resources and sub-images: the
first 34 bytes of the sample drag record (the two words after the rect are the frames of the
states 0 and 1), then `n` frames from the first frame `f`, the frame width 20 and height 30 and
the frame position (0, 0). -/
def sampleFramesRecord (f n : Nat) : LoadState :=
  { rlstStream := { data := sampleDragRecord.rlstStream.data.take 34 ++
                      [n % 256, n / 256, f % 256, f / 256, 20, 0, 30, 0, 0, 0, 0, 0],
                    pos := 0 },
    warnings := [] }

/-- A Type 6 record as the sample video record, with the reserved fields u0 = 2 and u3 = 5. -/
def sampleVideoRecordReserved : LoadState :=
  { rlstStream := { data := [92, 97, 0, 0, 100, 0, 200, 0, 1, 0, 2, 0, 0, 0, 0, 0, 5, 0],
                    pos := 0 },
    warnings := [] }

/-- A Type 10 record as the sample drag record, with the reserved fields u0 = 1 and u1 = 2 and
with the four lists (7, 9), (), (5) and (). A Type 11 record is the same with three lists (the
first 40 bytes). -/
def sampleListsRecord : LoadState :=
  { rlstStream := { data := [255, 255, 0, 0, 255, 255, 0, 0, 1, 0, 1, 0, 3, 0, 2, 0, 4, 0,
                             1, 0, 2, 0, 10, 0, 11, 0, 12, 0,
                             2, 0, 7, 0, 9, 0, 0, 0, 1, 0, 5, 0, 0, 0],
                    pos := 0 },
    warnings := [] }

/-! ## The conditional draw of Type 8 -/

/-- The selection of the sub-image in `MystResourceType8::drawConditionalDataToScreen(state)`,
lines 413-426: the values of `drawSubImage` and of the `int16 subImageId` after line 426, and
the history. -/
def MystResourceType8.selectConditionalSubImage {ρ : Type} (r : Mohawk.MystResourceType8 ρ)
    (state : Nat) (history : List Effect) : Bool × Int × List Effect :=
  if r.numSubImages = 1 ∧ state ≠ 0 then
    (true, 0, history)
  else if r.numSubImages ≠ 0 then
    if state < r.numSubImages then
      (true, toSint16 state, history)
    else
      (false, 0,
        history ++ [Effect.warning (Warning.type8VarExceeds r.var8 state r.numSubImages)])
  else (false, 0, history)

/-- The method `MystResourceType8::drawConditionalDataToScreen(state)`, lines 408-452; `state` is
a `uint16` parameter. -/
def MystResourceType8.drawConditionalDataToScreen {ρ : Type} (vm : MohawkEngine_Myst)
    (r : Mohawk.MystResourceType8 ρ) (state : Nat) (history : List Effect) : List Effect :=
  let history := MystResourceType7.drawDataToScreen vm r.toMystResourceType7 history
  let selected := MystResourceType8.selectConditionalSubImage r (state % 65536) history
  if selected.1 then
    let subImage := MystResourceType8.subImageAt r selected.2.1
    let image := MystResourceType8.imageToDraw vm subImage.wdib selected.2.2
    image.2 ++ [Effect.copyImageSectionToScreen image.1 subImage.rect r.rect]
  else selected.2.2

end Mohawk

/-! # Module1000 and the door of Scene1001 (engines/neverhood/module1000.cpp) -/

namespace Neverhood

/-! ## Module1000: the scenes of the module -/

/-- The child objects that `Module1000::createScene` installs in `_childObject`: the scene
class, with the argument `which` of its constructor, or the static scene with its two hashes. -/
inductive ChildObject where
  | scene1001 (which : Int)
  | scene1002 (which : Int)
  | staticScene (backgroundFileHash : Nat) (cursorFileHash : Nat)
  | scene1004 (which : Int)
  | scene1005 (which : Int)
  deriving DecidableEq, Repr

/-- The update handlers that `SetUpdateHandler` installs in a `Module1000`. -/
inductive UpdateHandler where
  | updateScene
  deriving DecidableEq, Repr

/-- The calls a `Module1000` makes on its collaborators, in program order. -/
inductive Call where
  /-- A call `_vm->_soundMan->addMusic(groupNameHash, musicFileHash)`. -/
  | addMusic (groupNameHash : Nat) (musicFileHash : Nat)
  /-- A call `_vm->_soundMan->startMusic(musicFileHash, countdown, fadeVolumeStep)`. -/
  | startMusic (musicFileHash : Nat) (countdown : Int) (fadeVolumeStep : Int)
  /-- A call `_vm->_soundMan->stopMusic(musicFileHash, countdown, fadeVolumeStep)`. -/
  | stopMusic (musicFileHash : Nat) (countdown : Int) (fadeVolumeStep : Int)
  /-- A call `_childObject->handleUpdate()`, with the value of `_childObject` at the call;
  `none` is the null pointer, through which the call is undefined in the source. -/
  | childHandleUpdate (childObject : Option ChildObject)
  /-- A call `leaveModule(result)`. -/
  | leaveModule (result : Nat)
  deriving DecidableEq, Repr

/-- The state of a `Module1000`: the scene number of the game state
(`_vm->gameState().sceneNum`), the fields `_moduleResult`, `_childObject` and `_musicFileHash`,
the installed update handler and the calls made so far. -/
structure Module1000 where
  sceneNum : Int
  moduleResult : Nat
  childObject : Option ChildObject
  musicFileHash : Nat
  updateHandler : Option UpdateHandler
  calls : List Call
  deriving DecidableEq, Repr

/-- One call appended to the calls of the module. -/
def Module1000.call (m : Module1000) (c : Call) : Module1000 :=
  { m with calls := m.calls ++ [c] }

/-- Modelled from the spec: `Module::createStaticScene(backgroundFileHash, cursorFileHash)`
(module.cpp is not among the sources): the module constructs the next scene, here the static
scene with these two hashes, and owns it as its child. -/
def Module1000.createStaticScene (m : Module1000) (backgroundFileHash cursorFileHash : Nat) :
    Module1000 :=
  { m with childObject := some (ChildObject.staticScene backgroundFileHash cursorFileHash) }

/-- The method `Module1000::createScene(sceneNum, which)`, lines 51-79. The switch has no default
case. -/
def Module1000.createScene (m : Neverhood.Module1000) (sceneNum which : Int) :
    Neverhood.Module1000 :=
  let m := { m with sceneNum := sceneNum }
  let m :=
    if m.sceneNum = 0 then
      { m.call (Call.startMusic 0x061880C6 0 0) with
        childObject := some (ChildObject.scene1001 which) }
    else if m.sceneNum = 1 then
      { m.call (Call.startMusic 0x061880C6 0 0) with
        childObject := some (ChildObject.scene1002 which) }
    else if m.sceneNum = 2 then
      (m.call (Call.startMusic 0x061880C6 0 0)).createStaticScene 0xC084110C 0x41108C00
    else if m.sceneNum = 3 then
      { m.call (Call.stopMusic 0x061880C6 0 2) with
        childObject := some (ChildObject.scene1004 which) }
    else if m.sceneNum = 4 then
      { (m.call (Call.stopMusic 0x061880C6 0 0)).call (Call.startMusic m.musicFileHash 0 0) with
        childObject := some (ChildObject.scene1005 which) }
    else m
  let m := { m with updateHandler := some UpdateHandler.updateScene }
  m.call (Call.childHandleUpdate m.childObject)

/-- The constructor `Module1000::Module1000(vm, parentModule, which)`, lines 27-45.
`entranceOpen` is the value of `getGlobalVar(V_ENTRANCE_OPEN)` and `savedSceneNum` the scene
number the game state holds. The base constructor `Module::Module` is not among the sources: a
module under construction has no child yet (`_childObject` is null), no update handler and no
result. -/
def Module1000.Module1000 (entranceOpen : Nat) (savedSceneNum : Int) (which : Int) :
    Neverhood.Module1000 :=
  let m : Neverhood.Module1000 :=
    { sceneNum := savedSceneNum, moduleResult := 0, childObject := none,
      musicFileHash := if entranceOpen ≠ 0 then 0x81106480 else 0x00103144,
      updateHandler := none, calls := [] }
  let m := m.call (Call.addMusic 0x03294419 0x061880C6)
  let m := m.call (Call.addMusic 0x03294419 m.musicFileHash)
  if which < 0 then Module1000.createScene m m.sceneNum (-1)
  else if which = 0 then Module1000.createScene m 0 0
  else if which = 1 then Module1000.createScene m 1 1
  else m

/-- Modelled from the spec: `Module::updateChild()` (module.cpp is not among the sources). The
child, if there is one, is updated. `finished` is `some result` when during this update the child
sends the terminal leave message carrying the result code `result`: the result is stored in
`_moduleResult`, the child is destroyed and the reference to it nulled, and the method returns
false. Otherwise it returns true. -/
def Module1000.updateChild (m : Neverhood.Module1000) (finished : Option Nat) :
    Bool × Neverhood.Module1000 :=
  match m.childObject with
  | none => (true, m)
  | some child =>
    let m := m.call (Call.childHandleUpdate (some child))
    match finished with
    | some result => (false, { m with moduleResult := result % 4294967296, childObject := none })
    | none => (true, m)

/-- The method `Module1000::updateScene()`, lines 81-113; `finished` is what the child does
during the call of `updateChild()`. -/
def Module1000.updateScene (m : Neverhood.Module1000) (finished : Option Nat) :
    Neverhood.Module1000 :=
  let updated := Module1000.updateChild m finished
  let m := updated.2
  if updated.1 = false then
    if m.sceneNum = 0 then
      if m.moduleResult = 2 then Module1000.createScene m 2 0
      else Module1000.createScene m 1 0
    else if m.sceneNum = 1 then
      if m.moduleResult = 1 then m.call (Call.leaveModule 0)
      else if m.moduleResult = 2 then Module1000.createScene m 3 0
      else Module1000.createScene m 0 1
    else if m.sceneNum = 2 then Module1000.createScene m 0 2
    else if m.sceneNum = 3 then
      if m.moduleResult = 1 then Module1000.createScene m 4 0
      else Module1000.createScene m 1 2
    else if m.sceneNum = 4 then
      Module1000.createScene (m.call (Call.stopMusic m.musicFileHash 0 1)) 3 1
    else m
  else m

/-- The calls of `updateScene()` on successive frames, `finished` listing what the child does on
each frame. -/
def Module1000.run (m : Neverhood.Module1000) (finished : List (Option Nat)) :
    Neverhood.Module1000 :=
  finished.foldl Module1000.updateScene m

/-- The number of calls of `leaveModule` among the calls of a module. -/
def leaveCalls (calls : List Call) : Nat :=
  calls.countP (fun c => match c with
    | Call.leaveModule _ => true
    | _ => false)

/-- A module in scene `sceneNum` whose child is the first scene. -/
def sampleModule (sceneNum : Int) : Neverhood.Module1000 :=
  { sceneNum := sceneNum, moduleResult := 0, childObject := some (ChildObject.scene1001 0),
    musicFileHash := 0x00103144, updateHandler := some UpdateHandler.updateScene, calls := [] }


/-! ## AsScene1001Door: the scheduled next state -/

/-- The global variables that `AsScene1001Door` reads and writes. -/
inductive GlobalVar where
  | V_DOOR_STATUS
  | V_DOOR_BUSTED
  deriving DecidableEq, Repr

/-- The state functions of `AsScene1001Door` that `NextState` schedules. -/
inductive DoorState where
  | stShowIdleDoor
  | stBustedDoorMove
  | stBustedDoorGone
  deriving DecidableEq, Repr

/-- The calls an `AsScene1001Door` makes on its base classes, in program order. -/
inductive SpriteCall where
  /-- A call `playSound(index, soundFileHash)`; `none` when the second argument is left out. -/
  | playSound (index : Nat) (soundFileHash : Option Nat)
  /-- A call `startAnimation(fileHash, plFirstFrameIndex, plLastFrameIndex)`. -/
  | startAnimation (fileHash : Nat) (plFirstFrameIndex : Int) (plLastFrameIndex : Int)
  /-- A call `stopAnimation()`. -/
  | stopAnimation
  /-- A call `setVisible(visible)`. -/
  | setVisible (visible : Bool)
  /-- The state function `cb` is invoked by `gotoNextState()`. -/
  | state (cb : DoorState)
  deriving DecidableEq, Repr

/-- The state of an `AsScene1001Door`: the fields the sprite writes, the pending next state
(`_nextStateCb`), the calls made so far, and the global variables of the engine, which the sprite
reads with `getGlobalVar` and writes with `setGlobalVar` and `incGlobalVar`. -/
structure AsScene1001Door where
  x : Int
  y : Int
  newStickFrameIndex : Int
  nextStateCb : Option DoorState
  calls : List SpriteCall
  globalVars : GlobalVar → Nat

/-- One call appended to the calls of the door. -/
def AsScene1001Door.call (d : AsScene1001Door) (c : SpriteCall) : AsScene1001Door :=
  { d with calls := d.calls ++ [c] }

/-- Modelled from the spec: `getGlobalVar(var)` (the variable store is not among the sources):
the current value of the variable. -/
def AsScene1001Door.getGlobalVar (d : AsScene1001Door) (var : GlobalVar) : Nat :=
  d.globalVars var

/-- Modelled from the spec: `setGlobalVar(var, value)` (the variable store is not among the
sources): the variable holds the 32-bit value afterwards, the other variables are unchanged. -/
def AsScene1001Door.setGlobalVar (d : AsScene1001Door) (var : GlobalVar) (value : Nat) :
    AsScene1001Door :=
  { d with globalVars := fun v => if v = var then value % 4294967296 else d.globalVars v }

/-- Modelled from the spec: `incGlobalVar(var, delta)` (the variable store is not among the
sources): the variable is increased by `delta`. -/
def AsScene1001Door.incGlobalVar (d : AsScene1001Door) (var : GlobalVar) (delta : Nat) :
    AsScene1001Door :=
  d.setGlobalVar var (d.getGlobalVar var + delta)

/-- Modelled from the spec: `NextState(cb)` (the macro is defined in sprite.h, which is not among
the sources): the entity schedules `cb` as its next state. There is one slot for the pending
state, and scheduling overwrites what the slot holds. -/
def AsScene1001Door.NextState (d : AsScene1001Door) (cb : DoorState) : AsScene1001Door :=
  { d with nextStateCb := some cb }

/-- The state function `AsScene1001Door::stShowIdleDoor()`, lines 162-181. -/
def AsScene1001Door.stShowIdleDoor (d : AsScene1001Door) : AsScene1001Door :=
  if d.getGlobalVar GlobalVar.V_DOOR_STATUS = 1 then
    { d.call (SpriteCall.startAnimation 0x624C0498 4 (-1)) with newStickFrameIndex := 4 }
  else if d.getGlobalVar GlobalVar.V_DOOR_STATUS = 2 then
    { d.call (SpriteCall.startAnimation 0x624C0498 1 (-1)) with newStickFrameIndex := 1 }
  else if d.getGlobalVar GlobalVar.V_DOOR_STATUS = 3 then
    (d.call SpriteCall.stopAnimation).call (SpriteCall.setVisible false)
  else
    { d.call (SpriteCall.startAnimation 0x624C0498 0 (-1)) with newStickFrameIndex := 0 }

/-- The state function `AsScene1001Door::stBustedDoorGone()`, lines 190-194. -/
def AsScene1001Door.stBustedDoorGone (d : AsScene1001Door) : AsScene1001Door :=
  ((d.call (SpriteCall.playSound 0 none)).call SpriteCall.stopAnimation).call
    (SpriteCall.setVisible false)

/-- The state function `AsScene1001Door::stBustedDoorMove()`, lines 183-188. -/
def AsScene1001Door.stBustedDoorMove (d : AsScene1001Door) : AsScene1001Door :=
  let d := d.setGlobalVar GlobalVar.V_DOOR_BUSTED 1
  let d := d.call (SpriteCall.startAnimation 0x624C0498 6 6)
  let d := d.NextState DoorState.stBustedDoorGone
  { d with x := 30 }

/-- The invocation `(this->*cb)()` of a state function. -/
def AsScene1001Door.runState (d : AsScene1001Door) (cb : DoorState) : AsScene1001Door :=
  match cb with
  | DoorState.stShowIdleDoor => d.stShowIdleDoor
  | DoorState.stBustedDoorMove => d.stBustedDoorMove
  | DoorState.stBustedDoorGone => d.stBustedDoorGone

/-- Modelled from the spec: `gotoNextState()` (sprite.cpp is not among the sources): it checks
for a pending scheduled state and, if one is present, invokes it and clears the pending slot; if
none is present it does nothing. The slot is emptied when the state is taken from it, so that
what the state itself schedules (as `stBustedDoorMove` does) stays pending. -/
def AsScene1001Door.gotoNextState (d : AsScene1001Door) : AsScene1001Door :=
  match d.nextStateCb with
  | some cb => ({ d with nextStateCb := none }.call (SpriteCall.state cb)).runState cb
  | none => d

/-- The method `AsScene1001Door::hammerHitsDoor()`, lines 142-160. -/
def AsScene1001Door.hammerHitsDoor (d : AsScene1001Door) : AsScene1001Door :=
  let d :=
    if d.getGlobalVar GlobalVar.V_DOOR_STATUS = 0 ∨ d.getGlobalVar GlobalVar.V_DOOR_STATUS = 1 then
      ((d.call (SpriteCall.playSound 0 (some 0x65482F03))).call
        (SpriteCall.startAnimation 0x624C0498 1 3)).NextState DoorState.stShowIdleDoor
    else if d.getGlobalVar GlobalVar.V_DOOR_STATUS = 2 then
      ((d.call (SpriteCall.playSound 1 none)).call
        (SpriteCall.startAnimation 0x624C0498 6 6)).NextState DoorState.stBustedDoorMove
    else d
  d.incGlobalVar GlobalVar.V_DOOR_STATUS 1

/-- Modelled from the spec: `Sprite::handleMessage(messageNum, param, sender)` (sprite.cpp is not
among the sources): the default base behaviour, which does nothing and reports the message as
unhandled (0). -/
def Sprite.handleMessage (d : AsScene1001Door) (_messageNum : Nat) : Nat × AsScene1001Door :=
  (0, d)

/-- The handler `AsScene1001Door::handleMessage(messageNum, param, sender)`, lines 129-140: the
result and the door as the handler leaves it. The handler uses neither `param` nor `sender`. -/
def AsScene1001Door.handleMessage (d : AsScene1001Door) (messageNum : Nat) :
    Nat × AsScene1001Door :=
  let d := (Sprite.handleMessage d messageNum).2
  if messageNum = 0x2000 then (0, d.hammerHitsDoor)
  else if messageNum = 0x3002 then (0, d.gotoNextState)
  else (0, d)

/-- The state functions that `gotoNextState()` has invoked, in order. -/
def statesRun (calls : List SpriteCall) : List DoorState :=
  calls.filterMap (fun c => match c with
    | SpriteCall.state cb => some cb
    | _ => none)

/-- A door at the place the constructor puts it (726, 440), with nothing pending, no calls made
and the door status `status`. -/
def sampleDoor (status : Nat) : AsScene1001Door :=
  { x := 726, y := 440, newStickFrameIndex := 0, nextStateCb := none, calls := [],
    globalVars := fun v => if v = GlobalVar.V_DOOR_STATUS then status else 0 }

/-! ## The variable store -/

/-- Modelled from the spec: the variable store (gamevars.cpp is not among the sources): a mapping
from the key of a variable to its 32-bit value; a sub-variable has a key and an index. -/
structure VariableStore where
  globalVars : Nat → Nat
  subVars : Nat → Nat → Nat

/-- The names of the variables that the sprites and scenes below use. They are enumerators of a
header that is not among the sources and are carried as parameters; the variables that the
source names by their hash keep the hash. -/
structure GlobalVarNames where
  V_FLYTRAP_RING_DOOR : Nat
  V_FLYTRAP_RING_BRIDGE : Nat
  V_FLYTRAP_RING_FENCE : Nat
  V_FLYTRAP_RING_EATEN : Nat
  V_FLYTRAP_POSITION_1 : Nat
  V_FLYTRAP_POSITION_2 : Nat
  V_TEXT_COUNTING_INDEX1 : Nat
  V_TEXT_COUNTING_INDEX2 : Nat
  V_WORLDS_JOINED : Nat
  V_DOOR_PASSED : Nat
  V_ROBOT_TARGET : Nat
  V_ROBOT_HIT : Nat
  V_ENTRANCE_OPEN : Nat
  V_HAS_FINAL_KEY : Nat
  V_FELL_DOWN_HOLE : Nat
  V_SEEN_SYMBOLS_NO_LIGHT : Nat
  V_BOLT_DOOR_UNLOCKED : Nat
  V_WALL_BROKEN : Nat
  V_RADIO_ENABLED : Nat
  V_BEEN_SHRINKING_ROOM : Nat
  V_BEEN_STATUE_ROOM : Nat
  V_TILE_PUZZLE_SOLVED : Nat
  V_HAS_TEST_TUBE : Nat
  V_WATER_RUNNING : Nat
  V_NOTES_PUZZLE_SOLVED : Nat
  V_CREATURE_ANGRY : Nat
  V_TNT_DUMMY_BUILT : Nat
  VA_HAS_KEY : Nat
  VA_IS_KEY_INSERTED : Nat
  VA_LOCKS_DISABLED : Nat

/-- Modelled from the spec: `getGlobalVar(nameHash)`, the current value of the variable, a
`uint32`. -/
def VariableStore.getGlobalVar (vars : VariableStore) (nameHash : Nat) : Nat :=
  vars.globalVars nameHash % 4294967296

/-- Modelled from the spec: `getSubVar(nameHash, subNameHash)`, the current value of the
sub-variable, a `uint32`. -/
def VariableStore.getSubVar (vars : VariableStore) (nameHash subNameHash : Nat) : Nat :=
  vars.subVars nameHash subNameHash % 4294967296

/-- Modelled from the spec: `setGlobalVar(nameHash, value)`: the variable holds the value
afterwards, the other variables are unchanged. -/
def VariableStore.setGlobalVar (vars : VariableStore) (nameHash value : Nat) : VariableStore :=
  { vars with globalVars := fun n => if n = nameHash then value % 4294967296
                                     else vars.globalVars n }

/-- The value of an `int` converted to `uint32`. -/
def toUint32 (v : Int) : Nat := (v % 4294967296).toNat

/-! ## AsScene1002Door -/

/-- The sprite update handlers that `SetSpriteUpdate` installs in an `AsScene1002Door`. -/
inductive DoorSpriteUpdate where
  | suOpenDoor
  | suCloseDoor
  deriving DecidableEq, Repr

/-- The state of an `AsScene1002Door` that its methods read and write: the position (`int16`),
`_needRefresh`, the installed sprite update handler (`none` for NULL) and the global variable
V_FLYTRAP_RING_DOOR. The surface and the draw rect, which the constructor sets from the sprite
resource, are not modelled. -/
structure AsScene1002Door where
  x : Int
  y : Int
  needRefresh : Bool
  spriteUpdate : Option DoorSpriteUpdate
  flytrapRingDoor : Nat
  deriving DecidableEq, Repr

/-- The constructor `AsScene1002Door::AsScene1002Door(vm, clipRect)`, lines 609-636;
`flytrapRingDoor` is the value of the global variable V_FLYTRAP_RING_DOOR. -/
def AsScene1002Door.AsScene1002Door (flytrapRingDoor : Nat) : Neverhood.AsScene1002Door :=
  { x := 526, y := if flytrapRingDoor % 4294967296 ≠ 0 then 49 else 239, needRefresh := true,
    spriteUpdate := none, flytrapRingDoor := flytrapRingDoor % 4294967296 }

/-- Modelled from the spec: `Sprite::handleMessage(messageNum, param, sender)` of sprite.cpp,
which is not among the sources, as the handlers of the sprites of Scene1002 call it first: it
leaves the sprite as it is and returns a result, `baseResult`, which is a parameter of the
handlers below (0, unhandled, by default). -/
def Sprite.baseHandleMessage (baseResult : Nat) (_messageNum : Nat) : Nat :=
  baseResult % 4294967296

/-- The handler `AsScene1002Door::handleMessage(messageNum, param, sender)`, lines 643-656. -/
def AsScene1002Door.handleMessage (d : Neverhood.AsScene1002Door) (baseResult : Nat)
    (messageNum : Nat) : Nat × Neverhood.AsScene1002Door :=
  let messageResult := Sprite.baseHandleMessage baseResult messageNum
  if messageNum = 0x4808 then
    (messageResult, { d with flytrapRingDoor := 1,
                             spriteUpdate := some DoorSpriteUpdate.suOpenDoor })
  else if messageNum = 0x4809 then
    (messageResult, { d with flytrapRingDoor := 0,
                             spriteUpdate := some DoorSpriteUpdate.suCloseDoor })
  else (messageResult, d)

/-- The sprite update handler `AsScene1002Door::suOpenDoor()`, lines 658-667. -/
def AsScene1002Door.suOpenDoor (d : Neverhood.AsScene1002Door) : Neverhood.AsScene1002Door :=
  if d.y > 49 then
    let d := { d with y := Mohawk.toSint16 (d.y - 8) }
    let d := if d.y < 49 then { d with spriteUpdate := none, y := 49 } else d
    { d with needRefresh := true }
  else d

/-- The sprite update handler `AsScene1002Door::suCloseDoor()`, lines 669-678. -/
def AsScene1002Door.suCloseDoor (d : Neverhood.AsScene1002Door) : Neverhood.AsScene1002Door :=
  if d.y < 239 then
    let d := { d with y := Mohawk.toSint16 (d.y + 8) }
    let d := if d.y > 239 then { d with spriteUpdate := none, y := 239 } else d
    { d with needRefresh := true }
  else d

/-! ## AsScene1002OutsideDoorBackground -/

/-- The message handlers that `SetMessageHandler` installs in an
`AsScene1002OutsideDoorBackground`. -/
inductive OutsideDoorMessageHandler where
  | handleMessage
  | hmAnimation
  deriving DecidableEq, Repr

/-- The state of an `AsScene1002OutsideDoorBackground` that its two message handlers read and
write: `_isDoorClosed`, `_countdown` and the number of calls of `gotoNextState()` made so far. -/
structure AsScene1002OutsideDoorBackground where
  isDoorClosed : Bool
  countdown : Int
  gotoNextStateCalls : Nat
  deriving DecidableEq, Repr

/-- The handler `AsScene1002OutsideDoorBackground::handleMessage(messageNum, param, sender)`,
lines 1153-1166: the switch is on `messageResult`. -/
def AsScene1002OutsideDoorBackground.handleMessage
    (b : Neverhood.AsScene1002OutsideDoorBackground) (baseResult : Nat) (messageNum : Nat) :
    Nat × Neverhood.AsScene1002OutsideDoorBackground :=
  let messageResult := Sprite.baseHandleMessage baseResult messageNum
  if messageResult = 0x4808 then
    (messageResult, { b with isDoorClosed := false, countdown := 2 })
  else if messageResult = 0x4809 then
    (messageResult, { b with isDoorClosed := true, countdown := 2 })
  else (messageResult, b)

/-- The handler `AsScene1002OutsideDoorBackground::hmAnimation(messageNum, param, sender)`, lines
1168-1176: the switch is on `messageResult`. -/
def AsScene1002OutsideDoorBackground.hmAnimation
    (b : Neverhood.AsScene1002OutsideDoorBackground) (baseResult : Nat) (messageNum : Nat) :
    Nat × Neverhood.AsScene1002OutsideDoorBackground :=
  let handled := AsScene1002OutsideDoorBackground.handleMessage b baseResult messageNum
  if handled.1 = 0x3002 then
    (handled.1, { handled.2 with gotoNextStateCalls := handled.2.gotoNextStateCalls + 1 })
  else handled

/-- The handlers as the claim describes them, with the switches on `messageNum` as in
`AsScene1002Door::handleMessage`: what message 0x4808, message 0x4809 and, in `hmAnimation`,
message 0x3002 are said to do. -/
def outsideDoorAsClaimed (b : Neverhood.AsScene1002OutsideDoorBackground)
    (viaAnimation : Bool) (messageNum : Nat) : Neverhood.AsScene1002OutsideDoorBackground :=
  let b :=
    if messageNum = 0x4808 then { b with isDoorClosed := false, countdown := 2 }
    else if messageNum = 0x4809 then { b with isDoorClosed := true, countdown := 2 }
    else b
  if viaAnimation = true ∧ messageNum = 0x3002 then
    { b with gotoNextStateCalls := b.gotoNextStateCalls + 1 }
  else b

/-! ## Scene1005: the text index -/

/-- The method `Scene1005::getTextIndex2()`, lines 1842-1851: the result and the variable store
as the method leaves it. -/
def Scene1005.getTextIndex2 (names : GlobalVarNames) (vars : VariableStore) :
    Nat × VariableStore :=
  let textIndex := vars.getGlobalVar names.V_TEXT_COUNTING_INDEX1
  if (textIndex + 1) % 4294967296 ≥ 10 then
    ((0 + 40) % 4294967296, vars.setGlobalVar names.V_TEXT_COUNTING_INDEX1 0)
  else
    ((textIndex + 40) % 4294967296,
      vars.setGlobalVar names.V_TEXT_COUNTING_INDEX1 ((textIndex + 1) % 4294967296))

/-- The method `Scene1005::getTextIndex3()`, lines 1853-1862. -/
def Scene1005.getTextIndex3 (names : GlobalVarNames) (vars : VariableStore) :
    Nat × VariableStore :=
  let textIndex := vars.getGlobalVar names.V_TEXT_COUNTING_INDEX2
  if (textIndex + 1) % 4294967296 ≥ 10 then
    ((0 + 30) % 4294967296, vars.setGlobalVar names.V_TEXT_COUNTING_INDEX2 0)
  else
    ((textIndex + 30) % 4294967296,
      vars.setGlobalVar names.V_TEXT_COUNTING_INDEX2 ((textIndex + 1) % 4294967296))

/-- The method `Scene1005::getTextIndex1()`, lines 1772-1840: the result and the variable store
as the method leaves it (the method calls no setter). -/
def Scene1005.getTextIndex1 (names : GlobalVarNames) (vars : VariableStore) :
    Nat × VariableStore :=
  if vars.getGlobalVar names.V_WORLDS_JOINED ≠ 0 then
    if vars.getGlobalVar names.V_DOOR_PASSED = 0 then (18, vars)
    else if vars.getGlobalVar names.V_ROBOT_TARGET = 0 then (19, vars)
    else if vars.getGlobalVar names.V_ROBOT_HIT ≠ 0 then
      if vars.getGlobalVar names.V_ENTRANCE_OPEN = 0 then (23, vars)
      else if vars.getSubVar names.VA_HAS_KEY 0 = 0 ∧
          vars.getSubVar names.VA_IS_KEY_INSERTED 0 = 0 then (24, vars)
      else if vars.getGlobalVar names.V_HAS_FINAL_KEY = 0 then (26, vars)
      else if vars.getSubVar names.VA_HAS_KEY 1 = 0 ∧
          vars.getSubVar names.VA_IS_KEY_INSERTED 1 = 0 then (27, vars)
      else if vars.getGlobalVar names.V_HAS_FINAL_KEY = 0 then (28, vars)
      else (29, vars)
    else if vars.getGlobalVar names.V_FELL_DOWN_HOLE = 0 then (20, vars)
    else if vars.getGlobalVar names.V_SEEN_SYMBOLS_NO_LIGHT = 0 then (21, vars)
    else (22, vars)
  else if vars.getGlobalVar names.V_BOLT_DOOR_UNLOCKED ≠ 0 then
    if vars.getGlobalVar names.V_WALL_BROKEN = 0 then (12, vars)
    else if vars.getGlobalVar 0x2050861A = 0 then (13, vars)
    else if vars.getGlobalVar names.V_RADIO_ENABLED = 0 then (50, vars)
    else if vars.getGlobalVar 0x89C669AA = 0 then (14, vars)
    else if vars.getGlobalVar names.V_BEEN_SHRINKING_ROOM = 0 then (15, vars)
    else if vars.getGlobalVar names.V_BEEN_STATUE_ROOM = 0 then (16, vars)
    else (17, vars)
  else if vars.getGlobalVar names.V_FLYTRAP_RING_EATEN = 0 then (0, vars)
  else if vars.getGlobalVar 0x0A18CA33 ≠ 0 then
    if vars.getGlobalVar names.V_TILE_PUZZLE_SOLVED = 0 then (4, vars)
    else if vars.getGlobalVar names.V_HAS_TEST_TUBE = 0 then (5, vars)
    else if vars.getSubVar names.VA_LOCKS_DISABLED 0x40119852 = 0 then (6, vars)
    else if vars.getGlobalVar names.V_WATER_RUNNING = 0 then (7, vars)
    else if vars.getGlobalVar names.V_NOTES_PUZZLE_SOLVED = 0 then (8, vars)
    else if vars.getSubVar names.VA_LOCKS_DISABLED 0x304008D2 = 0 then (9, vars)
    else if vars.getSubVar names.VA_LOCKS_DISABLED 0x01180951 = 0 then (10, vars)
    else (11, vars)
  else if vars.getGlobalVar names.V_CREATURE_ANGRY = 0 then (1, vars)
  else if vars.getGlobalVar names.V_TNT_DUMMY_BUILT ≠ 0 then (3, vars)
  else (2, vars)


/-! ## SsCommonPressButton -/

/-- The calls a sprite of Scene1002 makes on its collaborators, in program order. -/
inductive EntityCall where
  /-- A call `sendMessage(_parentScene, messageNum, param)`. -/
  | sendMessageToParentScene (messageNum : Nat) (param : Nat)
  /-- A call `playSound(index, soundFileHash)`. -/
  | playSound (index : Nat) (soundFileHash : Nat)
  /-- A call `StaticSprite::update()`. -/
  | staticSpriteUpdate
  /-- A call `createSurface(priority, width, height)`. -/
  | createSurface (priority : Int) (width : Int) (height : Int)
  /-- A call `setDoDeltaX(type)`. -/
  | setDoDeltaX (type : Int)
  /-- A call `startAnimation(fileHash, plFirstFrameIndex, plLastFrameIndex)`. -/
  | startAnimation (fileHash : Nat) (plFirstFrameIndex : Int) (plLastFrameIndex : Int)
  deriving DecidableEq, Repr

/-- The state of an `SsCommonPressButton`: `_status`, `_countdown`, the two file hashes, the
sound file hash, the file hash that `_spriteResource.load2` loaded last (the image shown), the
visibility that `setVisible` sets, `_needRefresh` and the calls made so far. The draw rect and
the position, which are set from the sprite resource, are not modelled. -/
structure SsCommonPressButton where
  status : Int
  countdown : Int
  fileHash1 : Nat
  fileHash2 : Nat
  soundFileHash : Nat
  spriteFileHash : Nat
  visible : Bool
  needRefresh : Bool
  calls : List EntityCall
  deriving DecidableEq, Repr

/-- The constructor `SsCommonPressButton::SsCommonPressButton(vm, parentScene, fileHash1,
fileHash2, surfacePriority, soundFileHash)`, lines 766-790. The constructor does not assign
`_countdown`: `countdown` is the value the field happens to hold. -/
def SsCommonPressButton.SsCommonPressButton (fileHash1 fileHash2 : Nat) (surfacePriority : Int)
    (soundFileHash : Nat) (countdown : Int) : Neverhood.SsCommonPressButton :=
  { status := 0, countdown := countdown, fileHash1 := fileHash1, fileHash2 := fileHash2,
    soundFileHash := if soundFileHash ≠ 0 then soundFileHash else 0x44141000,
    spriteFileHash := fileHash1, visible := false, needRefresh := true,
    calls := [EntityCall.createSurface surfacePriority 40 40] }

/-- The update handler `SsCommonPressButton::update()`, lines 818-849; `_countdown` is only
decremented when it is not 0. The call `_spriteResource.load2(hash)` is the assignment of
`spriteFileHash`. -/
def SsCommonPressButton.update (b : Neverhood.SsCommonPressButton) :
    Neverhood.SsCommonPressButton :=
  if b.countdown ≠ 0 then
    let b := { b with countdown := b.countdown - 1 }
    if b.countdown = 0 then
      if b.status = 1 then
        { b with status := 2, spriteFileHash := b.fileHash2, needRefresh := true,
                 calls := b.calls ++ [EntityCall.staticSpriteUpdate], countdown := 4 }
      else if b.status = 2 then
        { b with status := 3, spriteFileHash := b.fileHash1, needRefresh := true,
                 calls := b.calls ++ [EntityCall.staticSpriteUpdate], countdown := 4 }
      else if b.status = 3 then
        { b with status := 0, visible := false }
      else b
    else b
  else b

/-- The handler `SsCommonPressButton::handleMessage(messageNum, param, sender)`, lines
851-863. -/
def SsCommonPressButton.handleMessage (b : Neverhood.SsCommonPressButton) (baseResult : Nat)
    (messageNum : Nat) : Nat × Neverhood.SsCommonPressButton :=
  let messageResult := Sprite.baseHandleMessage baseResult messageNum
  if messageNum = 0x480B then
    (messageResult,
      { b with status := 1, countdown := 4, visible := true,
               calls := b.calls ++ [EntityCall.sendMessageToParentScene 0x480B 0,
                                    EntityCall.playSound 0 b.soundFileHash] })
  else (messageResult, b)

/-- The button after message 0x480B and `k` calls of `update()`. -/
def SsCommonPressButton.pressed (b : Neverhood.SsCommonPressButton) (baseResult : Nat)
    (k : Nat) : Neverhood.SsCommonPressButton :=
  Nat.iterate SsCommonPressButton.update k (SsCommonPressButton.handleMessage b baseResult 0x480B).2

/-- A button with the file hashes 11 and 22, as the constructor builds it, the countdown
being 0. -/
def sampleButton : Neverhood.SsCommonPressButton :=
  SsCommonPressButton.SsCommonPressButton 11 22 990 0 0

/-! ## AsScene1002VenusFlyTrap -/

/-- The update handlers that `SetUpdateHandler` installs in an `AsScene1002VenusFlyTrap`. -/
inductive FlyTrapUpdateHandler where
  | update
  | upIdle
  deriving DecidableEq, Repr

/-- The message handlers that `SetMessageHandler` installs in an `AsScene1002VenusFlyTrap`. -/
inductive FlyTrapMessageHandler where
  | handleMessage
  | hmAnimationSimple
  | hmAnimationExt
  deriving DecidableEq, Repr

/-- The state functions of `AsScene1002VenusFlyTrap` that `NextState` schedules. -/
inductive FlyTrapState where
  | stWalkBack
  | stWalk
  | stRelease
  | stGrabRing
  | stRingGrabbed
  | stKlaymanInside
  | stIdle
  | stKlaymanInsideMoving
  | stSpitOutKlayman
  deriving DecidableEq, Repr

/-- The state of an `AsScene1002VenusFlyTrap`: `_flag`, the position (`int16`), `_countdown`,
`_flags`, the installed handlers, the pending next state, the calls made so far and the variable
store of the engine. -/
structure AsScene1002VenusFlyTrap where
  flag : Bool
  x : Int
  y : Int
  countdown : Int
  flags : Nat
  updateHandler : Option FlyTrapUpdateHandler
  messageHandler : Option FlyTrapMessageHandler
  nextStateCb : Option FlyTrapState
  calls : List EntityCall
  vars : VariableStore

/-- The state function `AsScene1002VenusFlyTrap::stRingGrabbed()`, lines 1062-1066. -/
def AsScene1002VenusFlyTrap.stRingGrabbed (t : Neverhood.AsScene1002VenusFlyTrap) :
    Neverhood.AsScene1002VenusFlyTrap :=
  { t with calls := t.calls ++ [EntityCall.startAnimation 0xB5A86034 0 (-1)],
           updateHandler := some FlyTrapUpdateHandler.update,
           messageHandler := some FlyTrapMessageHandler.handleMessage }

/-- The state function `AsScene1002VenusFlyTrap::stIdle()`, lines 1076-1095. The quotient of
`(_x - 186) / 32` is the C++ division of `int` values, which truncates towards zero, and is
converted to the `uint32` parameter of `setGlobalVar`. -/
def AsScene1002VenusFlyTrap.stIdle (names : GlobalVarNames)
    (t : Neverhood.AsScene1002VenusFlyTrap) : Neverhood.AsScene1002VenusFlyTrap :=
  let t := { t with calls := t.calls ++ [EntityCall.startAnimation 0xC8204250 0 (-1)],
                    updateHandler := some FlyTrapUpdateHandler.upIdle,
                    messageHandler := some FlyTrapMessageHandler.handleMessage }
  if t.flag = true then
    if t.x ≥ 154 ∧ t.x ≤ 346 then
      { t with vars := t.vars.setGlobalVar names.V_FLYTRAP_POSITION_2
                 (toUint32 ((t.x - 186).tdiv 32)) }
    else
      { t with nextStateCb := some FlyTrapState.stWalkBack, countdown := 12 }
  else
    if t.x ≥ 174 ∧ t.x ≤ 430 then
      { t with vars := t.vars.setGlobalVar names.V_FLYTRAP_POSITION_1
                 (toUint32 ((t.x - 174).tdiv 32)) }
    else
      { t with nextStateCb := some FlyTrapState.stWalkBack, countdown := 12 }

/-- The constructor `AsScene1002VenusFlyTrap::AsScene1002VenusFlyTrap(vm, parentScene, klayman,
flag)`, lines 865-896, with the variable store `vars` of the engine. The sums for `_x` are made
on `uint32` values and stored in the `int16` field. -/
def AsScene1002VenusFlyTrap.AsScene1002VenusFlyTrap (names : GlobalVarNames)
    (vars : VariableStore) (flag : Bool) : Neverhood.AsScene1002VenusFlyTrap :=
  let t : Neverhood.AsScene1002VenusFlyTrap :=
    { flag := flag, x := 0, y := 0, countdown := 0, flags := 0,
      updateHandler := some FlyTrapUpdateHandler.update,
      messageHandler := some FlyTrapMessageHandler.handleMessage, nextStateCb := none,
      calls := [EntityCall.createSurface 995 175 195], vars := vars }
  let t :=
    if t.flag = false then
      if t.vars.getGlobalVar names.V_FLYTRAP_RING_DOOR ≠ 0 then
        AsScene1002VenusFlyTrap.stRingGrabbed
          { t with calls := t.calls ++ [EntityCall.setDoDeltaX 1], x := 366, y := 435 }
      else
        AsScene1002VenusFlyTrap.stIdle names
          { t with x := Mohawk.toSint16
                     (((174 + t.vars.getGlobalVar names.V_FLYTRAP_POSITION_1 * 32)
                       % 4294967296 : Nat) : Int),
                   y := 435 }
    else
      let t := { t with x := Mohawk.toSint16
                          (((186 + t.vars.getGlobalVar names.V_FLYTRAP_POSITION_2 * 32)
                            % 4294967296 : Nat) : Int),
                        y := 364 }
      if t.vars.getGlobalVar names.V_FLYTRAP_RING_BRIDGE ≠ 0 ∨
          t.vars.getGlobalVar names.V_FLYTRAP_RING_FENCE ≠ 0 then
        AsScene1002VenusFlyTrap.stRingGrabbed t
      else AsScene1002VenusFlyTrap.stIdle names t
  { t with flags := 4 }

/-- A store in which every variable is 0. -/
def sampleVars : VariableStore :=
  { globalVars := fun _ => 0, subVars := fun _ _ => 0 }

/-- Names with pairwise different keys, numbered from 1. -/
def sampleNames : GlobalVarNames :=
  { V_FLYTRAP_RING_DOOR := 1, V_FLYTRAP_RING_BRIDGE := 2, V_FLYTRAP_RING_FENCE := 3,
    V_FLYTRAP_RING_EATEN := 4, V_FLYTRAP_POSITION_1 := 5, V_FLYTRAP_POSITION_2 := 6,
    V_TEXT_COUNTING_INDEX1 := 7, V_TEXT_COUNTING_INDEX2 := 8, V_WORLDS_JOINED := 9,
    V_DOOR_PASSED := 10, V_ROBOT_TARGET := 11, V_ROBOT_HIT := 12, V_ENTRANCE_OPEN := 13,
    V_HAS_FINAL_KEY := 14, V_FELL_DOWN_HOLE := 15, V_SEEN_SYMBOLS_NO_LIGHT := 16,
    V_BOLT_DOOR_UNLOCKED := 17, V_WALL_BROKEN := 18, V_RADIO_ENABLED := 19,
    V_BEEN_SHRINKING_ROOM := 20, V_BEEN_STATUE_ROOM := 21, V_TILE_PUZZLE_SOLVED := 22,
    V_HAS_TEST_TUBE := 23, V_WATER_RUNNING := 24, V_NOTES_PUZZLE_SOLVED := 25,
    V_CREATURE_ANGRY := 26, V_TNT_DUMMY_BUILT := 27, VA_HAS_KEY := 28,
    VA_IS_KEY_INSERTED := 29, VA_LOCKS_DISABLED := 30 }

/-- A fly trap at the position `x`, with `_flag` as given, on the sample store. -/
def sampleFlyTrap (flag : Bool) (x : Int) : Neverhood.AsScene1002VenusFlyTrap :=
  { flag := flag, x := x, y := if flag then 364 else 435, countdown := 0, flags := 4,
    updateHandler := some FlyTrapUpdateHandler.update,
    messageHandler := some FlyTrapMessageHandler.handleMessage, nextStateCb := none,
    calls := [], vars := sampleVars }

/-- A fly trap without `_flag` at the position `x`, on a store in which V_FLYTRAP_RING_DOOR
(key 1 of the sample names) is 1 and every other variable is 0. -/
def sampleFlyTrapRingDoor (x : Int) : Neverhood.AsScene1002VenusFlyTrap :=
  { sampleFlyTrap false x with
    vars := { globalVars := fun k => if k = 1 then 1 else 0, subVars := fun _ _ => 0 } }

/-- A background sprite with the door open and no countdown. -/
def sampleBackground : Neverhood.AsScene1002OutsideDoorBackground :=
  { isDoorClosed := false, countdown := 0, gotoNextStateCalls := 0 }

/-- What C36 says of a result of `getTextIndex1` on the store `vars`: the store is unchanged and
the value is in 0..27 or is 29 or 50, and is not 28. -/
def Scene1005.textIndex1Ok (vars : VariableStore) (p : Nat × VariableStore) : Prop :=
  p.2 = vars ∧ (p.1 ≤ 27 ∨ p.1 = 29 ∨ p.1 = 50) ∧ p.1 ≠ 28

end Neverhood

/-! # The Hercules palette pass of taffich (engines/mortevielle/taffich.cpp) and the plugin
manager (base/plugins.cpp) -/

namespace Mortevielle

/-! ## taffich: the palette pass for the Hercules card -/

/-- Modelled from the spec: the macro `READ_LE_UINT16` of common/endian.h, which is not among the
sources: the unsigned 16-bit little-endian value of the two bytes at an address of `mem`. -/
def READ_LE_UINT16 (mem : Nat → Nat) (addr : Nat) : Nat :=
  mem addr % 256 + 256 * (mem (addr + 1) % 256)

/-- The luminance that line 186 of taffich.cpp computes for the palette word `palh`:
`(palh & 15) + (((uint)palh >> 12) & 15) + (((uint)palh >> 8) & 15)`. -/
def taffich.luminance (palh : Nat) : Nat :=
  (palh &&& 15) + ((palh >>> 12) &&& 15) + ((palh >>> 8) &&& 15)

/-- The first loop of the Hercules pass of `taffich()`, lines 184-187: the array `alllum` for the
memory `mem`; `succ(int, i)` is `i + 1`. -/
def taffich.alllum (mem : Nat → Nat) : List Nat :=
  (List.range 16).map (fun i => taffich.luminance (READ_LE_UINT16 mem (0x7000 + ((i + 1) <<< 1))))

/-- The luminance as the original Pascal source computes it, in the comment that closes
taffich.cpp (line 225): `PalH and 15 + PalH shr 4 and 15 + PalH shr 8 and 15`, where `and` and
`shr` bind tighter than `+`. -/
def pascalLuminance (palh : Nat) : Nat :=
  (palh &&& 15) + ((palh >>> 4) &&& 15) + ((palh >>> 8) &&& 15)

/-- A memory in which the first palette word (the bytes at 0x7002 and 0x7003) is 0x0010 and every
other byte is 0. -/
def sampleMem (addr : Nat) : Nat :=
  if addr = 0x7002 then 0x10 else 0

/-- The inner loop of the ranking loop of `taffich()`, lines 189-190:
`k = 0; for (j = 0; j <= 15; j++) if (alllum[j] > alllum[k]) k = j;`, the value of `k` after
it. -/
def taffich.brightest (alllum : List Int) : Nat :=
  (List.range 16).foldl (fun k j => if alllum.getD j 0 > alllum.getD k 0 then j else k) 0

/-- One round of the ranking loop of `taffich()`, lines 189-192, for the index `i`: the array
`alllum` and the writes to `mem` made so far (address and value), before and after the round.
The array `rang` is declared in a header that is not among the sources and is a parameter. -/
def taffich.rankStep (rang : Nat → Nat) (p : List Int × List (Nat × Nat)) (i : Nat) :
    List Int × List (Nat × Nat) :=
  (p.1.set (taffich.brightest p.1) (-1),
   p.2 ++ [(0x7000 * 16 + 2 + (taffich.brightest p.1 <<< 1), rang i)])

/-- The ranking loop of `taffich()`, lines 188-193, run on the array `alllum`: the array after
the loop and the writes to `mem` in program order. -/
def taffich.rank (rang : Nat → Nat) (alllum : List Int) : List Int × List (Nat × Nat) :=
  (List.range 16).foldl (taffich.rankStep rang) (alllum, [])

/-- The Hercules pass of `taffich()`, lines 184-193, on the memory `mem`: the writes to `mem` of
the ranking loop, in program order. -/
def taffich.herculesPass (rang : Nat → Nat) (mem : Nat → Nat) : List (Nat × Nat) :=
  (taffich.rank rang ((taffich.alllum mem).map Int.ofNat)).2

/-- Slot `x` comes before slot `y` in the ranking of the luminances `lum`: it is brighter, or as
bright and of lower index. -/
def rankedBefore (lum : Nat → Int) (x y : Nat) : Prop :=
  lum x > lum y ∨ (lum x = lum y ∧ x < y)

end Mortevielle

namespace Base

/-! ## PluginManager::tryLoadPlugin -/

/-- A plugin: `id` stands for the identity of the object, `type` is the field `_type` (a
`PluginType`, one of the `PLUGIN_TYPE_MAX` plugin types) and `loadPlugin` is what the virtual
method `loadPlugin()` of the plugin returns when it is called. -/
structure Plugin (PLUGIN_TYPE_MAX : Nat) where
  id : Nat
  type : Fin PLUGIN_TYPE_MAX
  loadPlugin : Bool
  deriving DecidableEq, Repr

/-- The method `Plugin::getType()`, lines 42-44. -/
def Plugin.getType {PLUGIN_TYPE_MAX : Nat} (plugin : Plugin PLUGIN_TYPE_MAX) :
    Fin PLUGIN_TYPE_MAX :=
  plugin.type

/-- The state of the `PluginManager` that `tryLoadPlugin` works on: the array `_plugins` of one
list of plugins for each plugin type, and the plugins deleted so far. -/
structure PluginManager (PLUGIN_TYPE_MAX : Nat) where
  plugins : Fin PLUGIN_TYPE_MAX → List (Plugin PLUGIN_TYPE_MAX)
  deleted : List (Plugin PLUGIN_TYPE_MAX)

/-- The failure of an `assert`. -/
inductive AssertionFailure where
  | assertionFailed
  deriving DecidableEq, Repr

/-- The method `PluginManager::tryLoadPlugin(plugin)`, lines 276-297; `none` is the null
pointer. The result is the value returned and the manager as the method leaves it. -/
def PluginManager.tryLoadPlugin {PLUGIN_TYPE_MAX : Nat} (pm : PluginManager PLUGIN_TYPE_MAX)
    (plugin : Option (Plugin PLUGIN_TYPE_MAX)) :
    Except AssertionFailure (Bool × PluginManager PLUGIN_TYPE_MAX) :=
  match plugin with
  | none => Except.error AssertionFailure.assertionFailed
  | some plugin =>
    if plugin.loadPlugin = true then
      Except.ok (true, { pm with plugins := fun type =>
        if type = plugin.getType then pm.plugins type ++ [plugin] else pm.plugins type })
    else
      Except.ok (false, { pm with deleted := pm.deleted ++ [plugin] })

/-- The method `PluginManager::getPlugins(type)` that line 342 calls: the list of the plugins of
one type. -/
def PluginManager.getPlugins {PLUGIN_TYPE_MAX : Nat} (pm : PluginManager PLUGIN_TYPE_MAX)
    (type : Fin PLUGIN_TYPE_MAX) : List (Plugin PLUGIN_TYPE_MAX) :=
  pm.plugins type

/-- A manager for two plugin types that knows one plugin of type 0 and one of type 1. -/
def sampleManager : PluginManager 2 :=
  { plugins := fun type =>
      if type = 0 then [{ id := 1, type := 0, loadPlugin := true }]
      else [{ id := 2, type := 1, loadPlugin := true }],
    deleted := [] }

end Base

/-! ## Theorems -/

namespace Mohawk

/-! ### Reading at a known cursor -/

theorem Loader.bind_ok {α β : Type} (x : Loader α) (f : α → Loader β) (s s1 : LoadState) (a : α)
    (h : x s = Except.ok (a, s1)) : (x >>= f) s = f a s1 := by
  show Loader.bind x f s = f a s1
  simp [Loader.bind, h]

theorem Loader.bind_error {α β : Type} (x : Loader α) (f : α → Loader β) (s : LoadState)
    (e : LoadError) (h : x s = Except.error e) : (x >>= f) s = Except.error e := by
  show Loader.bind x f s = Except.error e
  simp [Loader.bind, h]

theorem Loader.pure_apply {α : Type} (a : α) (s : LoadState) :
    (Pure.pure a : Loader α) s = Except.ok (a, s) := rfl

theorem LoadState.skip_skip (s : LoadState) (m n : Nat) : (s.skip m).skip n = s.skip (m + n) := by
  simp [LoadState.skip, Nat.add_assoc]

theorem LoadState.skip_warn (s : LoadState) (w : Warning) (n : Nat) :
    (s.warn w).skip n = (s.skip n).warn w := rfl

theorem LoadState.byteAt_skip (s : LoadState) (n i : Nat) :
    (s.skip n).byteAt i = s.byteAt (n + i) := by
  simp [LoadState.skip, LoadState.byteAt, Nat.add_assoc]

theorem LoadState.uint16At_skip (s : LoadState) (n i : Nat) :
    (s.skip n).uint16At i = s.uint16At (n + i) := by
  simp [LoadState.uint16At, LoadState.byteAt_skip, Nat.add_assoc]

theorem LoadState.sint16At_skip (s : LoadState) (n i : Nat) :
    (s.skip n).sint16At i = s.sint16At (n + i) := by
  simp [LoadState.sint16At, LoadState.uint16At_skip]

theorem LoadState.sint16At_warn (s : LoadState) (w : Warning) (i : Nat) :
    (s.warn w).sint16At i = s.sint16At i := rfl

theorem LoadState.remaining_skip (s : LoadState) (n : Nat) :
    (s.skip n).remaining = s.remaining - n := by
  simp [LoadState.skip, LoadState.remaining]
  omega

theorem LoadState.remaining_warn (s : LoadState) (w : Warning) :
    (s.warn w).remaining = s.remaining := rfl

theorem LoadState.uint16At_warn (s : LoadState) (w : Warning) (i : Nat) :
    (s.warn w).uint16At i = s.uint16At i := rfl

theorem LoadState.uint16At_lt (s : LoadState) (i : Nat) : s.uint16At i < 65536 := by
  unfold LoadState.uint16At LoadState.byteAt
  omega

theorem toSint16_uint16At (s : LoadState) (i : Nat) :
    toSint16 (s.uint16At i) = s.sint16At i := by
  have h := s.uint16At_lt i
  unfold toSint16 LoadState.sint16At
  split <;> omega

theorem readByte_ok (s : LoadState) (h : 1 ≤ s.remaining) :
    readByte s = Except.ok (s.byteAt 0, s.skip 1) := by
  have hlt : s.rlstStream.pos < s.rlstStream.data.length := by
    unfold LoadState.remaining at h
    omega
  simp [readByte, LoadState.byteAt, LoadState.skip, List.getElem?_eq_getElem hlt,
    List.getD_eq_getElem?_getD]

theorem readByte_eof (s : LoadState) (h : s.remaining = 0) :
    readByte s = Except.error LoadError.truncatedStream := by
  have hle : s.rlstStream.data.length ≤ s.rlstStream.pos := by
    unfold LoadState.remaining at h
    omega
  simp [readByte, List.getElem?_eq_none hle]

theorem readUint16LE_ok (s : LoadState) (h : 2 ≤ s.remaining) :
    readUint16LE s = Except.ok (s.uint16At 0, s.skip 2) := by
  unfold readUint16LE
  rw [Loader.bind_ok _ _ _ _ _ (readByte_ok s (by omega))]
  rw [Loader.bind_ok _ _ _ _ _ (readByte_ok (s.skip 1) (by rw [LoadState.remaining_skip]; omega))]
  simp [Loader.pure_apply, LoadState.uint16At, LoadState.byteAt_skip, LoadState.skip_skip]

theorem readUint16LE_eof (s : LoadState) (h : s.remaining < 2) :
    readUint16LE s = Except.error LoadError.truncatedStream := by
  unfold readUint16LE
  by_cases h0 : s.remaining = 0
  · exact Loader.bind_error _ _ _ _ (readByte_eof s h0)
  · rw [Loader.bind_ok _ _ _ _ _ (readByte_ok s (by omega))]
    exact Loader.bind_error _ _ _ _ (readByte_eof _ (by rw [LoadState.remaining_skip]; omega))

theorem readUint16LE_inv (s s1 : LoadState) (v : Nat) (h : readUint16LE s = Except.ok (v, s1)) :
    2 ≤ s.remaining ∧ v = s.uint16At 0 ∧ s1 = s.skip 2 := by
  by_cases h2 : 2 ≤ s.remaining
  · rw [readUint16LE_ok s h2] at h
    cases h
    exact ⟨h2, rfl, rfl⟩
  · rw [readUint16LE_eof s (by omega)] at h
    cases h

theorem readSint16LE_ok (s : LoadState) (h : 2 ≤ s.remaining) :
    readSint16LE s = Except.ok (s.sint16At 0, s.skip 2) := by
  unfold readSint16LE
  rw [Loader.bind_ok _ _ _ _ _ (readUint16LE_ok s h)]
  simp [Loader.pure_apply, toSint16_uint16At]

theorem readSint16LE_eof (s : LoadState) (h : s.remaining < 2) :
    readSint16LE s = Except.error LoadError.truncatedStream := by
  unfold readSint16LE
  exact Loader.bind_error _ _ _ _ (readUint16LE_eof s h)

theorem warning_ok (w : Warning) (s : LoadState) : warning w s = Except.ok ((), s.warn w) := rfl



/-! ### Truncated streams -/

theorem Loader.bind_inv {α β : Type} (x : Loader α) (f : α → Loader β) (s s2 : LoadState) (b : β)
    (h : (x >>= f) s = Except.ok (b, s2)) :
    ∃ a s1, x s = Except.ok (a, s1) ∧ f a s1 = Except.ok (b, s2) := by
  change Loader.bind x f s = Except.ok (b, s2) at h
  unfold Loader.bind at h
  cases hx : x s with
  | error e => rw [hx] at h; cases h
  | ok v =>
    obtain ⟨a, s1⟩ := v
    rw [hx] at h
    exact ⟨a, s1, rfl, h⟩

theorem Loader.FailsOnTruncation.pure {α : Type} (a : α) :
    Loader.FailsOnTruncation (Pure.pure a : Loader α) := by
  intro s b s1 h
  rw [Loader.pure_apply] at h
  cases h
  exact ⟨rfl, Nat.le_refl _, fun n _ => rfl, fun n h1 h2 => absurd h1 (Nat.not_le.mpr h2)⟩

theorem Loader.FailsOnTruncation.bind {α β : Type} {x : Loader α} {f : α → Loader β}
    (hx : Loader.FailsOnTruncation x) (hf : ∀ a, Loader.FailsOnTruncation (f a)) :
    Loader.FailsOnTruncation (x >>= f) := by
  intro s b s2 h
  obtain ⟨a, s1, h1, h2⟩ := Loader.bind_inv x f s s2 b h
  obtain ⟨hd1, hp1, hok1, herr1⟩ := hx s a s1 h1
  obtain ⟨hd2, hp2, hok2, herr2⟩ := hf a s1 b s2 h2
  refine ⟨hd2.trans hd1, Nat.le_trans hp1 hp2, ?_, ?_⟩
  · intro n hn
    rw [Loader.bind_ok _ _ _ _ _ (hok1 n (Nat.le_trans hp2 hn))]
    exact hok2 n hn
  · intro n hn1 hn2
    by_cases hlt : n < s1.rlstStream.pos
    · exact Loader.bind_error _ _ _ _ (herr1 n hn1 hlt)
    · rw [Loader.bind_ok _ _ _ _ _ (hok1 n (Nat.not_lt.mp hlt))]
      exact herr2 n (Nat.not_lt.mp hlt) hn2

theorem Loader.FailsOnTruncation.ite {α : Type} (c : Prop) [Decidable c] {x y : Loader α}
    (hx : Loader.FailsOnTruncation x) (hy : Loader.FailsOnTruncation y) :
    Loader.FailsOnTruncation (if c then x else y) := by
  by_cases h : c
  · rw [if_pos h]; exact hx
  · rw [if_neg h]; exact hy

theorem Loader.FailsOnTruncation.replicate {α : Type} {item : Loader α}
    (h : Loader.FailsOnTruncation item) (n : Nat) :
    Loader.FailsOnTruncation (Loader.replicate n item) := by
  induction n with
  | zero => exact Loader.FailsOnTruncation.pure []
  | succ n ih =>
    exact Loader.FailsOnTruncation.bind h (fun x =>
      Loader.FailsOnTruncation.bind ih (fun xs => Loader.FailsOnTruncation.pure (x :: xs)))

theorem readByte_failsOnTruncation : Loader.FailsOnTruncation readByte := by
  intro s a s1 h
  unfold readByte at h
  cases hb : s.rlstStream.data[s.rlstStream.pos]? with
  | none => rw [hb] at h; cases h
  | some b =>
    rw [hb] at h
    cases h
    refine ⟨rfl, Nat.le_succ _, ?_, ?_⟩
    · intro n hn
      have hlt : s.rlstStream.pos < n := hn
      simp [readByte, LoadState.truncate, List.getElem?_take_of_lt hlt, hb]
    · intro n hn1 hn2
      have hle : n ≤ s.rlstStream.pos := Nat.lt_succ_iff.mp hn2
      simp [readByte, LoadState.truncate, List.getElem?_take_eq_none hle]

theorem warning_failsOnTruncation (w : Warning) : Loader.FailsOnTruncation (warning w) := by
  intro s a s1 h
  rw [warning_ok] at h
  cases h
  exact ⟨rfl, Nat.le_refl _, fun n _ => rfl, fun n h1 h2 => absurd h1 (Nat.not_le.mpr h2)⟩

theorem readUint16LE_failsOnTruncation : Loader.FailsOnTruncation readUint16LE :=
  Loader.FailsOnTruncation.bind readByte_failsOnTruncation (fun _ =>
    Loader.FailsOnTruncation.bind readByte_failsOnTruncation (fun _ =>
      Loader.FailsOnTruncation.pure _))

theorem readSint16LE_failsOnTruncation : Loader.FailsOnTruncation readSint16LE :=
  Loader.FailsOnTruncation.bind readUint16LE_failsOnTruncation (fun _ =>
    Loader.FailsOnTruncation.pure _)

theorem MystResource_ctor_failsOnTruncation (vm : MohawkEngine_Myst)
    (parent : Option MystResource) :
    Loader.FailsOnTruncation (MystResource.MystResource vm parent) := by
  cases parent with
  | some p => exact Loader.FailsOnTruncation.pure _
  | none =>
    simp only [MystResource.MystResource]
    refine Loader.FailsOnTruncation.bind readUint16LE_failsOnTruncation (fun _ => ?_)
    refine Loader.FailsOnTruncation.bind readSint16LE_failsOnTruncation (fun _ => ?_)
    refine Loader.FailsOnTruncation.bind readSint16LE_failsOnTruncation (fun _ => ?_)
    refine Loader.FailsOnTruncation.bind (Loader.FailsOnTruncation.ite _
      (Loader.FailsOnTruncation.bind (warning_failsOnTruncation _)
        (fun _ => Loader.FailsOnTruncation.pure _))
      (Loader.FailsOnTruncation.pure _)) (fun _ => ?_)
    refine Loader.FailsOnTruncation.bind readSint16LE_failsOnTruncation (fun _ => ?_)
    refine Loader.FailsOnTruncation.bind readSint16LE_failsOnTruncation (fun _ => ?_)
    refine Loader.FailsOnTruncation.bind readUint16LE_failsOnTruncation (fun _ => ?_)
    exact Loader.FailsOnTruncation.pure _

theorem MystResourceType13_ctor_failsOnTruncation (vm : MohawkEngine_Myst)
    (parent : Option MystResource) :
    Loader.FailsOnTruncation (MystResourceType13.MystResourceType13 vm parent) :=
  Loader.FailsOnTruncation.bind (MystResource_ctor_failsOnTruncation vm parent) (fun _ =>
    Loader.FailsOnTruncation.bind readUint16LE_failsOnTruncation (fun _ =>
      Loader.FailsOnTruncation.bind readUint16LE_failsOnTruncation (fun _ =>
        Loader.FailsOnTruncation.pure _)))

theorem MystResourceType7_ctor_failsOnTruncation {ρ : Type} (vm : MohawkEngine_Myst)
    (loadResource : Option MystResource → Loader ρ)
    (hload : ∀ p, Loader.FailsOnTruncation (loadResource p)) (parent : Option MystResource) :
    Loader.FailsOnTruncation (MystResourceType7.MystResourceType7 vm loadResource parent) :=
  Loader.FailsOnTruncation.bind (MystResource_ctor_failsOnTruncation vm parent) (fun _ =>
    Loader.FailsOnTruncation.bind readUint16LE_failsOnTruncation (fun _ =>
      Loader.FailsOnTruncation.bind readUint16LE_failsOnTruncation (fun _ =>
        Loader.FailsOnTruncation.bind (Loader.FailsOnTruncation.replicate (hload _) _) (fun _ =>
          Loader.FailsOnTruncation.pure _))))

theorem readSubImage_failsOnTruncation (rect : Rect) :
    Loader.FailsOnTruncation (MystResourceType8.readSubImage rect) := by
  unfold MystResourceType8.readSubImage
  refine Loader.FailsOnTruncation.bind readUint16LE_failsOnTruncation (fun _ => ?_)
  refine Loader.FailsOnTruncation.bind readSint16LE_failsOnTruncation (fun _ => ?_)
  apply Loader.FailsOnTruncation.ite
  swap
  · exact Loader.FailsOnTruncation.pure _
  refine Loader.FailsOnTruncation.bind readSint16LE_failsOnTruncation (fun _ => ?_)
  refine Loader.FailsOnTruncation.bind readSint16LE_failsOnTruncation (fun _ => ?_)
  refine Loader.FailsOnTruncation.bind readSint16LE_failsOnTruncation (fun _ => ?_)
  exact Loader.FailsOnTruncation.pure _

theorem MystResourceType8_ctor_failsOnTruncation {ρ : Type} (vm : MohawkEngine_Myst)
    (loadResource : Option MystResource → Loader ρ)
    (hload : ∀ p, Loader.FailsOnTruncation (loadResource p)) (parent : Option MystResource) :
    Loader.FailsOnTruncation (MystResourceType8.MystResourceType8 vm loadResource parent) :=
  Loader.FailsOnTruncation.bind (MystResourceType7_ctor_failsOnTruncation vm loadResource hload
      parent) (fun _ =>
    Loader.FailsOnTruncation.bind readUint16LE_failsOnTruncation (fun _ =>
      Loader.FailsOnTruncation.bind readUint16LE_failsOnTruncation (fun _ =>
        Loader.FailsOnTruncation.bind
          (Loader.FailsOnTruncation.replicate (readSubImage_failsOnTruncation _) _) (fun _ =>
          Loader.FailsOnTruncation.pure _))))

theorem readValueList_failsOnTruncation : Loader.FailsOnTruncation readValueList :=
  Loader.FailsOnTruncation.bind readUint16LE_failsOnTruncation (fun _ =>
    Loader.FailsOnTruncation.bind
      (Loader.FailsOnTruncation.replicate readUint16LE_failsOnTruncation _) (fun _ =>
      Loader.FailsOnTruncation.pure _))

theorem MystResourceType10_ctor_failsOnTruncation {ρ : Type} (vm : MohawkEngine_Myst)
    (loadResource : Option MystResource → Loader ρ)
    (hload : ∀ p, Loader.FailsOnTruncation (loadResource p)) (parent : Option MystResource) :
    Loader.FailsOnTruncation (MystResourceType10.MystResourceType10 vm loadResource parent) := by
  unfold MystResourceType10.MystResourceType10
  refine Loader.FailsOnTruncation.bind
    (MystResourceType8_ctor_failsOnTruncation vm loadResource hload parent) (fun _ => ?_)
  iterate 10 refine Loader.FailsOnTruncation.bind readUint16LE_failsOnTruncation (fun _ => ?_)
  apply Loader.FailsOnTruncation.bind
  · apply Loader.FailsOnTruncation.ite
    · exact warning_failsOnTruncation _
    · exact Loader.FailsOnTruncation.pure _
  intro _
  apply Loader.FailsOnTruncation.bind
  · apply Loader.FailsOnTruncation.ite
    · exact warning_failsOnTruncation _
    · exact Loader.FailsOnTruncation.pure _
  intro _
  refine Loader.FailsOnTruncation.bind
    (Loader.FailsOnTruncation.replicate readValueList_failsOnTruncation _) (fun _ => ?_)
  refine Loader.FailsOnTruncation.bind (warning_failsOnTruncation _) (fun _ => ?_)
  exact Loader.FailsOnTruncation.pure _

/-! ### The base constructor -/

theorem MystResource_ctor_some (vm : MohawkEngine_Myst) (p : MystResource)
    (s : LoadState) :
    MystResource.MystResource vm (some p) s =
      Except.ok ({ hasParent := true, flags := p.flags,
                   rect := { left := p.rect.left, top := p.rect.top, right := p.rect.right,
                             bottom := p.rect.bottom },
                   dest := p.dest, enabled := MystResource.defaultEnabled vm p.flags }, s) := rfl

theorem MystResource_ctor_tail (vm : MohawkEngine_Myst) (flags : Nat) (left top : Int)
    (w : LoadState) (h : 6 ≤ w.remaining) :
    (readSint16LE >>= fun right => do
        let bottom ← readSint16LE
        let dest ← readUint16LE
        (Pure.pure
            { hasParent := false, flags := flags,
              rect := { left := left, top := top, right := right, bottom := bottom },
              dest := dest, enabled := MystResource.defaultEnabled vm flags } :
          Loader Mohawk.MystResource)) w =
      Except.ok
        ({ hasParent := false, flags := flags,
           rect := { left := left, top := top, right := w.sint16At 0, bottom := w.sint16At 2 },
           dest := w.uint16At 4, enabled := MystResource.defaultEnabled vm flags },
         w.skip 6) := by
  rw [Loader.bind_ok _ _ _ _ _ (readSint16LE_ok _ (by omega))]
  rw [Loader.bind_ok _ _ _ _ _ (readSint16LE_ok _ (by rw [LoadState.remaining_skip]; omega))]
  rw [Loader.bind_ok _ _ _ _ _ (readUint16LE_ok _ (by
    rw [LoadState.remaining_skip, LoadState.remaining_skip]; omega))]
  simp [Loader.pure_apply, LoadState.skip_skip, LoadState.sint16At_skip, LoadState.uint16At_skip]

theorem MystResource_ctor_none (vm : MohawkEngine_Myst) (s : LoadState)
    (h : 12 ≤ s.remaining) :
    MystResource.MystResource vm none s =
      Except.ok ({ hasParent := false, flags := s.uint16At 0,
                   rect := { left := s.sint16At 2,
                             top := if s.sint16At 4 = -1 then 0 else s.sint16At 4,
                             right := s.sint16At 6, bottom := s.sint16At 8 },
                   dest := s.uint16At 10,
                   enabled := MystResource.defaultEnabled vm (s.uint16At 0) },
                 if s.sint16At 4 = -1 then (s.skip 12).warn Warning.invalidRectTop
                 else s.skip 12) := by
  have r2 : ∀ n, n + 2 ≤ 12 → 2 ≤ (s.skip n).remaining := by
    intro n hn
    rw [LoadState.remaining_skip]
    omega
  simp only [MystResource.MystResource]
  rw [Loader.bind_ok _ _ _ _ _ (readUint16LE_ok s (by omega))]
  rw [Loader.bind_ok _ _ _ _ _ (readSint16LE_ok _ (r2 2 (by omega)))]
  rw [Loader.bind_ok _ _ _ _ _ (readSint16LE_ok _ (by rw [LoadState.skip_skip]; exact r2 4 (by omega)))]
  simp only [LoadState.skip_skip, LoadState.sint16At_skip, Nat.add_zero, Nat.reduceAdd]
  by_cases htop : s.sint16At 4 = -1
  · rw [if_pos htop, if_pos htop, if_pos htop]
    rw [Loader.bind_ok _ _ _ _ _ (Loader.bind_ok _ _ _ _ _ (warning_ok _ _))]
    rw [MystResource_ctor_tail vm _ _ _ _ (by
      rw [LoadState.remaining_warn, LoadState.remaining_skip]; omega)]
    simp [LoadState.skip_warn, LoadState.skip_skip, LoadState.sint16At_skip,
      LoadState.uint16At_skip, LoadState.sint16At_warn, LoadState.uint16At_warn]
  · rw [if_neg htop, if_neg htop, if_neg htop]
    rw [Loader.bind_ok _ _ _ _ _ (Loader.pure_apply _ _)]
    rw [MystResource_ctor_tail vm _ _ _ _ (by rw [LoadState.remaining_skip]; omega)]
    simp [LoadState.skip_skip, LoadState.sint16At_skip, LoadState.uint16At_skip]

theorem MystResource_ctor_tail_eof (vm : MohawkEngine_Myst) (flags : Nat) (left top : Int)
    (w : LoadState) (h : w.remaining < 6) :
    (readSint16LE >>= fun right => do
        let bottom ← readSint16LE
        let dest ← readUint16LE
        (Pure.pure
            { hasParent := false, flags := flags,
              rect := { left := left, top := top, right := right, bottom := bottom },
              dest := dest, enabled := MystResource.defaultEnabled vm flags } :
          Loader Mohawk.MystResource)) w =
      Except.error LoadError.truncatedStream := by
  by_cases h1 : 2 ≤ w.remaining
  swap
  · exact Loader.bind_error _ _ _ _ (readSint16LE_eof _ (by omega))
  rw [Loader.bind_ok _ _ _ _ _ (readSint16LE_ok _ h1)]
  by_cases h2 : 4 ≤ w.remaining
  swap
  · exact Loader.bind_error _ _ _ _ (readSint16LE_eof _ (by rw [LoadState.remaining_skip]; omega))
  rw [Loader.bind_ok _ _ _ _ _ (readSint16LE_ok _ (by rw [LoadState.remaining_skip]; omega))]
  exact Loader.bind_error _ _ _ _ (readUint16LE_eof _ (by
    rw [LoadState.remaining_skip, LoadState.remaining_skip]; omega))

theorem MystResource_ctor_none_eof (vm : MohawkEngine_Myst) (s : LoadState)
    (h : s.remaining < 12) :
    MystResource.MystResource vm none s = Except.error LoadError.truncatedStream := by
  simp only [MystResource.MystResource]
  by_cases h1 : 2 ≤ s.remaining
  swap
  · exact Loader.bind_error _ _ _ _ (readUint16LE_eof _ (by omega))
  rw [Loader.bind_ok _ _ _ _ _ (readUint16LE_ok s h1)]
  by_cases h2 : 4 ≤ s.remaining
  swap
  · exact Loader.bind_error _ _ _ _ (readSint16LE_eof _ (by rw [LoadState.remaining_skip]; omega))
  rw [Loader.bind_ok _ _ _ _ _ (readSint16LE_ok _ (by rw [LoadState.remaining_skip]; omega))]
  by_cases h3 : 6 ≤ s.remaining
  swap
  · exact Loader.bind_error _ _ _ _ (readSint16LE_eof _ (by
      rw [LoadState.remaining_skip, LoadState.remaining_skip]; omega))
  rw [Loader.bind_ok _ _ _ _ _ (readSint16LE_ok _ (by
    rw [LoadState.remaining_skip, LoadState.remaining_skip]; omega))]
  simp only [LoadState.skip_skip, LoadState.sint16At_skip, Nat.add_zero, Nat.reduceAdd]
  by_cases htop : s.sint16At 4 = -1
  · rw [if_pos htop]
    rw [Loader.bind_ok _ _ _ _ _ (Loader.bind_ok _ _ _ _ _ (warning_ok _ _))]
    exact MystResource_ctor_tail_eof vm _ _ _ _ (by
      rw [LoadState.remaining_warn, LoadState.remaining_skip]; omega)
  · rw [if_neg htop]
    rw [Loader.bind_ok _ _ _ _ _ (Loader.pure_apply _ _)]
    exact MystResource_ctor_tail_eof vm _ _ _ _ (by rw [LoadState.remaining_skip]; omega)

/-! ### Type 13 -/

theorem MystResourceType13_ctor_ok (vm : MohawkEngine_Myst) (parent : Option MystResource)
    (s s1 : LoadState) (base : MystResource)
    (hb : MystResource.MystResource vm parent s = Except.ok (base, s1))
    (h : 4 ≤ s1.remaining) :
    MystResourceType13.MystResourceType13 vm parent s =
      Except.ok ({ toMystResource := base, enterOpcode := s1.uint16At 0,
                   leaveOpcode := s1.uint16At 2 }, s1.skip 4) := by
  unfold MystResourceType13.MystResourceType13
  rw [Loader.bind_ok _ _ _ _ _ hb]
  rw [Loader.bind_ok _ _ _ _ _ (readUint16LE_ok _ (by omega))]
  rw [Loader.bind_ok _ _ _ _ _ (readUint16LE_ok _ (by rw [LoadState.remaining_skip]; omega))]
  simp [Loader.pure_apply, LoadState.skip_skip, LoadState.uint16At_skip]

theorem MystResourceType13_ctor_eof (vm : MohawkEngine_Myst) (parent : Option MystResource)
    (s s1 : LoadState) (base : MystResource)
    (hb : MystResource.MystResource vm parent s = Except.ok (base, s1))
    (h : s1.remaining < 4) :
    MystResourceType13.MystResourceType13 vm parent s =
      Except.error LoadError.truncatedStream := by
  unfold MystResourceType13.MystResourceType13
  rw [Loader.bind_ok _ _ _ _ _ hb]
  by_cases h1 : 2 ≤ s1.remaining
  swap
  · exact Loader.bind_error _ _ _ _ (readUint16LE_eof _ (by omega))
  rw [Loader.bind_ok _ _ _ _ _ (readUint16LE_ok _ h1)]
  exact Loader.bind_error _ _ _ _ (readUint16LE_eof _ (by rw [LoadState.remaining_skip]; omega))

/-! ### Claims on the base constructor -/

/-- C1: for every stream and every non-null parent, the base constructor succeeds and the
resource it builds has flags, rect.left, rect.top, rect.right, rect.bottom and dest equal to the
parent's, whatever the stream holds. -/
theorem MystResource_inherits_parent (vm : MohawkEngine_Myst) (p : MystResource)
    (s : LoadState) :
    ∃ r, MystResource.MystResource vm (some p) s = Except.ok (r, s) ∧
      r.flags = p.flags ∧ r.rect.left = p.rect.left ∧ r.rect.top = p.rect.top ∧
      r.rect.right = p.rect.right ∧ r.rect.bottom = p.rect.bottom ∧ r.dest = p.dest :=
  ⟨_, rfl, rfl, rfl, rfl, rfl, rfl, rfl⟩

/-- C2: the base constructor leaves the cursor where it is when the parent is non-null and moves
it on by exactly 12 bytes when the parent is null; a Type 13 record moves it on by exactly 4
bytes as a child and by exactly 16 bytes without a parent. (When fewer bytes than that are left
the load fails.) -/
theorem MystResource_bytes_consumed (vm : MohawkEngine_Myst) (p : MystResource) (s : LoadState) :
    (MystResource.MystResource vm (some p)).streamAfter s = some s.rlstStream ∧
    (MystResource.MystResource vm none).streamAfter s =
      (if 12 ≤ s.remaining then
        some { data := s.rlstStream.data, pos := s.rlstStream.pos + 12 } else none) ∧
    (MystResourceType13.MystResourceType13 vm (some p)).streamAfter s =
      (if 4 ≤ s.remaining then
        some { data := s.rlstStream.data, pos := s.rlstStream.pos + 4 } else none) ∧
    (MystResourceType13.MystResourceType13 vm none).streamAfter s =
      (if 16 ≤ s.remaining then
        some { data := s.rlstStream.data, pos := s.rlstStream.pos + 16 } else none) := by
  refine ⟨rfl, ?_, ?_, ?_⟩
  · by_cases h : 12 ≤ s.remaining
    · rw [if_pos h, Loader.streamAfter, MystResource_ctor_none vm s h]
      by_cases htop : s.sint16At 4 = -1 <;> simp [htop, LoadState.skip, LoadState.warn]
    · rw [if_neg h, Loader.streamAfter, MystResource_ctor_none_eof vm s (by omega)]
  · by_cases h : 4 ≤ s.remaining
    · rw [if_pos h, Loader.streamAfter,
        MystResourceType13_ctor_ok vm (some p) s s _ (MystResource_ctor_some vm p s) h]
      simp [LoadState.skip]
    · rw [if_neg h, Loader.streamAfter,
        MystResourceType13_ctor_eof vm (some p) s s _ (MystResource_ctor_some vm p s) (by omega)]
  · by_cases h : 16 ≤ s.remaining
    · rw [if_pos h, Loader.streamAfter]
      by_cases htop : s.sint16At 4 = -1
      · rw [MystResourceType13_ctor_ok vm none s _ _ (MystResource_ctor_none vm s (by omega))
          (by rw [if_pos htop, LoadState.remaining_warn, LoadState.remaining_skip]; omega)]
        simp [htop, LoadState.skip, LoadState.warn]
      · rw [MystResourceType13_ctor_ok vm none s _ _ (MystResource_ctor_none vm s (by omega))
          (by rw [if_neg htop, LoadState.remaining_skip]; omega)]
        simp [htop, LoadState.skip]
    · rw [if_neg h, Loader.streamAfter]
      by_cases h12 : 12 ≤ s.remaining
      · by_cases htop : s.sint16At 4 = -1
        · rw [MystResourceType13_ctor_eof vm none s _ _ (MystResource_ctor_none vm s h12)
            (by rw [if_pos htop, LoadState.remaining_warn, LoadState.remaining_skip]; omega)]
        · rw [MystResourceType13_ctor_eof vm none s _ _ (MystResource_ctor_none vm s h12)
            (by rw [if_neg htop, LoadState.remaining_skip]; omega)]
      · unfold MystResourceType13.MystResourceType13
        rw [Loader.bind_error _ _ _ _ (MystResource_ctor_none_eof vm s (by omega))]

/-- C3: a record decoded without a parent (12 bytes left in the stream). If the 16-bit top field
is -1 then rect.top is 0 and exactly one warning is added; otherwise rect.top is the field and no
warning is added. In both cases right, bottom and dest are the three fields of the following six
bytes and the cursor ends 12 bytes further. -/
theorem MystResource_top_clamped (vm : MohawkEngine_Myst) (s : LoadState)
    (h : 12 ≤ s.remaining) :
    ∃ r s1, MystResource.MystResource vm none s = Except.ok (r, s1) ∧
      (s.sint16At 4 = -1 →
        r.rect.top = 0 ∧ s1.warnings = s.warnings ++ [Warning.invalidRectTop]) ∧
      (s.sint16At 4 ≠ -1 → r.rect.top = s.sint16At 4 ∧ s1.warnings = s.warnings) ∧
      r.rect.right = s.sint16At 6 ∧ r.rect.bottom = s.sint16At 8 ∧ r.dest = s.uint16At 10 ∧
      s1.rlstStream = { data := s.rlstStream.data, pos := s.rlstStream.pos + 12 } := by
  refine ⟨_, _, MystResource_ctor_none vm s h, ?_, ?_, rfl, rfl, rfl, ?_⟩
  · intro htop
    simp [htop, LoadState.skip, LoadState.warn]
  · intro htop
    simp [htop, LoadState.skip]
  · by_cases htop : s.sint16At 4 = -1 <;> simp [htop, LoadState.skip, LoadState.warn]

/-- Witness of C3 on the sample record, whose top field is 0xFFFF: top is clamped to 0, one
warning, and right = 544, bottom = 333, dest = 5 are still read. -/
theorem MystResource_top_clamped_witness :
    12 ≤ sampleRecord.remaining ∧
    ∃ r s1, MystResource.MystResource sampleVm none sampleRecord = Except.ok (r, s1) ∧
      r.rect.top = 0 ∧ s1.warnings = [Warning.invalidRectTop] ∧
      r.rect.right = 544 ∧ r.rect.bottom = 333 ∧ r.dest = 5 := by
  refine ⟨by decide, ?_⟩
  obtain ⟨r, s1, hr, h1, _, h3, h4, h5, _⟩ :=
    MystResource_top_clamped sampleVm sampleRecord (by decide)
  have htop : sampleRecord.sint16At 4 = -1 := by decide
  exact ⟨r, s1, hr, (h1 htop).1, (h1 htop).2, h3.trans (by decide), h4.trans (by decide),
    h5.trans (by decide)⟩

/-- C4: with a null parent and the 12 bytes b0..b11 under the cursor, flags = b0 + 256*b1, the
coordinates left, top, right, bottom are the signed little-endian values of (b2,b3), (b4,b5),
(b6,b7), (b8,b9), top being replaced by 0 when it is -1, and dest = b10 + 256*b11. -/
theorem MystResource_field_layout (vm : MohawkEngine_Myst) (s : LoadState)
    (h : 12 ≤ s.remaining) :
    ∃ r s1, MystResource.MystResource vm none s = Except.ok (r, s1) ∧
      r.flags = s.byteAt 0 + 256 * s.byteAt 1 ∧
      r.rect.left = sint16LE (s.byteAt 2) (s.byteAt 3) ∧
      r.rect.top = (if sint16LE (s.byteAt 4) (s.byteAt 5) = -1 then 0
                    else sint16LE (s.byteAt 4) (s.byteAt 5)) ∧
      r.rect.right = sint16LE (s.byteAt 6) (s.byteAt 7) ∧
      r.rect.bottom = sint16LE (s.byteAt 8) (s.byteAt 9) ∧
      r.dest = s.byteAt 10 + 256 * s.byteAt 11 :=
  ⟨_, _, MystResource_ctor_none vm s h, rfl, rfl, rfl, rfl, rfl, rfl⟩

/-- Witness of C4 on the sample record. -/
theorem MystResource_field_layout_witness :
    12 ≤ sampleRecord.remaining ∧
    ∃ r s1, MystResource.MystResource sampleVm none sampleRecord = Except.ok (r, s1) ∧
      r.flags = 3 ∧ r.rect.left = 2 ∧ r.rect.top = 0 ∧ r.rect.right = 544 ∧
      r.rect.bottom = 333 ∧ r.dest = 5 := by
  refine ⟨by decide, ?_⟩
  obtain ⟨r, s1, hr, h1, h2, h3, h4, h5, h6⟩ :=
    MystResource_field_layout sampleVm sampleRecord (by decide)
  exact ⟨r, s1, hr, h1.trans (by decide), h2.trans (by decide), h3.trans (by decide),
    h4.trans (by decide), h5.trans (by decide), h6.trans (by decide)⟩

/-! ### Claims on truncated streams and on sub-resources -/

theorem loadResource_failsOnTruncation {τ π : Type} (vm : MohawkEngine_Myst)
    (selectType : Loader τ) (typeSpecific : τ → MystResource → Loader π)
    (hsel : Loader.FailsOnTruncation selectType)
    (hspec : ∀ ty base, Loader.FailsOnTruncation (typeSpecific ty base))
    (parent : Option MystResource) :
    Loader.FailsOnTruncation (loadResource vm selectType typeSpecific parent) :=
  Loader.FailsOnTruncation.bind hsel (fun _ =>
    Loader.FailsOnTruncation.bind (MystResource_ctor_failsOnTruncation vm parent) (fun _ =>
      Loader.FailsOnTruncation.bind (hspec _ _) (fun _ => Loader.FailsOnTruncation.pure _)))

theorem Loader.replicate_succ_ok {α : Type} (item : Loader α) (n : Nat) (s s2 s3 : LoadState)
    (x : α) (xs : List α) (hx : item s = Except.ok (x, s2))
    (hxs : Loader.replicate n item s2 = Except.ok (xs, s3)) :
    Loader.replicate (n + 1) item s = Except.ok (x :: xs, s3) := by
  change (item >>= fun x => Loader.replicate n item >>= fun ys => Pure.pure (x :: ys)) s
    = Except.ok (x :: xs, s3)
  rw [Loader.bind_ok _ _ _ _ _ hx, Loader.bind_ok _ _ _ _ _ hxs]
  rfl

theorem Loader.replicate_readInOrder {α : Type} (item : Loader α) (n : Nat) (s s1 : LoadState)
    (xs : List α) (h : Loader.replicate n item s = Except.ok (xs, s1)) :
    xs.length = n ∧ Loader.ReadInOrder item s xs s1 := by
  induction n generalizing s xs with
  | zero =>
    change Loader.pure [] s = Except.ok (xs, s1) at h
    cases h
    exact ⟨rfl, rfl⟩
  | succ n ih =>
    change (item >>= fun x => Loader.replicate n item >>= fun ys => Pure.pure (x :: ys)) s
      = Except.ok (xs, s1) at h
    obtain ⟨x, s2, hx, h2⟩ := Loader.bind_inv _ _ _ _ _ h
    obtain ⟨ys, s3, hys, h3⟩ := Loader.bind_inv _ _ _ _ _ h2
    rw [Loader.pure_apply] at h3
    cases h3
    obtain ⟨hlen, hord⟩ := ih s2 ys hys
    exact ⟨by simp [hlen], s2, hx, hord⟩

theorem Loader.ReadInOrder.mem {α : Type} (item : Loader α) (xs : List α) (s s1 : LoadState)
    (h : Loader.ReadInOrder item s xs s1) (x : α) (hx : x ∈ xs) :
    ∃ sa sb, item sa = Except.ok (x, sb) := by
  induction xs generalizing s with
  | nil => cases hx
  | cons y ys ih =>
    obtain ⟨s2, hy, hrest⟩ := h
    cases hx with
    | head => exact ⟨s, s2, hy⟩
    | tail _ hmem => exact ih s2 hrest hmem

theorem loadResource_base {τ π : Type} (vm : MohawkEngine_Myst) (selectType : Loader τ)
    (typeSpecific : τ → MystResource → Loader π) (p : MystResource) (sa sb : LoadState)
    (sub : SubRecord τ π)
    (h : loadResource vm selectType typeSpecific (some p) sa = Except.ok (sub, sb)) :
    sub.base.flags = p.flags ∧ sub.base.rect = p.rect ∧ sub.base.dest = p.dest := by
  unfold loadResource at h
  obtain ⟨ty, s1, _, h1⟩ := Loader.bind_inv _ _ _ _ _ h
  obtain ⟨base, s2, hbase, h2⟩ := Loader.bind_inv _ _ _ _ _ h1
  obtain ⟨pl, s3, _, h3⟩ := Loader.bind_inv _ _ _ _ _ h2
  rw [Loader.pure_apply] at h3
  cases h3
  rw [MystResource_ctor_some] at hbase
  cases hbase
  exact ⟨rfl, rfl, rfl⟩

theorem sampleLoadResource_failsOnTruncation (p : Option MystResource) :
    Loader.FailsOnTruncation (loadResource sampleVm readUint16LE sampleTypeSpecific p) :=
  loadResource_failsOnTruncation sampleVm readUint16LE sampleTypeSpecific
    readUint16LE_failsOnTruncation
    (fun _ _ => Loader.FailsOnTruncation.bind readUint16LE_failsOnTruncation (fun _ =>
      Loader.FailsOnTruncation.bind readUint16LE_failsOnTruncation (fun _ =>
        Loader.FailsOnTruncation.pure _))) p

theorem sampleSwitchRecord_decoded :
    MystResourceType7.MystResourceType7 sampleVm
        (loadResource sampleVm readUint16LE sampleTypeSpecific) none sampleSwitchRecord
      = Except.ok
        ({ hasParent := false, flags := 3,
           rect := { left := 2, top := 1, right := 544, bottom := 333 }, dest := 5,
           enabled := true, var7 := 3, numSubResources := 2,
           subResources :=
             [{ type := 13,
                base := { hasParent := true, flags := 3,
                          rect := { left := 2, top := 1, right := 544, bottom := 333 },
                          dest := 5, enabled := true },
                payload := (7, 9) },
              { type := 13,
                base := { hasParent := true, flags := 3,
                          rect := { left := 2, top := 1, right := 544, bottom := 333 },
                          dest := 5, enabled := true },
                payload := (8, 10) }] },
         sampleSwitchRecord.skip 28) := by
  have h1 : MystResource.MystResource sampleVm none sampleSwitchRecord =
      Except.ok ({ hasParent := false, flags := 3,
                   rect := { left := 2, top := 1, right := 544, bottom := 333 }, dest := 5,
                   enabled := true }, sampleSwitchRecord.skip 12) := rfl
  have h2 : readUint16LE (sampleSwitchRecord.skip 12) =
      Except.ok (3, sampleSwitchRecord.skip 14) := rfl
  have h3 : readUint16LE (sampleSwitchRecord.skip 14) =
      Except.ok (2, sampleSwitchRecord.skip 16) := rfl
  have h4 : loadResource sampleVm readUint16LE sampleTypeSpecific
      (some { hasParent := false, flags := 3,
              rect := { left := 2, top := 1, right := 544, bottom := 333 }, dest := 5,
              enabled := true }) (sampleSwitchRecord.skip 16) =
      Except.ok ({ type := 13,
                   base := { hasParent := true, flags := 3,
                             rect := { left := 2, top := 1, right := 544, bottom := 333 },
                             dest := 5, enabled := true },
                   payload := (7, 9) }, sampleSwitchRecord.skip 22) := rfl
  have h5 : loadResource sampleVm readUint16LE sampleTypeSpecific
      (some { hasParent := false, flags := 3,
              rect := { left := 2, top := 1, right := 544, bottom := 333 }, dest := 5,
              enabled := true }) (sampleSwitchRecord.skip 22) =
      Except.ok ({ type := 13,
                   base := { hasParent := true, flags := 3,
                             rect := { left := 2, top := 1, right := 544, bottom := 333 },
                             dest := 5, enabled := true },
                   payload := (8, 10) }, sampleSwitchRecord.skip 28) := rfl
  unfold MystResourceType7.MystResourceType7
  rw [Loader.bind_ok _ _ _ _ _ h1, Loader.bind_ok _ _ _ _ _ h2, Loader.bind_ok _ _ _ _ _ h3]
  have h6 : Loader.replicate 2 (loadResource sampleVm readUint16LE sampleTypeSpecific
      (some { hasParent := false, flags := 3,
              rect := { left := 2, top := 1, right := 544, bottom := 333 }, dest := 5,
              enabled := true })) (sampleSwitchRecord.skip 16) = Except.ok (_, _) :=
    Loader.replicate_succ_ok _ _ _ _ _ _ _ h4 (Loader.replicate_succ_ok _ _ _ _ _ _ _ h5 rfl)
  rw [Loader.bind_ok _ _ _ _ _ h6]
  rfl

/-- C5: a record whose stream ends before all its fields have been read is a fatal error. For
the base record, Type 13, Type 7 (with its sub-resources), Type 8 (with its sub-images) and
Type 10 (with its four lists): whenever the constructor succeeds on a stream, having read up to
some cursor position, it fails with the fatal error on every stream that holds the same bytes but
ends before that position (and not before the start of the record); this includes a stream with
fewer sub-resources, sub-images or list values than the 16-bit count before them declares. The
loader of sub-resources is assumed to fail on truncated streams as well. -/
theorem truncated_record_is_fatal {ρ : Type} (vm : MohawkEngine_Myst)
    (loadResource : Option MystResource → Loader ρ)
    (hload : ∀ p, Loader.FailsOnTruncation (loadResource p)) (parent : Option MystResource)
    (s : LoadState) (n : Nat) (hstart : s.rlstStream.pos ≤ n) :
    (∀ r s1, MystResource.MystResource vm parent s = Except.ok (r, s1) →
      n < s1.rlstStream.pos →
      MystResource.MystResource vm parent (s.truncate n) =
        Except.error LoadError.truncatedStream) ∧
    (∀ r s1, MystResourceType13.MystResourceType13 vm parent s = Except.ok (r, s1) →
      n < s1.rlstStream.pos →
      MystResourceType13.MystResourceType13 vm parent (s.truncate n) =
        Except.error LoadError.truncatedStream) ∧
    (∀ r s1, MystResourceType7.MystResourceType7 vm loadResource parent s = Except.ok (r, s1) →
      n < s1.rlstStream.pos →
      MystResourceType7.MystResourceType7 vm loadResource parent (s.truncate n) =
        Except.error LoadError.truncatedStream) ∧
    (∀ r s1, MystResourceType8.MystResourceType8 vm loadResource parent s = Except.ok (r, s1) →
      n < s1.rlstStream.pos →
      MystResourceType8.MystResourceType8 vm loadResource parent (s.truncate n) =
        Except.error LoadError.truncatedStream) ∧
    (∀ r s1, MystResourceType10.MystResourceType10 vm loadResource parent s = Except.ok (r, s1) →
      n < s1.rlstStream.pos →
      MystResourceType10.MystResourceType10 vm loadResource parent (s.truncate n) =
        Except.error LoadError.truncatedStream) :=
  ⟨fun r s1 hok hn => (MystResource_ctor_failsOnTruncation vm parent s r s1 hok).2.2.2 n hstart hn,
   fun r s1 hok hn =>
     (MystResourceType13_ctor_failsOnTruncation vm parent s r s1 hok).2.2.2 n hstart hn,
   fun r s1 hok hn =>
     (MystResourceType7_ctor_failsOnTruncation vm loadResource hload parent s r s1 hok).2.2.2 n
       hstart hn,
   fun r s1 hok hn =>
     (MystResourceType8_ctor_failsOnTruncation vm loadResource hload parent s r s1 hok).2.2.2 n
       hstart hn,
   fun r s1 hok hn =>
     (MystResourceType10_ctor_failsOnTruncation vm loadResource hload parent s r s1 hok).2.2.2 n
       hstart hn⟩

/-- C6: after a Type 7 record has been decoded, with sub-resources loaded by `loadResource`, the
resource owns exactly numSubResources sub-resources; var7 and numSubResources are the two 16-bit
fields that follow the base fields; the sub-resources are the records read one after the other
from the stream position after these two fields, in that order, each loaded with the Type 7
resource (its base fields) as parent; and every sub-resource has the flags, rect and dest of the
Type 7 resource. -/
theorem MystResourceType7_subResources {τ π : Type} (vm : MohawkEngine_Myst)
    (selectType : Loader τ) (typeSpecific : τ → MystResource → Loader π)
    (parent : Option MystResource) (s s1 : LoadState)
    (r : MystResourceType7 (SubRecord τ π))
    (hok : MystResourceType7.MystResourceType7 vm (loadResource vm selectType typeSpecific)
      parent s = Except.ok (r, s1)) :
    r.subResources.length = r.numSubResources ∧
    (∃ sb, MystResource.MystResource vm parent s = Except.ok (r.toMystResource, sb) ∧
      readUint16LE sb = Except.ok (r.var7, sb.skip 2) ∧
      readUint16LE (sb.skip 2) = Except.ok (r.numSubResources, sb.skip 4) ∧
      Loader.ReadInOrder (loadResource vm selectType typeSpecific (some r.toMystResource))
        (sb.skip 4) r.subResources s1) ∧
    (∀ sub ∈ r.subResources,
      sub.base.flags = r.flags ∧ sub.base.rect = r.rect ∧ sub.base.dest = r.dest) := by
  unfold MystResourceType7.MystResourceType7 at hok
  obtain ⟨base, sb, hbase, h1⟩ := Loader.bind_inv _ _ _ _ _ hok
  obtain ⟨var7, s2, hvar, h2⟩ := Loader.bind_inv _ _ _ _ _ h1
  obtain ⟨num, s3, hnum, h3⟩ := Loader.bind_inv _ _ _ _ _ h2
  obtain ⟨subs, s4, hsubs, h4⟩ := Loader.bind_inv _ _ _ _ _ h3
  rw [Loader.pure_apply] at h4
  cases h4
  obtain ⟨_, _, hs2⟩ := readUint16LE_inv _ _ _ hvar
  subst hs2
  obtain ⟨_, _, hs3⟩ := readUint16LE_inv _ _ _ hnum
  rw [LoadState.skip_skip] at hs3
  subst hs3
  obtain ⟨hlen, hord⟩ := Loader.replicate_readInOrder _ _ _ _ _ hsubs
  refine ⟨hlen, ⟨sb, hbase, hvar, hnum, hord⟩, ?_⟩
  · intro sub hmem
    obtain ⟨sa, sc, hsub⟩ := Loader.ReadInOrder.mem _ _ _ _ hord sub hmem
    exact loadResource_base vm selectType typeSpecific base sa sc sub hsub

/-- Witness of C6 on the sample Type 7 record with two sub-records. -/
theorem MystResourceType7_subResources_witness :
    ∃ r s1, MystResourceType7.MystResourceType7 sampleVm
        (loadResource sampleVm readUint16LE sampleTypeSpecific) none sampleSwitchRecord
        = Except.ok (r, s1) ∧
      r.numSubResources = 2 ∧ r.subResources.length = 2 ∧
      r.subResources.map (fun sub => sub.payload) = [(7, 9), (8, 10)] ∧
      ∀ sub ∈ r.subResources,
        sub.base.flags = r.flags ∧ sub.base.rect = r.rect ∧ sub.base.dest = r.dest :=
  ⟨_, _, sampleSwitchRecord_decoded, rfl, rfl, rfl,
    (MystResourceType7_subResources sampleVm readUint16LE sampleTypeSpecific none
      sampleSwitchRecord _ _ sampleSwitchRecord_decoded).2.2⟩

/-- Witness of C5: the sample Type 7 record is 28 bytes long; a stream that ends after 24 bytes,
inside the second of the two declared sub-records, is a fatal error. -/
theorem truncated_record_is_fatal_witness :
    (∀ p, Loader.FailsOnTruncation (loadResource sampleVm readUint16LE sampleTypeSpecific p)) ∧
    sampleSwitchRecord.rlstStream.pos ≤ 24 ∧
    MystResourceType7.MystResourceType7 sampleVm
        (loadResource sampleVm readUint16LE sampleTypeSpecific) none
        (sampleSwitchRecord.truncate 24) = Except.error LoadError.truncatedStream :=
  ⟨sampleLoadResource_failsOnTruncation, by decide,
    (truncated_record_is_fatal sampleVm _ sampleLoadResource_failsOnTruncation none
      sampleSwitchRecord 24 (by decide)).2.2.1 _ _ sampleSwitchRecord_decoded (by decide)⟩

/-! ### Claims on the Type 7 hooks -/

theorem MystResourceType7_call_single {ρ : Type} (hook : Hook) (vm : MohawkEngine_Myst)
    (r : MystResourceType7 ρ) (history : List Effect) (hvar : r.var7 ≠ 0xFFFF)
    (h1 : r.numSubResources = 1) :
    MystResourceType7.call hook vm r history =
      history ++ [Effect.getVar r.var7, Effect.subResource 0 hook] := by
  by_cases hv : vm.getVar history r.var7 % 65536 = 0 <;>
    cases hook <;>
      simp [MystResourceType7.call, MystResourceType7.drawDataToScreen,
        MystResourceType7.handleAnimation, MystResourceType7.handleMouseUp,
        MystResourceType7.handleMouseDown, MystResourceType7.handleMouseEnter,
        MystResourceType7.handleMouseLeave, hvar, h1, hv]

theorem MystResourceType7_call_indexed {ρ : Type} (hook : Hook) (vm : MohawkEngine_Myst)
    (r : MystResourceType7 ρ) (history : List Effect) (hvar : r.var7 ≠ 0xFFFF)
    (h2 : 2 ≤ r.numSubResources) :
    MystResourceType7.call hook vm r history =
      history ++ [Effect.getVar r.var7,
        if vm.getVar history r.var7 % 65536 < r.numSubResources then
          Effect.subResource (vm.getVar history r.var7 % 65536) hook
        else
          Effect.warning (Warning.type7VarExceeds r.var7 (vm.getVar history r.var7 % 65536)
            r.numSubResources)] := by
  have h1 : r.numSubResources ≠ 1 := by omega
  have h0 : r.numSubResources ≠ 0 := by omega
  by_cases hv : vm.getVar history r.var7 % 65536 < r.numSubResources <;>
    cases hook <;>
      simp [MystResourceType7.call, MystResourceType7.drawDataToScreen,
        MystResourceType7.handleAnimation, MystResourceType7.handleMouseUp,
        MystResourceType7.handleMouseDown, MystResourceType7.handleMouseEnter,
        MystResourceType7.handleMouseLeave, hvar, h1, h0, hv]

/-- C7: every Type 7 hook, control variable equal to the sentinel 0xFFFF. With exactly one
sub-resource the only effect is the call of the same hook on sub-resource 0; with two or more
sub-resources the only effect is one warning and no sub-resource hook is called. No variable is
read in either case. -/
theorem MystResourceType7_sentinel {ρ : Type} (hook : Hook) (vm : MohawkEngine_Myst)
    (r : MystResourceType7 ρ) (history : List Effect) (hvar : r.var7 = 0xFFFF) :
    (r.numSubResources = 1 →
      MystResourceType7.call hook vm r history = history ++ [Effect.subResource 0 hook]) ∧
    (2 ≤ r.numSubResources →
      MystResourceType7.call hook vm r history =
        history ++ [Effect.warning (Warning.type7NoControlVariable r.numSubResources)]) ∧
    (1 ≤ r.numSubResources →
      getVarCalls ((MystResourceType7.call hook vm r history).drop history.length) = 0) := by
  have hone : r.numSubResources = 1 →
      MystResourceType7.call hook vm r history = history ++ [Effect.subResource 0 hook] := by
    intro h1
    cases hook <;>
      simp [MystResourceType7.call, MystResourceType7.drawDataToScreen,
        MystResourceType7.handleAnimation, MystResourceType7.handleMouseUp,
        MystResourceType7.handleMouseDown, MystResourceType7.handleMouseEnter,
        MystResourceType7.handleMouseLeave, hvar, h1]
  have htwo : 2 ≤ r.numSubResources →
      MystResourceType7.call hook vm r history =
        history ++ [Effect.warning (Warning.type7NoControlVariable r.numSubResources)] := by
    intro h2
    have h1 : r.numSubResources ≠ 1 := by omega
    have h0 : r.numSubResources ≠ 0 := by omega
    cases hook <;>
      simp [MystResourceType7.call, MystResourceType7.drawDataToScreen,
        MystResourceType7.handleAnimation, MystResourceType7.handleMouseUp,
        MystResourceType7.handleMouseDown, MystResourceType7.handleMouseEnter,
        MystResourceType7.handleMouseLeave, hvar, h1, h0]
  refine ⟨hone, htwo, ?_⟩
  intro hpos
  by_cases h1 : r.numSubResources = 1
  · rw [hone h1]
    simp [getVarCalls]
  · rw [htwo (by omega)]
    simp [getVarCalls]

/-- Witness of C7: a mouse-up on a sentinel switch with one sub-resource is forwarded, a draw on
a sentinel switch with three sub-resources only warns. -/
theorem MystResourceType7_sentinel_witness :
    (sampleSwitch 0xFFFF 1).var7 = 0xFFFF ∧ (sampleSwitch 0xFFFF 3).var7 = 0xFFFF ∧
    MystResourceType7.call Hook.handleMouseUp (sampleVmWith 7) (sampleSwitch 0xFFFF 1) [] =
      [Effect.subResource 0 Hook.handleMouseUp] ∧
    MystResourceType7.call Hook.drawDataToScreen (sampleVmWith 7) (sampleSwitch 0xFFFF 3) [] =
      [Effect.warning (Warning.type7NoControlVariable 3)] :=
  ⟨rfl, rfl,
   (MystResourceType7_sentinel Hook.handleMouseUp (sampleVmWith 7) (sampleSwitch 0xFFFF 1) []
      rfl).1 rfl,
   (MystResourceType7_sentinel Hook.drawDataToScreen (sampleVmWith 7) (sampleSwitch 0xFFFF 3) []
      rfl).2.1 (by decide)⟩

/-- C8 as the code has it: every Type 7 hook, control variable not the sentinel, exactly one
sub-resource. The variable is read once and the hook is forwarded to sub-resource 0 for every
value of the variable: a nonzero value by the test for one sub-resource, the value 0 because
index 0 is in range. No warning is raised. -/
theorem MystResourceType7_single_forwarded {ρ : Type} (hook : Hook) (vm : MohawkEngine_Myst)
    (r : MystResourceType7 ρ) (history : List Effect) (hvar : r.var7 ≠ 0xFFFF)
    (h1 : r.numSubResources = 1) :
    MystResourceType7.call hook vm r history =
      history ++ [Effect.getVar r.var7, Effect.subResource 0 hook] :=
  MystResourceType7_call_single hook vm r history hvar h1

/-- Witness of the amended C8: one sub-resource, variable 3 equal to 1. -/
theorem MystResourceType7_single_forwarded_witness :
    (sampleSwitch 3 1).var7 ≠ 0xFFFF ∧ (sampleSwitch 3 1).numSubResources = 1 ∧
    MystResourceType7.call Hook.handleMouseUp (sampleVmWith 1) (sampleSwitch 3 1) [] =
      [Effect.getVar 3, Effect.subResource 0 Hook.handleMouseUp] :=
  ⟨by decide, rfl,
   MystResourceType7_single_forwarded Hook.handleMouseUp (sampleVmWith 1) (sampleSwitch 3 1) []
     (by decide) rfl⟩

/-- Counterexample to C8: control variable 3 (not the sentinel) with value 0 and exactly one
sub-resource; drawDataToScreen and handleMouseUp are forwarded to the sub-resource all the same,
so "forwarded if and only if the value is nonzero" fails. -/
theorem MystResourceType7_single_value_zero_forwarded :
    (sampleSwitch 3 1).var7 ≠ 0xFFFF ∧ (sampleSwitch 3 1).numSubResources = 1 ∧
    (sampleVmWith 0).getVar [] (sampleSwitch 3 1).var7 % 65536 = 0 ∧
    MystResourceType7.drawDataToScreen (sampleVmWith 0) (sampleSwitch 3 1) [] =
      [Effect.getVar 3, Effect.subResource 0 Hook.drawDataToScreen] ∧
    MystResourceType7.handleMouseUp (sampleVmWith 0) (sampleSwitch 3 1) [] =
      [Effect.getVar 3, Effect.subResource 0 Hook.handleMouseUp] ∧
    ¬ (subResourceCalls (MystResourceType7.drawDataToScreen (sampleVmWith 0) (sampleSwitch 3 1) [])
        = 0) := by
  decide

/-- C9: every Type 7 hook, control variable not the sentinel, two or more sub-resources. The
variable is read once; if its value is below numSubResources the hook is called on exactly one
sub-resource, the one at that index, and otherwise on none, with one warning. -/
theorem MystResourceType7_indexed {ρ : Type} (hook : Hook) (vm : MohawkEngine_Myst)
    (r : MystResourceType7 ρ) (history : List Effect) (hvar : r.var7 ≠ 0xFFFF)
    (h2 : 2 ≤ r.numSubResources) :
    MystResourceType7.call hook vm r history =
      history ++ [Effect.getVar r.var7,
        if vm.getVar history r.var7 % 65536 < r.numSubResources then
          Effect.subResource (vm.getVar history r.var7 % 65536) hook
        else
          Effect.warning (Warning.type7VarExceeds r.var7 (vm.getVar history r.var7 % 65536)
            r.numSubResources)] :=
  MystResourceType7_call_indexed hook vm r history hvar h2

/-- Witness of C9: three sub-resources; value 2 selects sub-resource 2, value 3 only warns. -/
theorem MystResourceType7_indexed_witness :
    (sampleSwitch 3 3).var7 ≠ 0xFFFF ∧ 2 ≤ (sampleSwitch 3 3).numSubResources ∧
    MystResourceType7.call Hook.handleMouseDown (sampleVmWith 2) (sampleSwitch 3 3) [] =
      [Effect.getVar 3, Effect.subResource 2 Hook.handleMouseDown] ∧
    MystResourceType7.call Hook.handleMouseDown (sampleVmWith 3) (sampleSwitch 3 3) [] =
      [Effect.getVar 3, Effect.warning (Warning.type7VarExceeds 3 3 3)] :=
  ⟨by decide, by decide,
   MystResourceType7_indexed Hook.handleMouseDown (sampleVmWith 2) (sampleSwitch 3 3) []
     (by decide) (by decide),
   MystResourceType7_indexed Hook.handleMouseDown (sampleVmWith 3) (sampleSwitch 3 3) []
     (by decide) (by decide)⟩

/-- Counterexample to C10: control variable 3 with value 1 and one sub-resource. The value is not
below the number of sub-resources, yet the hook is forwarded to sub-resource 0 and no warning is
raised; with no sub-resource at all (value 0) nothing is called and no warning is raised. -/
theorem MystResourceType7_exceeds_not_always_warned :
    (sampleVmWith 1).getVar [] (sampleSwitch 3 1).var7 % 65536 ≥
      (sampleSwitch 3 1).numSubResources ∧
    ¬ (subResourceCalls (MystResourceType7.drawDataToScreen (sampleVmWith 1) (sampleSwitch 3 1) [])
          = 0 ∧
       warningCount (MystResourceType7.drawDataToScreen (sampleVmWith 1) (sampleSwitch 3 1) [])
          = 1) ∧
    (sampleVmWith 0).getVar [] (sampleSwitch 3 0).var7 % 65536 ≥
      (sampleSwitch 3 0).numSubResources ∧
    ¬ (subResourceCalls (MystResourceType7.handleAnimation (sampleVmWith 0) (sampleSwitch 3 0) [])
          = 0 ∧
       warningCount (MystResourceType7.handleAnimation (sampleVmWith 0) (sampleSwitch 3 0) [])
          = 1) := by
  decide

/-- C10 as the code has it: every Type 7 hook, control variable not the sentinel, value of the
variable greater than or equal to the number of sub-resources. With two or more sub-resources no
sub-resource hook is called and exactly one warning is raised; with exactly one sub-resource the
hook is forwarded to it and no warning is raised; with no sub-resource nothing is called and no
warning is raised. -/
theorem MystResourceType7_value_exceeds {ρ : Type} (hook : Hook) (vm : MohawkEngine_Myst)
    (r : MystResourceType7 ρ) (history : List Effect) (hvar : r.var7 ≠ 0xFFFF)
    (hge : r.numSubResources ≤ vm.getVar history r.var7 % 65536) :
    (2 ≤ r.numSubResources →
      MystResourceType7.call hook vm r history =
        history ++ [Effect.getVar r.var7,
          Effect.warning (Warning.type7VarExceeds r.var7 (vm.getVar history r.var7 % 65536)
            r.numSubResources)] ∧
      subResourceCalls ((MystResourceType7.call hook vm r history).drop history.length) = 0 ∧
      warningCount ((MystResourceType7.call hook vm r history).drop history.length) = 1) ∧
    (r.numSubResources = 1 →
      MystResourceType7.call hook vm r history =
        history ++ [Effect.getVar r.var7, Effect.subResource 0 hook]) ∧
    (r.numSubResources = 0 →
      MystResourceType7.call hook vm r history = history ++ [Effect.getVar r.var7]) := by
  refine ⟨?_, ?_, ?_⟩
  · intro h2
    have heq := MystResourceType7_call_indexed hook vm r history hvar h2
    rw [if_neg (by omega)] at heq
    rw [heq]
    refine ⟨rfl, ?_, ?_⟩ <;> simp [subResourceCalls, warningCount]
  · intro h1
    exact MystResourceType7_call_single hook vm r history hvar h1
  · intro h0
    cases hook <;>
      simp [MystResourceType7.call, MystResourceType7.drawDataToScreen,
        MystResourceType7.handleAnimation, MystResourceType7.handleMouseUp,
        MystResourceType7.handleMouseDown, MystResourceType7.handleMouseEnter,
        MystResourceType7.handleMouseLeave, hvar, h0]

/-- Witness of the amended C10: variable 3 equal to 5 with three sub-resources. -/
theorem MystResourceType7_value_exceeds_witness :
    (sampleSwitch 3 3).var7 ≠ 0xFFFF ∧
    (sampleSwitch 3 3).numSubResources ≤ (sampleVmWith 5).getVar [] (sampleSwitch 3 3).var7 % 65536 ∧
    MystResourceType7.call Hook.handleAnimation (sampleVmWith 5) (sampleSwitch 3 3) [] =
      [Effect.getVar 3, Effect.warning (Warning.type7VarExceeds 3 5 3)] :=
  ⟨by decide, by decide,
   ((MystResourceType7_value_exceeds Hook.handleAnimation (sampleVmWith 5) (sampleSwitch 3 3) []
      (by decide) (by decide)).1 (by decide)).1⟩

/-! ### Claims on the hooks of the other resource types -/

theorem MystResourceType7_call_eq_switchRoutine {ρ : Type} (hook : Hook) (vm : MohawkEngine_Myst)
    (r : MystResourceType7 ρ) (history : List Effect) :
    MystResourceType7.call hook vm r history =
      MystResourceType7.switchRoutine hook vm r history := by
  cases hook <;> rfl

theorem MystResourceType7_switchRoutine_withHook {ρ : Type} (h1 h2 : Hook)
    (vm : MohawkEngine_Myst) (r : MystResourceType7 ρ) (history : List Effect) :
    MystResourceType7.switchRoutine h2 vm r history =
      history ++ ((MystResourceType7.switchRoutine h1 vm r history).drop history.length).map
        (Effect.withHook h2) := by
  unfold MystResourceType7.switchRoutine
  simp only []
  split_ifs <;> simp [Effect.withHook]

/-- C11: the six Type 7 hooks implement one dispatch rule. Each of drawDataToScreen,
handleAnimation, handleMouseUp, handleMouseDown, handleMouseEnter and handleMouseLeave is the one
routine `switchRoutine` taken at its own hook, in which the hook only names the forwarded call;
and for any two hooks the effects of the second are the effects of the first (same variable
read, same sub-resource index or none, same warning or none) with the hook of the forwarded
call replaced. -/
theorem MystResourceType7_hooks_same_rule {ρ : Type} (vm : MohawkEngine_Myst)
    (r : MystResourceType7 ρ) (history : List Effect) :
    MystResourceType7.drawDataToScreen vm r history =
      MystResourceType7.switchRoutine Hook.drawDataToScreen vm r history ∧
    MystResourceType7.handleAnimation vm r history =
      MystResourceType7.switchRoutine Hook.handleAnimation vm r history ∧
    MystResourceType7.handleMouseUp vm r history =
      MystResourceType7.switchRoutine Hook.handleMouseUp vm r history ∧
    MystResourceType7.handleMouseDown vm r history =
      MystResourceType7.switchRoutine Hook.handleMouseDown vm r history ∧
    MystResourceType7.handleMouseEnter vm r history =
      MystResourceType7.switchRoutine Hook.handleMouseEnter vm r history ∧
    MystResourceType7.handleMouseLeave vm r history =
      MystResourceType7.switchRoutine Hook.handleMouseLeave vm r history ∧
    ∀ h1 h2 : Hook, MystResourceType7.call h2 vm r history =
      history ++ ((MystResourceType7.call h1 vm r history).drop history.length).map
        (Effect.withHook h2) := by
  refine ⟨rfl, rfl, rfl, rfl, rfl, rfl, ?_⟩
  intro h1 h2
  rw [MystResourceType7_call_eq_switchRoutine, MystResourceType7_call_eq_switchRoutine]
  exact MystResourceType7_switchRoutine_withHook h1 h2 vm r history

/-- C19: the default `MystResource::handleMouseUp`. With a nonzero dest its only effect is one
call changeToCard(dest), with dest 0 its only effect is one warning (carrying the four
coordinates of the rect); the resource is left as it was in both cases. -/
theorem MystResource_handleMouseUp_default (r : MystResource) (history : List Effect) :
    (r.dest ≠ 0 →
      MystResource.handleMouseUp r history = (r, history ++ [Effect.changeToCard r.dest])) ∧
    (r.dest = 0 →
      MystResource.handleMouseUp r history =
        (r, history ++ [Effect.warning
          (Warning.nullDestination r.rect.left r.rect.top r.rect.right r.rect.bottom)])) := by
  constructor
  · intro h
    simp [MystResource.handleMouseUp, h]
  · intro h
    simp [MystResource.handleMouseUp, h]

/-- Witness of C19: a resource with dest 5 asks for card 5, the same resource with dest 0 only
warns. -/
theorem MystResource_handleMouseUp_default_witness :
    (sampleSwitch 3 1).toMystResource.dest ≠ 0 ∧
    MystResource.handleMouseUp (sampleSwitch 3 1).toMystResource [] =
      ((sampleSwitch 3 1).toMystResource, [Effect.changeToCard 5]) ∧
    MystResource.handleMouseUp { (sampleSwitch 3 1).toMystResource with dest := 0 } [] =
      ({ (sampleSwitch 3 1).toMystResource with dest := 0 },
       [Effect.warning (Warning.nullDestination 2 0 544 333)]) :=
  ⟨by decide,
   (MystResource_handleMouseUp_default (sampleSwitch 3 1).toMystResource []).1 (by decide),
   (MystResource_handleMouseUp_default { (sampleSwitch 3 1).toMystResource with dest := 0 }
     []).2 rfl⟩

theorem MystResource_ctor_enabled (vm : MohawkEngine_Myst) (parent : Option MystResource)
    (s s1 : LoadState) (r : MystResource)
    (h : MystResource.MystResource vm parent s = Except.ok (r, s1)) :
    r.enabled = MystResource.defaultEnabled vm r.flags ∧
    r.flags = parent.elim (s.uint16At 0) (fun p => p.flags) := by
  cases parent with
  | some p =>
    rw [MystResource_ctor_some] at h
    cases h
    exact ⟨rfl, rfl⟩
  | none =>
    by_cases h12 : 12 ≤ s.remaining
    · rw [MystResource_ctor_none vm s h12] at h
      cases h
      exact ⟨rfl, rfl⟩
    · rw [MystResource_ctor_none_eof vm s (by omega)] at h
      cases h

/-- C20: the enabled flag set by the base constructor depends only on the flags of the resource
and on zip mode. In zip mode the resource is enabled iff one of the zip-mode, hotspot and
sub-image bits is set; outside zip mode iff the zip-mode bit is clear and one of the hotspot and
sub-image bits is set. Hence, for the same record decoded outside and in zip mode: a resource
enabled outside zip mode is enabled in zip mode, and a resource whose zip-mode bit is set is
enabled in zip mode and not enabled outside. -/
theorem MystResource_enabled_flag (vm : MohawkEngine_Myst) (parent : Option MystResource)
    (s s1 s2 : LoadState) (r1 r2 : MystResource)
    (h1 : MystResource.MystResource { vm with zipMode := false } parent s = Except.ok (r1, s1))
    (h2 : MystResource.MystResource { vm with zipMode := true } parent s = Except.ok (r2, s2)) :
    r1.flags = r2.flags ∧
    (r1.enabled = true ↔
      (r1.flags &&& vm.enableFlags.kMystZipModeEnableFlag = 0 ∧
        (r1.flags &&& vm.enableFlags.kMystHotspotEnableFlag ≠ 0 ∨
         r1.flags &&& vm.enableFlags.kMystSubimageEnableFlag ≠ 0))) ∧
    (r2.enabled = true ↔
      (r2.flags &&& vm.enableFlags.kMystZipModeEnableFlag ≠ 0 ∨
       r2.flags &&& vm.enableFlags.kMystHotspotEnableFlag ≠ 0 ∨
       r2.flags &&& vm.enableFlags.kMystSubimageEnableFlag ≠ 0)) ∧
    (r1.enabled = true → r2.enabled = true) ∧
    (r1.flags &&& vm.enableFlags.kMystZipModeEnableFlag ≠ 0 →
      r2.enabled = true ∧ r1.enabled = false) := by
  obtain ⟨he1, hf1⟩ := MystResource_ctor_enabled _ parent s s1 r1 h1
  obtain ⟨he2, hf2⟩ := MystResource_ctor_enabled _ parent s s2 r2 h2
  have hf : r1.flags = r2.flags := hf1.trans hf2.symm
  have e1 : r1.enabled = true ↔
      (r1.flags &&& vm.enableFlags.kMystZipModeEnableFlag = 0 ∧
        (r1.flags &&& vm.enableFlags.kMystHotspotEnableFlag ≠ 0 ∨
         r1.flags &&& vm.enableFlags.kMystSubimageEnableFlag ≠ 0)) := by
    rw [he1]
    simp [MystResource.defaultEnabled]
  have e2 : r2.enabled = true ↔
      (r2.flags &&& vm.enableFlags.kMystZipModeEnableFlag ≠ 0 ∨
       r2.flags &&& vm.enableFlags.kMystHotspotEnableFlag ≠ 0 ∨
       r2.flags &&& vm.enableFlags.kMystSubimageEnableFlag ≠ 0) := by
    rw [he2]
    simp [MystResource.defaultEnabled, or_assoc]
  refine ⟨hf, e1, e2, ?_, ?_⟩
  · intro h
    rw [e2, ← hf]
    exact Or.inr (e1.mp h).2
  · intro hz
    refine ⟨e2.mpr (Or.inl (hf ▸ hz)), ?_⟩
    cases hen : r1.enabled with
    | false => rfl
    | true => exact absurd (e1.mp hen).1 hz

/-- Witness of C20 on the sample record (flags 3: hotspot and sub-image bits, zip-mode bit
clear), decoded outside and in zip mode: enabled in both. -/
theorem MystResource_enabled_flag_witness :
    ∃ r1 r2 s1 s2,
      MystResource.MystResource { sampleVm with zipMode := false } none sampleRecord
        = Except.ok (r1, s1) ∧
      MystResource.MystResource { sampleVm with zipMode := true } none sampleRecord
        = Except.ok (r2, s2) ∧
      r1.flags = 3 ∧ r1.enabled = true ∧ r2.enabled = true :=
  ⟨_, _, _, _, MystResource_ctor_none _ sampleRecord (by decide),
    MystResource_ctor_none _ sampleRecord (by decide), by decide, by decide,
    (MystResource_enabled_flag sampleVm none sampleRecord _ _ _ _
      (MystResource_ctor_none _ sampleRecord (by decide))
      (MystResource_ctor_none _ sampleRecord (by decide))).2.2.2.1 (by decide)⟩

/-! ### Claims on Type 8 -/

theorem toSint16_of_lt (v : Nat) (h : v < 32768) : toSint16 (v : Int) = (v : Int) := by
  unfold toSint16
  omega

theorem toSint16_eq_iff (v i : Nat) (hv : v < 65536) (hi : i < 32768) :
    toSint16 (v : Int) = (i : Int) ↔ v = i := by
  unfold toSint16
  omega

/-- C12 as the code has it: the selection of the sub-image in the Type 8 drawDataToScreen against
the Type 7 rule for the same control variable, count and variable value (the Type 7
drawDataToScreen on a resource with var7 = var8 and numSubResources = numSubImages). No sub-image
is drawn exactly when the Type 7 rule forwards to no sub-resource; when the Type 7 rule forwards
to sub-resource i, a sub-image is drawn and its `int16` index is i taken as an `int16`; for every
i below 32768 sub-image i is drawn exactly when the Type 7 rule forwards to sub-resource i. -/
theorem MystResourceType8_selection_rule {ρ : Type} (vm : MohawkEngine_Myst)
    (r : MystResourceType8 ρ) (history : List Effect) :
    ((MystResourceType8.selectSubImage vm r history).1 = false ↔
      subResourceCalls ((MystResourceType7.drawDataToScreen vm
        { r.toMystResourceType7 with var7 := r.var8, numSubResources := r.numSubImages }
        history).drop history.length) = 0) ∧
    (∀ i : Nat, Effect.subResource i Hook.drawDataToScreen ∈
        (MystResourceType7.drawDataToScreen vm
          { r.toMystResourceType7 with var7 := r.var8, numSubResources := r.numSubImages }
          history).drop history.length →
      (MystResourceType8.selectSubImage vm r history).1 = true ∧
      (MystResourceType8.selectSubImage vm r history).2.1 = toSint16 (i : Int)) ∧
    (∀ i : Nat, i < 32768 →
      (Effect.subResource i Hook.drawDataToScreen ∈
        (MystResourceType7.drawDataToScreen vm
          { r.toMystResourceType7 with var7 := r.var8, numSubResources := r.numSubImages }
          history).drop history.length ↔
      (MystResourceType8.selectSubImage vm r history).1 = true ∧
      (MystResourceType8.selectSubImage vm r history).2.1 = (i : Int))) := by
  have hv : vm.getVar history r.var8 % 65536 < 65536 := by omega
  unfold MystResourceType8.selectSubImage MystResourceType7.drawDataToScreen
  simp only []
  by_cases hs : r.var8 = 0xFFFF
  · by_cases h1 : r.numSubImages = 1
    · simp [hs, h1, subResourceCalls]
      exact ⟨by unfold toSint16; omega, fun i _ => by omega⟩
    · by_cases h0 : r.numSubImages = 0
      · simp [hs, h0, subResourceCalls]
      · simp [hs, h1, h0, subResourceCalls]
  · by_cases h1 : r.numSubImages = 1
    · by_cases hz : vm.getVar history r.var8 % 65536 = 0
      · simp [hs, h1, hz, subResourceCalls, toSint16]
        intro i _
        omega
      · simp [hs, h1, hz, subResourceCalls, toSint16]
        intro i _
        omega
    · by_cases h0 : r.numSubImages = 0
      · simp [hs, h0, subResourceCalls]
      · by_cases hlt : vm.getVar history r.var8 % 65536 < r.numSubImages
        · simp [hs, h1, h0, hlt, subResourceCalls]
          intro i hi
          unfold toSint16
          omega
        · simp [hs, h1, h0, hlt, subResourceCalls]

/-- Witness of the amended C12: three sub-images, control variable 3 with value 2; the Type 7
rule forwards to sub-resource 2 and sub-image 2 is selected. -/
theorem MystResourceType8_selection_rule_witness :
    (2 : Nat) < 32768 ∧
    Effect.subResource 2 Hook.drawDataToScreen ∈
      (MystResourceType7.drawDataToScreen (sampleVmWith 2)
        { (sampleImageSwitchOf 3 3).toMystResourceType7 with
          var7 := (sampleImageSwitchOf 3 3).var8,
          numSubResources := (sampleImageSwitchOf 3 3).numSubImages } []).drop 0 ∧
    (MystResourceType8.selectSubImage (sampleVmWith 2) (sampleImageSwitchOf 3 3) []).1 = true ∧
    (MystResourceType8.selectSubImage (sampleVmWith 2) (sampleImageSwitchOf 3 3) []).2.1 = 2 :=
  ⟨by decide, by decide,
   ((MystResourceType8_selection_rule (sampleVmWith 2) (sampleImageSwitchOf 3 3) []).2.2 2
      (by decide)).mp (by decide)⟩

/-- Counterexample to C12: 40000 sub-images and control variable 3 with value 35000. The Type 7
rule forwards to sub-resource 35000, but the index of the sub-image is kept in an `int16`: the
sub-image selected is not sub-image 35000 (the index is 35000 - 65536). -/
theorem MystResourceType8_selection_int16 :
    Effect.subResource 35000 Hook.drawDataToScreen ∈
      (MystResourceType7.drawDataToScreen (sampleVmWith 35000)
        { (sampleImageSwitchOf 3 40000).toMystResourceType7 with
          var7 := (sampleImageSwitchOf 3 40000).var8,
          numSubResources := (sampleImageSwitchOf 3 40000).numSubImages } []).drop 0 ∧
    ¬ ((MystResourceType8.selectSubImage (sampleVmWith 35000) (sampleImageSwitchOf 3 40000)
          []).1 = true ∧
       (MystResourceType8.selectSubImage (sampleVmWith 35000) (sampleImageSwitchOf 3 40000)
          []).2.1 = 35000) ∧
    (MystResourceType8.selectSubImage (sampleVmWith 35000) (sampleImageSwitchOf 3 40000)
          []).2.1 = -30536 := by
  decide

theorem conditionalImage_none_below (vm : MohawkEngine_Myst) (h2 : List Effect)
    (hstable : ∀ h x v, vm.getVar (h ++ [Effect.getVar x]) v = vm.getVar h v)
    (conds : List MystCondition) (img : Nat) (h : List Effect)
    (hinv : ∀ v, vm.getVar h v = vm.getVar h2 v)
    (hnone : ∀ d ∈ conds, ¬ vm.getVar h2 d.var % 65536 < d.numStates) :
    (MystResourceType8.conditionalImage vm conds img h).1 = img := by
  induction conds generalizing h with
  | nil => rfl
  | cons c cs ih =>
    have hc : ¬ vm.getVar h c.var % 65536 < c.numStates := by
      rw [hinv]
      exact hnone c (List.mem_cons_self _ _)
    simp only [MystResourceType8.conditionalImage, if_neg hc]
    exact ih _ (fun v => (hstable h c.var v).trans (hinv v))
      (fun d hd => hnone d (List.mem_cons_of_mem _ hd))

theorem conditionalImage_last_below (vm : MohawkEngine_Myst) (h2 : List Effect)
    (hstable : ∀ h x v, vm.getVar (h ++ [Effect.getVar x]) v = vm.getVar h v)
    (pre : List MystCondition) (c : MystCondition) (post : List MystCondition) (img : Nat)
    (h : List Effect) (hinv : ∀ v, vm.getVar h v = vm.getVar h2 v)
    (hc : vm.getVar h2 c.var % 65536 < c.numStates)
    (hpost : ∀ d ∈ post, ¬ vm.getVar h2 d.var % 65536 < d.numStates) :
    (MystResourceType8.conditionalImage vm (pre ++ c :: post) img h).1 =
      c.values.getD (vm.getVar h2 c.var % 65536) 0 := by
  induction pre generalizing h img with
  | nil =>
    have hc1 : vm.getVar h c.var % 65536 < c.numStates := by rw [hinv]; exact hc
    simp only [List.nil_append, MystResourceType8.conditionalImage, if_pos hc1]
    rw [conditionalImage_none_below vm h2 hstable post _ _
      (fun v => (hstable _ c.var v).trans ((hstable h c.var v).trans (hinv v))) hpost]
    rw [hstable, hinv]
  | cons p ps ih =>
    simp only [List.cons_append, MystResourceType8.conditionalImage]
    split
    · exact ih _ _ (fun v => (hstable _ p.var v).trans ((hstable h p.var v).trans (hinv v)))
    · exact ih _ _ (fun v => (hstable h p.var v).trans (hinv v))

theorem MystResourceType8_draw_selected {ρ : Type} (vm : MohawkEngine_Myst)
    (r : MystResourceType8 ρ) (history h2 : List Effect) (subImageId : Int)
    (hsel : MystResourceType8.selectSubImage vm r
      (MystResourceType7.drawDataToScreen vm r.toMystResourceType7 history)
      = (true, subImageId, h2)) :
    MystResourceType8.drawDataToScreen vm r history =
      (MystResourceType8.imageToDraw vm (MystResourceType8.subImageAt r subImageId).wdib h2).2 ++
        [Effect.copyImageSectionToScreen
          (MystResourceType8.imageToDraw vm (MystResourceType8.subImageAt r subImageId).wdib h2).1
          (MystResourceType8.subImageAt r subImageId).rect r.rect] := by
  unfold MystResourceType8.drawDataToScreen
  simp only [hsel, if_true]

/-- C13: the conditional images of the view are scanned in order and the last match wins. When
the selected sub-image has target id 0xFFFF and the view has an entry `c` whose variable value v
is below its numStates, no later entry being so, the image drawn is `c.values[v]`, whatever the
entries before `c` are (reads of variables are taken not to change variables). -/
theorem MystResourceType8_last_match_wins {ρ : Type} (vm : MohawkEngine_Myst)
    (r : MystResourceType8 ρ) (history h2 : List Effect) (subImageId : Int)
    (pre : List MystCondition) (c : MystCondition) (post : List MystCondition)
    (hstable : ∀ h x v, vm.getVar (h ++ [Effect.getVar x]) v = vm.getVar h v)
    (hsel : MystResourceType8.selectSubImage vm r
      (MystResourceType7.drawDataToScreen vm r.toMystResourceType7 history)
      = (true, subImageId, h2))
    (hwdib : (MystResourceType8.subImageAt r subImageId).wdib = 0xFFFF)
    (hview : vm.view.conditionalImages = pre ++ c :: post)
    (hc : vm.getVar h2 c.var % 65536 < c.numStates)
    (hpost : ∀ d ∈ post, ¬ vm.getVar h2 d.var % 65536 < d.numStates) :
    ∃ h3, MystResourceType8.drawDataToScreen vm r history =
      h3 ++ [Effect.copyImageSectionToScreen (c.values.getD (vm.getVar h2 c.var % 65536) 0)
        (MystResourceType8.subImageAt r subImageId).rect r.rect] := by
  refine ⟨(MystResourceType8.imageToDraw vm
    (MystResourceType8.subImageAt r subImageId).wdib h2).2, ?_⟩
  rw [MystResourceType8_draw_selected vm r history h2 subImageId hsel]
  have hcount : ¬ vm.view.conditionalImageCount = 0 := by
    simp [MystView.conditionalImageCount, hview]
  have himg : (MystResourceType8.imageToDraw vm
      (MystResourceType8.subImageAt r subImageId).wdib h2).1 =
      c.values.getD (vm.getVar h2 c.var % 65536) 0 := by
    unfold MystResourceType8.imageToDraw
    rw [if_pos hwdib, if_neg hcount, hview]
    exact conditionalImage_last_below vm h2 hstable pre c post 0 h2 (fun _ => rfl) hc hpost
  rw [himg]

/-- Witness of C13. First the example of the claim: entries (var 1, numStates 2) and
(var 1, numStates 5) with variable 1 equal to 3; the value of the second entry for state 3 is
drawn. Then two entries that both match (numStates 5 and 4): the value of the second is drawn. -/
theorem MystResourceType8_last_match_wins_witness :
    (∃ h3, MystResourceType8.drawDataToScreen
        (sampleVmView [{ var := 1, numStates := 2, values := [10, 11] },
                       { var := 1, numStates := 5, values := [20, 21, 22, 23, 24] }] 3)
        (sampleImage 0xFFFF) [] =
      h3 ++ [Effect.copyImageSectionToScreen 23
        { left := 0, top := 0, right := 10, bottom := 10 }
        { left := 2, top := 0, right := 544, bottom := 333 }]) ∧
    (∃ h3, MystResourceType8.drawDataToScreen
        (sampleVmView [{ var := 1, numStates := 5, values := [20, 21, 22, 23, 24] },
                       { var := 1, numStates := 4, values := [30, 31, 32, 33] }] 3)
        (sampleImage 0xFFFF) [] =
      h3 ++ [Effect.copyImageSectionToScreen 33
        { left := 0, top := 0, right := 10, bottom := 10 }
        { left := 2, top := 0, right := 544, bottom := 333 }]) :=
  ⟨MystResourceType8_last_match_wins
      (sampleVmView [{ var := 1, numStates := 2, values := [10, 11] },
                     { var := 1, numStates := 5, values := [20, 21, 22, 23, 24] }] 3)
      (sampleImage 0xFFFF) [] [] 0
      [{ var := 1, numStates := 2, values := [10, 11] }]
      { var := 1, numStates := 5, values := [20, 21, 22, 23, 24] } []
      (fun _ _ _ => rfl) rfl rfl rfl (by decide) (by decide),
   MystResourceType8_last_match_wins
      (sampleVmView [{ var := 1, numStates := 5, values := [20, 21, 22, 23, 24] },
                     { var := 1, numStates := 4, values := [30, 31, 32, 33] }] 3)
      (sampleImage 0xFFFF) [] [] 0
      [{ var := 1, numStates := 5, values := [20, 21, 22, 23, 24] }]
      { var := 1, numStates := 4, values := [30, 31, 32, 33] } []
      (fun _ _ _ => rfl) rfl rfl rfl (by decide) (by decide)⟩

/-- Counterexample to C14: the view has one conditional image (variable 1, two states, images 7
and 8) and main image 9, and variable 1 is 3. The sub-image selected has target id 0xFFFF; no
entry matches, and the image drawn is 0, which is neither the main image nor the value of a
conditional image entry. -/
theorem MystResourceType8_no_match_draws_zero :
    (MystResourceType8.subImageAt (sampleImage 0xFFFF) 0).wdib = 0xFFFF ∧
    (sampleVmView [{ var := 1, numStates := 2, values := [7, 8] }] 3).view.conditionalImageCount
      ≠ 0 ∧
    MystResourceType8.drawDataToScreen
        (sampleVmView [{ var := 1, numStates := 2, values := [7, 8] }] 3)
        (sampleImage 0xFFFF) [] =
      [Effect.getVar 1,
       Effect.copyImageSectionToScreen 0 { left := 0, top := 0, right := 10, bottom := 10 }
         { left := 2, top := 0, right := 544, bottom := 333 }] ∧
    ¬ (∃ c ∈ (sampleVmView [{ var := 1, numStates := 2, values := [7, 8] }]
          3).view.conditionalImages, 0 ∈ c.values) := by
  decide

/-- C14 as the code has it: for a selected sub-image the hook ends with one draw, from the rect
of the sub-image to the rect of the resource. The image drawn is the target id of the sub-image
when that is not 0xFFFF. When it is 0xFFFF, the image is mainImage if the view has no conditional
images; otherwise it is `c.values[v]` for the last entry `c` whose variable value v is below its
numStates, and image 0 when no entry is so (reads of variables are taken not to change
variables). -/
theorem MystResourceType8_image_drawn {ρ : Type} (vm : MohawkEngine_Myst)
    (r : MystResourceType8 ρ) (history h2 : List Effect) (subImageId : Int)
    (hstable : ∀ h x v, vm.getVar (h ++ [Effect.getVar x]) v = vm.getVar h v)
    (hsel : MystResourceType8.selectSubImage vm r
      (MystResourceType7.drawDataToScreen vm r.toMystResourceType7 history)
      = (true, subImageId, h2)) :
    ∃ h3 image, MystResourceType8.drawDataToScreen vm r history =
        h3 ++ [Effect.copyImageSectionToScreen image
          (MystResourceType8.subImageAt r subImageId).rect r.rect] ∧
      ((MystResourceType8.subImageAt r subImageId).wdib ≠ 0xFFFF →
        image = (MystResourceType8.subImageAt r subImageId).wdib ∧ h3 = h2) ∧
      ((MystResourceType8.subImageAt r subImageId).wdib = 0xFFFF →
        (vm.view.conditionalImageCount = 0 → image = vm.view.mainImage ∧ h3 = h2) ∧
        (vm.view.conditionalImageCount ≠ 0 →
          (∀ d ∈ vm.view.conditionalImages, ¬ vm.getVar h2 d.var % 65536 < d.numStates) →
          image = 0) ∧
        (∀ pre c post, vm.view.conditionalImages = pre ++ c :: post →
          vm.getVar h2 c.var % 65536 < c.numStates →
          (∀ d ∈ post, ¬ vm.getVar h2 d.var % 65536 < d.numStates) →
          image = c.values.getD (vm.getVar h2 c.var % 65536) 0)) := by
  refine ⟨_, _, MystResourceType8_draw_selected vm r history h2 subImageId hsel, ?_, ?_⟩
  · intro hw
    simp [MystResourceType8.imageToDraw, hw]
  · intro hw
    refine ⟨?_, ?_, ?_⟩
    · intro h0
      simp [MystResourceType8.imageToDraw, hw, h0]
    · intro h0 hnone
      unfold MystResourceType8.imageToDraw
      rw [if_pos hw, if_neg h0]
      exact conditionalImage_none_below vm h2 hstable _ 0 h2 (fun _ => rfl) hnone
    · intro pre c post hview hc hpost
      have h0 : ¬ vm.view.conditionalImageCount = 0 := by
        simp [MystView.conditionalImageCount, hview]
      unfold MystResourceType8.imageToDraw
      rw [if_pos hw, if_neg h0, hview]
      exact conditionalImage_last_below vm h2 hstable pre c post 0 h2 (fun _ => rfl) hc hpost

/-- Witness of the amended C14: a sub-image with target id 7 is drawn as image 7, from its rect
to the rect of the resource. -/
theorem MystResourceType8_image_drawn_witness :
    ∃ h3, MystResourceType8.drawDataToScreen (sampleVmView [] 3) (sampleImage 7) [] =
      h3 ++ [Effect.copyImageSectionToScreen 7 { left := 0, top := 0, right := 10, bottom := 10 }
        { left := 2, top := 0, right := 544, bottom := 333 }] := by
  obtain ⟨h3, image, hdraw, hid, _⟩ :=
    MystResourceType8_image_drawn (sampleVmView [] 3) (sampleImage 7) [] [] 0
      (fun _ _ _ => rfl) rfl
  obtain ⟨himage, _⟩ := hid (by decide)
  rw [himage] at hdraw
  exact ⟨h3, hdraw⟩

/-! ### Claims on Type 6 -/

theorem MystResourceType6_ctor_videoRunning {σ : Type} (vm : MohawkEngine_Myst)
    (readScript : Loader σ) (parent : Option MystResource) (s s1 : LoadState)
    (r : MystResourceType6 σ)
    (h : MystResourceType6.MystResourceType6 vm readScript parent s = Except.ok (r, s1)) :
    r.videoRunning = false := by
  unfold MystResourceType6.MystResourceType6 at h
  obtain ⟨_, _, _, h⟩ := Loader.bind_inv _ _ _ _ _ h
  obtain ⟨_, _, _, h⟩ := Loader.bind_inv _ _ _ _ _ h
  obtain ⟨_, _, _, h⟩ := Loader.bind_inv _ _ _ _ _ h
  obtain ⟨_, _, _, h⟩ := Loader.bind_inv _ _ _ _ _ h
  obtain ⟨_, _, _, h⟩ := Loader.bind_inv _ _ _ _ _ h
  obtain ⟨_, _, _, h⟩ := Loader.bind_inv _ _ _ _ _ h
  obtain ⟨_, _, _, h⟩ := Loader.bind_inv _ _ _ _ _ h
  obtain ⟨_, _, _, h⟩ := Loader.bind_inv _ _ _ _ _ h
  obtain ⟨_, _, _, h⟩ := Loader.bind_inv _ _ _ _ _ h
  obtain ⟨_, _, _, h⟩ := Loader.bind_inv _ _ _ _ _ h
  obtain ⟨_, _, _, h⟩ := Loader.bind_inv _ _ _ _ _ h
  obtain ⟨_, _, _, h⟩ := Loader.bind_inv _ _ _ _ _ h
  rw [Loader.pure_apply] at h
  cases h
  rfl

theorem MystResourceType6_handleAnimation_running {σ : Type} (r : MystResourceType6 σ)
    (history : List Effect) (h : r.videoRunning = true) (n : Nat) :
    Nat.iterate (fun p => MystResourceType6.handleAnimation p.1 p.2) n (r, history) =
      (r, history) := by
  induction n with
  | zero => rfl
  | succ n ih =>
    rw [Function.iterate_succ_apply]
    simp only [MystResourceType6.handleAnimation, h]
    exact ih

/-- C15: a freshly decoded Type 6 resource. Its `_videoRunning` is false; for every n >= 1, n
calls of handleAnimation in succession leave exactly one playback call in the history (playMovie
when `_playBlocking` is set, playBackgroundMovie otherwise), made by the first call, and the
resource with `_videoRunning` set; a call on the resource as the first call leaves it changes
neither the resource nor the history. -/
theorem MystResourceType6_playback_once {σ : Type} (vm : MohawkEngine_Myst)
    (readScript : Loader σ) (parent : Option MystResource) (s s1 : LoadState)
    (r : MystResourceType6 σ) (history : List Effect) (n : Nat)
    (hdec : MystResourceType6.MystResourceType6 vm readScript parent s = Except.ok (r, s1))
    (hn : 1 ≤ n) :
    r.videoRunning = false ∧
    Nat.iterate (fun p => MystResourceType6.handleAnimation p.1 p.2) n (r, history) =
      ({ r with videoRunning := true },
       history ++ [if r.playBlocking ≠ 0 then
                     Effect.playMovie r.videoFile r.rect.left r.rect.top
                   else Effect.playBackgroundMovie r.videoFile r.rect.left r.rect.top r.loop]) ∧
    (∀ later : List Effect,
      MystResourceType6.handleAnimation { r with videoRunning := true } later =
        ({ r with videoRunning := true }, later)) := by
  have hfresh := MystResourceType6_ctor_videoRunning vm readScript parent s s1 r hdec
  refine ⟨hfresh, ?_, ?_⟩
  · obtain ⟨k, rfl⟩ : ∃ k, n = k + 1 := ⟨n - 1, by omega⟩
    rw [Function.iterate_succ_apply]
    have hfirst : MystResourceType6.handleAnimation r history =
        ({ r with videoRunning := true },
         history ++ [if r.playBlocking ≠ 0 then
                       Effect.playMovie r.videoFile r.rect.left r.rect.top
                     else
                       Effect.playBackgroundMovie r.videoFile r.rect.left r.rect.top r.loop]) := by
      simp only [MystResourceType6.handleAnimation, hfresh]
      split_ifs <;> rfl
    simp only [hfirst]
    exact MystResourceType6_handleAnimation_running _ _ rfl k
  · intro later
    simp [MystResourceType6.handleAnimation]

/-- Witness of C15: the sample video record decoded as a child, then three calls of
handleAnimation: one playBackgroundMovie of "a.mov" at the corner of the rect. -/
theorem MystResourceType6_playback_once_witness :
    MystResourceType6.MystResourceType6 sampleVm (Pure.pure ())
        (some (sampleSwitch 3 1).toMystResource) sampleVideoRecord =
      Except.ok (sampleVideo, sampleVideoRecord.skip 18) ∧
    Nat.iterate (fun p => MystResourceType6.handleAnimation p.1 p.2) 3 (sampleVideo, []) =
      ({ sampleVideo with videoRunning := true },
       [Effect.playBackgroundMovie ['a', '.', 'm', 'o', 'v'] 2 0 1]) := by
  have hdec : MystResourceType6.MystResourceType6 sampleVm (Pure.pure ())
        (some (sampleSwitch 3 1).toMystResource) sampleVideoRecord =
      Except.ok (sampleVideo, sampleVideoRecord.skip 18) := by decide!
  exact ⟨hdec, (MystResourceType6_playback_once sampleVm (Pure.pure ())
    (some (sampleSwitch 3 1).toMystResource) sampleVideoRecord _ sampleVideo [] 3 hdec
    (by decide)).2.1⟩

/-! ### Claims on Type 10 and Type 11 -/

theorem lastPress_append_move (calls : List MouseCall) :
    lastPress (calls ++ [MouseCall.handleMouseMove]) = lastPress calls := by
  simp [lastPress, List.filter_append]

theorem lastPress_append_down (calls : List MouseCall) :
    lastPress (calls ++ [MouseCall.handleMouseDown]) = some MouseCall.handleMouseDown := by
  simp [lastPress, List.filter_append]

theorem lastPress_append_up (calls : List MouseCall) :
    lastPress (calls ++ [MouseCall.handleMouseUp]) = some MouseCall.handleMouseUp := by
  simp [lastPress, List.filter_append]

theorem MystResourceType10_mouseCalls_state {ρ : Type} (calls : List MouseCall)
    (r : MystResourceType10 ρ) (history : List Effect) :
    (calls.foldl MystResourceType10.mouseCall (r, history)).1 =
      { r with mouseDown := match lastPress calls with
                            | some MouseCall.handleMouseDown => true
                            | some MouseCall.handleMouseUp => false
                            | _ => r.mouseDown } := by
  induction calls using List.reverseRecOn with
  | nil => rfl
  | append_singleton l c ih =>
    rw [List.foldl_append]
    cases c with
    | handleMouseDown =>
      simp only [List.foldl, MystResourceType10.mouseCall, MystResourceType10.handleMouseDown,
        lastPress_append_down, ih]
    | handleMouseMove =>
      simp only [List.foldl, MystResourceType10.mouseCall, MystResourceType10.handleMouseMove,
        lastPress_append_move]
      split <;> exact ih
    | handleMouseUp =>
      simp only [List.foldl, MystResourceType10.mouseCall, MystResourceType10.handleMouseUp,
        lastPress_append_up, ih]

theorem MystResourceType11_mouseCalls_state {ρ : Type} (calls : List MouseCall)
    (r : MystResourceType11 ρ) (history : List Effect) :
    (calls.foldl MystResourceType11.mouseCall (r, history)).1 =
      { r with mouseDown := match lastPress calls with
                            | some MouseCall.handleMouseDown => true
                            | some MouseCall.handleMouseUp => false
                            | _ => r.mouseDown } := by
  induction calls using List.reverseRecOn with
  | nil => rfl
  | append_singleton l c ih =>
    rw [List.foldl_append]
    cases c with
    | handleMouseDown =>
      simp only [List.foldl, MystResourceType11.mouseCall, MystResourceType11.handleMouseDown,
        lastPress_append_down, ih]
    | handleMouseMove =>
      simp only [List.foldl, MystResourceType11.mouseCall, MystResourceType11.handleMouseMove,
        lastPress_append_move]
      split <;> exact ih
    | handleMouseUp =>
      simp only [List.foldl, MystResourceType11.mouseCall, MystResourceType11.handleMouseUp,
        lastPress_append_up, ih]

theorem MystResourceType10_ctor_mouseDown {ρ : Type} (vm : MohawkEngine_Myst)
    (loadResource : Option MystResource → Loader ρ) (parent : Option MystResource)
    (s s1 : LoadState) (r : MystResourceType10 ρ)
    (h : MystResourceType10.MystResourceType10 vm loadResource parent s = Except.ok (r, s1)) :
    r.mouseDown = false := by
  unfold MystResourceType10.MystResourceType10 at h
  iterate 15 obtain ⟨_, _, _, h⟩ := Loader.bind_inv _ _ _ _ _ h
  rw [Loader.pure_apply] at h
  cases h
  rfl

theorem MystResourceType11_ctor_mouseDown {ρ : Type} (vm : MohawkEngine_Myst)
    (loadResource : Option MystResource → Loader ρ) (parent : Option MystResource)
    (s s1 : LoadState) (r : MystResourceType11 ρ)
    (h : MystResourceType11.MystResourceType11 vm loadResource parent s = Except.ok (r, s1)) :
    r.mouseDown = false := by
  unfold MystResourceType11.MystResourceType11 at h
  iterate 14 obtain ⟨_, _, _, h⟩ := Loader.bind_inv _ _ _ _ _ h
  rw [Loader.pure_apply] at h
  cases h
  rfl

theorem MystResourceType10_move_after {ρ : Type} (calls : List MouseCall)
    (r : MystResourceType10 ρ) (history : List Effect) (hfresh : r.mouseDown = false) :
    MystResourceType10.handleMouseMove (calls.foldl MystResourceType10.mouseCall (r, history)).1
        (calls.foldl MystResourceType10.mouseCall (r, history)).2 =
      ((calls.foldl MystResourceType10.mouseCall (r, history)).1,
       (calls.foldl MystResourceType10.mouseCall (r, history)).2 ++
         (if lastPress calls = some MouseCall.handleMouseDown then
            [Effect.runOpcode r.mouseDragOpcode] else [])) := by
  have hstate := MystResourceType10_mouseCalls_state calls r history
  unfold MystResourceType10.handleMouseMove
  rw [hstate]
  rcases hl : lastPress calls with _ | c
  · simp [hfresh]
  · cases c <;> simp [hfresh]

theorem MystResourceType11_move_after {ρ : Type} (calls : List MouseCall)
    (r : MystResourceType11 ρ) (history : List Effect) (hfresh : r.mouseDown = false) :
    MystResourceType11.handleMouseMove (calls.foldl MystResourceType11.mouseCall (r, history)).1
        (calls.foldl MystResourceType11.mouseCall (r, history)).2 =
      ((calls.foldl MystResourceType11.mouseCall (r, history)).1,
       (calls.foldl MystResourceType11.mouseCall (r, history)).2 ++
         (if lastPress calls = some MouseCall.handleMouseDown then
            [Effect.runOpcode r.mouseDragOpcode] else [])) := by
  have hstate := MystResourceType11_mouseCalls_state calls r history
  unfold MystResourceType11.handleMouseMove
  rw [hstate]
  rcases hl : lastPress calls with _ | c
  · simp [hfresh]
  · cases c <;> simp [hfresh]

/-- C16: Type 10 and Type 11 resources after construction, under any sequence `calls` of
handleMouseDown, handleMouseMove and handleMouseUp. A handleMouseMove made after `calls` runs
the drag opcode, and nothing else, if the most recent down or up call of `calls` is a
handleMouseDown; it does nothing if that call is a handleMouseUp or if there is none.
handleMouseUp clears `_mouseDown` and then runs the up opcode; handleMouseDown sets `_mouseDown`
and then runs the down opcode. -/
theorem mouse_drag_only_while_pressed {ρ : Type} (vm : MohawkEngine_Myst)
    (loadResource : Option MystResource → Loader ρ) (parent : Option MystResource)
    (s10 t10 s11 t11 : LoadState) (r10 : MystResourceType10 ρ) (r11 : MystResourceType11 ρ)
    (calls : List MouseCall) (history : List Effect)
    (h10 : MystResourceType10.MystResourceType10 vm loadResource parent s10
      = Except.ok (r10, t10))
    (h11 : MystResourceType11.MystResourceType11 vm loadResource parent s11
      = Except.ok (r11, t11)) :
    (MystResourceType10.handleMouseMove
        (calls.foldl MystResourceType10.mouseCall (r10, history)).1
        (calls.foldl MystResourceType10.mouseCall (r10, history)).2 =
      ((calls.foldl MystResourceType10.mouseCall (r10, history)).1,
       (calls.foldl MystResourceType10.mouseCall (r10, history)).2 ++
         (if lastPress calls = some MouseCall.handleMouseDown then
            [Effect.runOpcode r10.mouseDragOpcode] else []))) ∧
    (∀ (r : MystResourceType10 ρ) (h : List Effect),
      MystResourceType10.handleMouseUp r h =
        ({ r with mouseDown := false },
         h ++ [Effect.setMouseDown false, Effect.runOpcode r.mouseUpOpcode]) ∧
      MystResourceType10.handleMouseDown r h =
        ({ r with mouseDown := true },
         h ++ [Effect.setMouseDown true, Effect.runOpcode r.mouseDownOpcode])) ∧
    (MystResourceType11.handleMouseMove
        (calls.foldl MystResourceType11.mouseCall (r11, history)).1
        (calls.foldl MystResourceType11.mouseCall (r11, history)).2 =
      ((calls.foldl MystResourceType11.mouseCall (r11, history)).1,
       (calls.foldl MystResourceType11.mouseCall (r11, history)).2 ++
         (if lastPress calls = some MouseCall.handleMouseDown then
            [Effect.runOpcode r11.mouseDragOpcode] else []))) ∧
    (∀ (r : MystResourceType11 ρ) (h : List Effect),
      MystResourceType11.handleMouseUp r h =
        ({ r with mouseDown := false },
         h ++ [Effect.setMouseDown false, Effect.runOpcode r.mouseUpOpcode]) ∧
      MystResourceType11.handleMouseDown r h =
        ({ r with mouseDown := true },
         h ++ [Effect.setMouseDown true, Effect.runOpcode r.mouseDownOpcode])) := by
  refine ⟨MystResourceType10_move_after calls r10 history
      (MystResourceType10_ctor_mouseDown vm loadResource parent s10 t10 r10 h10), ?_,
    MystResourceType11_move_after calls r11 history
      (MystResourceType11_ctor_mouseDown vm loadResource parent s11 t11 r11 h11), ?_⟩
  · intro r h
    simp [MystResourceType10.handleMouseUp, MystResourceType10.handleMouseDown]
  · intro r h
    simp [MystResourceType11.handleMouseUp, MystResourceType11.handleMouseDown]

/-- Witness of C16: the sample drag record decoded as a Type 10 and as a Type 11 resource. After
move, down, move, up the history holds the down opcode 10, one drag opcode 11 (for the move
between down and up; the first move did nothing) and the up opcode 12, and a further move does
nothing. -/
theorem mouse_drag_only_while_pressed_witness :
    MystResourceType10.MystResourceType10 sampleVm (fun _ => Pure.pure ())
        (some (sampleSwitch 3 1).toMystResource) sampleDragRecord
      = Except.ok (sampleDrag10, (sampleDragRecord.skip 36).warn Warning.type10NotImplemented) ∧
    MystResourceType11.MystResourceType11 sampleVm (fun _ => Pure.pure ())
        (some (sampleSwitch 3 1).toMystResource) sampleDragRecord
      = Except.ok (sampleDrag11, sampleDragRecord.skip 34) ∧
    ([MouseCall.handleMouseMove, MouseCall.handleMouseDown, MouseCall.handleMouseMove,
      MouseCall.handleMouseUp].foldl MystResourceType10.mouseCall (sampleDrag10, [])).2 =
      [Effect.setMouseDown true, Effect.runOpcode 10, Effect.runOpcode 11,
       Effect.setMouseDown false, Effect.runOpcode 12] ∧
    MystResourceType10.handleMouseMove
        ([MouseCall.handleMouseMove, MouseCall.handleMouseDown, MouseCall.handleMouseMove,
          MouseCall.handleMouseUp].foldl MystResourceType10.mouseCall (sampleDrag10, [])).1
        ([MouseCall.handleMouseMove, MouseCall.handleMouseDown, MouseCall.handleMouseMove,
          MouseCall.handleMouseUp].foldl MystResourceType10.mouseCall (sampleDrag10, [])).2 =
      (([MouseCall.handleMouseMove, MouseCall.handleMouseDown, MouseCall.handleMouseMove,
          MouseCall.handleMouseUp].foldl MystResourceType10.mouseCall (sampleDrag10, [])).1,
       ([MouseCall.handleMouseMove, MouseCall.handleMouseDown, MouseCall.handleMouseMove,
          MouseCall.handleMouseUp].foldl MystResourceType10.mouseCall (sampleDrag10, [])).2 ++
         []) := by
  have h10 : MystResourceType10.MystResourceType10 sampleVm (fun _ => Pure.pure ())
        (some (sampleSwitch 3 1).toMystResource) sampleDragRecord
      = Except.ok (sampleDrag10, (sampleDragRecord.skip 36).warn Warning.type10NotImplemented) := by
    decide!
  have h11 : MystResourceType11.MystResourceType11 sampleVm (fun _ => Pure.pure ())
        (some (sampleSwitch 3 1).toMystResource) sampleDragRecord
      = Except.ok (sampleDrag11, sampleDragRecord.skip 34) := by
    decide!
  exact ⟨h10, h11, by decide,
    (mouse_drag_only_while_pressed sampleVm (fun _ => Pure.pure ())
      (some (sampleSwitch 3 1).toMystResource) sampleDragRecord _ sampleDragRecord _
      sampleDrag10 sampleDrag11
      [MouseCall.handleMouseMove, MouseCall.handleMouseDown, MouseCall.handleMouseMove,
        MouseCall.handleMouseUp] [] h10 h11).1⟩

/-! ### Claims on Type 12 -/

theorem frameDraws_succ (first count : Nat) (frameRect : Rect) :
    frameDraws first (count + 1) frameRect =
      frameDraws first count frameRect ++ [Effect.copyImageToScreen (first + count) frameRect] := by
  simp [frameDraws, List.range_succ]

theorem MystResourceType12_ticks_succ {ρ : Type} (j : Nat)
    (p : MystResourceType12 ρ × List Effect) :
    MystResourceType12.ticks (j + 1) p =
      MystResourceType12.handleAnimation (MystResourceType12.ticks j p).1
        (MystResourceType12.ticks j p).2 := by
  unfold MystResourceType12.ticks
  rw [Function.iterate_succ_apply']

theorem MystResourceType12_ticks_running {ρ : Type} (r : MystResourceType12 ρ)
    (history : List Effect) (hbound : r.firstFrame + r.numFrames ≤ 65535) (j : Nat)
    (hj : j < r.numFrames) :
    MystResourceType12.ticks j (MystResourceType12.handleMouseUp r history) =
      ({ r with currentFrame := r.firstFrame + j, doAnimation := true },
       history ++ frameDraws r.firstFrame j r.frameRect) := by
  induction j with
  | zero => simp [MystResourceType12.ticks, MystResourceType12.handleMouseUp, frameDraws]
  | succ j ih =>
    rw [MystResourceType12_ticks_succ, ih (by omega), frameDraws_succ]
    have hmod : (r.firstFrame + j + 1) % 65536 = r.firstFrame + j + 1 :=
      Nat.mod_eq_of_lt (by omega)
    have hlt : ¬ ((r.firstFrame + j + 1 : Nat) : Int) - (r.firstFrame : Int)
        ≥ (r.numFrames : Int) := by omega
    simp only [MystResourceType12.handleAnimation, hmod, if_true, if_neg hlt, List.append_assoc]
    rfl

theorem MystResourceType12_ticks_full {ρ : Type} (r : MystResourceType12 ρ)
    (history : List Effect) (hbound : r.firstFrame + r.numFrames ≤ 65535)
    (hn : 1 ≤ r.numFrames) :
    MystResourceType12.ticks r.numFrames (MystResourceType12.handleMouseUp r history) =
      ({ r with currentFrame := r.firstFrame + r.numFrames, doAnimation := false },
       history ++ frameDraws r.firstFrame r.numFrames r.frameRect) := by
  obtain ⟨k, hk⟩ : ∃ k, r.numFrames = k + 1 := ⟨r.numFrames - 1, by omega⟩
  rw [hk, MystResourceType12_ticks_succ,
    MystResourceType12_ticks_running r history hbound k (by omega), frameDraws_succ]
  have hmod : (r.firstFrame + k + 1) % 65536 = r.firstFrame + k + 1 :=
    Nat.mod_eq_of_lt (by omega)
  have hge : ((r.firstFrame + k + 1 : Nat) : Int) - (r.firstFrame : Int)
      ≥ (r.numFrames : Int) := by omega
  simp only [MystResourceType12.handleAnimation, hmod, if_true, if_pos hge, List.append_assoc]
  simp [hk, Nat.add_assoc]

/-- C17: a Type 12 resource with first frame f and n >= 1 frames, f + n <= 65535. After
handleMouseUp and exactly n ticks of handleAnimation the frames drawn are f, f+1, ..., f+n-1 in
this order, `_doAnimation` is false and the frame counter is f + n; after each of the first n-1
ticks (and before the first) `_doAnimation` is still true. -/
theorem MystResourceType12_frame_cycle {ρ : Type} (r : MystResourceType12 ρ)
    (history : List Effect) (hn : 1 ≤ r.numFrames)
    (hbound : r.firstFrame + r.numFrames ≤ 65535) :
    MystResourceType12.ticks r.numFrames (MystResourceType12.handleMouseUp r history) =
      ({ r with currentFrame := r.firstFrame + r.numFrames, doAnimation := false },
       history ++ frameDraws r.firstFrame r.numFrames r.frameRect) ∧
    (∀ j, j < r.numFrames →
      (MystResourceType12.ticks j (MystResourceType12.handleMouseUp r history)).1.doAnimation
        = true ∧
      (MystResourceType12.ticks j (MystResourceType12.handleMouseUp r history)).2 =
        history ++ frameDraws r.firstFrame j r.frameRect) := by
  refine ⟨MystResourceType12_ticks_full r history hbound hn, ?_⟩
  intro j hj
  rw [MystResourceType12_ticks_running r history hbound j hj]
  exact ⟨rfl, rfl⟩

/-- Witness of C17: first frame 10 and 5 frames; after handleMouseUp and 5 ticks the frames 10
to 14 have been drawn, the counter is 15 and `_doAnimation` is false. -/
theorem MystResourceType12_frame_cycle_witness :
    1 ≤ (sampleFrames 10 5).numFrames ∧
    (sampleFrames 10 5).firstFrame + (sampleFrames 10 5).numFrames ≤ 65535 ∧
    MystResourceType12.ticks 5 (MystResourceType12.handleMouseUp (sampleFrames 10 5) []) =
      ({ sampleFrames 10 5 with currentFrame := 15, doAnimation := false },
       [Effect.copyImageToScreen 10 { left := 0, top := 0, right := 20, bottom := 30 },
        Effect.copyImageToScreen 11 { left := 0, top := 0, right := 20, bottom := 30 },
        Effect.copyImageToScreen 12 { left := 0, top := 0, right := 20, bottom := 30 },
        Effect.copyImageToScreen 13 { left := 0, top := 0, right := 20, bottom := 30 },
        Effect.copyImageToScreen 14 { left := 0, top := 0, right := 20, bottom := 30 }]) :=
  ⟨by decide, by decide,
   (MystResourceType12_frame_cycle (sampleFrames 10 5) [] (by decide) (by decide)).1⟩

theorem MystResourceType12_handleAnimation_fields {ρ : Type} (r : MystResourceType12 ρ)
    (history : List Effect) :
    ∃ c d, (MystResourceType12.handleAnimation r history).1 =
      { r with currentFrame := c, doAnimation := d } := by
  unfold MystResourceType12.handleAnimation
  by_cases hd : r.doAnimation = true
  · simp only [if_pos hd]
    split
    · exact ⟨_, _, rfl⟩
    · exact ⟨(r.currentFrame + 1) % 65536, r.doAnimation, rfl⟩
  · simp only [if_neg hd]
    exact ⟨r.currentFrame, r.doAnimation, rfl⟩

theorem MystResourceType12_ticks_fields {ρ : Type} (k : Nat) (r : MystResourceType12 ρ)
    (history : List Effect) :
    ∃ c d, (MystResourceType12.ticks k (r, history)).1 =
      { r with currentFrame := c, doAnimation := d } := by
  induction k with
  | zero => exact ⟨r.currentFrame, r.doAnimation, rfl⟩
  | succ k ih =>
    obtain ⟨c, d, hk⟩ := ih
    rw [MystResourceType12_ticks_succ]
    obtain ⟨c2, d2, h2⟩ := MystResourceType12_handleAnimation_fields
      (MystResourceType12.ticks k (r, history)).1 (MystResourceType12.ticks k (r, history)).2
    rw [h2, hk]
    exact ⟨c2, d2, rfl⟩

theorem MystResourceType12_handleAnimation_history {ρ : Type} (r : MystResourceType12 ρ)
    (history : List Effect) :
    MystResourceType12.handleAnimation r history =
      ((MystResourceType12.handleAnimation r []).1,
       history ++ (MystResourceType12.handleAnimation r []).2) := by
  unfold MystResourceType12.handleAnimation
  by_cases hd : r.doAnimation = true
  · simp only [if_pos hd]
    split <;> simp
  · simp only [if_neg hd]
    simp

theorem MystResourceType12_ticks_history {ρ : Type} (m : Nat) (r : MystResourceType12 ρ)
    (history : List Effect) :
    MystResourceType12.ticks m (r, history) =
      ((MystResourceType12.ticks m (r, [])).1,
       history ++ (MystResourceType12.ticks m (r, [])).2) := by
  induction m with
  | zero => simp [MystResourceType12.ticks]
  | succ m ih =>
    rw [MystResourceType12_ticks_succ, MystResourceType12_ticks_succ, ih,
      MystResourceType12_handleAnimation_history]
    rw [MystResourceType12_handleAnimation_history (MystResourceType12.ticks m (r, [])).1
      (MystResourceType12.ticks m (r, [])).2]
    simp

theorem MystResourceType12_ticks_after_up {ρ : Type} (m : Nat) (r : MystResourceType12 ρ)
    (later : List Effect) :
    MystResourceType12.ticks m (MystResourceType12.handleMouseUp r later) =
      ((MystResourceType12.ticks m (MystResourceType12.handleMouseUp r [])).1,
       later ++ (MystResourceType12.ticks m (MystResourceType12.handleMouseUp r [])).2) :=
  MystResourceType12_ticks_history m _ later

/-- C18: re-triggering a Type 12 cycle. After handleMouseUp and k ticks, a second handleMouseUp
leaves the resource exactly as the first handleMouseUp left it (frame counter = first frame,
`_doAnimation` true); for every m, m ticks after the second handleMouseUp give the same resource
and draw the same frames as m ticks after the first one; and when n >= 1 and f + n <= 65535, n
ticks after the second handleMouseUp draw f, ..., f+n-1 again and stop. -/
theorem MystResourceType12_retrigger {ρ : Type} (r : MystResourceType12 ρ)
    (history : List Effect) (k : Nat) :
    (MystResourceType12.handleMouseUp
        (MystResourceType12.ticks k (MystResourceType12.handleMouseUp r history)).1
        (MystResourceType12.ticks k (MystResourceType12.handleMouseUp r history)).2).1 =
      (MystResourceType12.handleMouseUp r history).1 ∧
    (MystResourceType12.handleMouseUp r history).1.currentFrame = r.firstFrame ∧
    (MystResourceType12.handleMouseUp r history).1.doAnimation = true ∧
    (∀ m,
      (MystResourceType12.ticks m (MystResourceType12.handleMouseUp
        (MystResourceType12.ticks k (MystResourceType12.handleMouseUp r history)).1
        (MystResourceType12.ticks k (MystResourceType12.handleMouseUp r history)).2)).1 =
        (MystResourceType12.ticks m (MystResourceType12.handleMouseUp r history)).1 ∧
      (MystResourceType12.ticks m (MystResourceType12.handleMouseUp
        (MystResourceType12.ticks k (MystResourceType12.handleMouseUp r history)).1
        (MystResourceType12.ticks k (MystResourceType12.handleMouseUp r history)).2)).2 =
        (MystResourceType12.ticks k (MystResourceType12.handleMouseUp r history)).2 ++
          ((MystResourceType12.ticks m (MystResourceType12.handleMouseUp r history)).2.drop
            history.length)) ∧
    (1 ≤ r.numFrames → r.firstFrame + r.numFrames ≤ 65535 →
      MystResourceType12.ticks r.numFrames (MystResourceType12.handleMouseUp
        (MystResourceType12.ticks k (MystResourceType12.handleMouseUp r history)).1
        (MystResourceType12.ticks k (MystResourceType12.handleMouseUp r history)).2) =
      ({ r with currentFrame := r.firstFrame + r.numFrames, doAnimation := false },
       (MystResourceType12.ticks k (MystResourceType12.handleMouseUp r history)).2 ++
         frameDraws r.firstFrame r.numFrames r.frameRect)) := by
  obtain ⟨c, d, hmid⟩ := MystResourceType12_ticks_fields k
    (MystResourceType12.handleMouseUp r history).1 (MystResourceType12.handleMouseUp r history).2
  have hup : ∀ later, MystResourceType12.handleMouseUp
      (MystResourceType12.ticks k (MystResourceType12.handleMouseUp r history)).1 later =
      MystResourceType12.handleMouseUp r later := by
    intro later
    have hpair : MystResourceType12.handleMouseUp r history =
        ((MystResourceType12.handleMouseUp r history).1,
          (MystResourceType12.handleMouseUp r history).2) := rfl
    rw [hpair, hmid]
    rfl
  refine ⟨?_, rfl, rfl, ?_, ?_⟩
  · rw [hup]
    rfl
  · intro m
    rw [hup, MystResourceType12_ticks_after_up m r
      (MystResourceType12.ticks k (MystResourceType12.handleMouseUp r history)).2,
      MystResourceType12_ticks_after_up m r history]
    simp
  · intro hn hbound
    rw [hup]
    exact MystResourceType12_ticks_full r _ hbound hn

/-- Witness of C18: first frame 10, 5 frames, re-trigger after 2 ticks: the frames 10 and 11 of
the first cycle, then the full cycle 10 to 14, the counter ending at 15. -/
theorem MystResourceType12_retrigger_witness :
    1 ≤ (sampleFrames 10 5).numFrames ∧
    (sampleFrames 10 5).firstFrame + (sampleFrames 10 5).numFrames ≤ 65535 ∧
    MystResourceType12.ticks 5 (MystResourceType12.handleMouseUp
        (MystResourceType12.ticks 2 (MystResourceType12.handleMouseUp (sampleFrames 10 5) [])).1
        (MystResourceType12.ticks 2 (MystResourceType12.handleMouseUp (sampleFrames 10 5) [])).2)
      = ({ sampleFrames 10 5 with currentFrame := 15, doAnimation := false },
       [Effect.copyImageToScreen 10 { left := 0, top := 0, right := 20, bottom := 30 },
        Effect.copyImageToScreen 11 { left := 0, top := 0, right := 20, bottom := 30 },
        Effect.copyImageToScreen 10 { left := 0, top := 0, right := 20, bottom := 30 },
        Effect.copyImageToScreen 11 { left := 0, top := 0, right := 20, bottom := 30 },
        Effect.copyImageToScreen 12 { left := 0, top := 0, right := 20, bottom := 30 },
        Effect.copyImageToScreen 13 { left := 0, top := 0, right := 20, bottom := 30 },
        Effect.copyImageToScreen 14 { left := 0, top := 0, right := 20, bottom := 30 }]) :=
  ⟨by decide, by decide,
   (MystResourceType12_retrigger (sampleFrames 10 5) [] 2).2.2.2.2 (by decide) (by decide)⟩

/-! ### Value lists and reserved fields -/

theorem LoadState.skip_zero (s : LoadState) : s.skip 0 = s := rfl

theorem replicate_readUint16LE_ok (n : Nat) (s : LoadState) (h : 2 * n ≤ s.remaining) :
    Loader.replicate n readUint16LE s =
      Except.ok ((List.range n).map (fun j => s.uint16At (2 * j)), s.skip (2 * n)) := by
  induction n generalizing s with
  | zero => rfl
  | succ n ih =>
    have h1 := readUint16LE_ok s (by omega)
    have h2 := ih (s.skip 2) (by rw [LoadState.remaining_skip]; omega)
    rw [Loader.replicate_succ_ok _ _ _ _ _ _ _ h1 h2]
    simp only [LoadState.skip_skip, LoadState.uint16At_skip, List.range_succ_eq_map,
      List.map_cons, List.map_map]
    congr 2
    · congr 1
      apply List.map_congr_left
      intro j _
      simp only [Function.comp]
      congr 1
      omega
    · congr 1
      omega

theorem replicate_readUint16LE_eof (n : Nat) (s : LoadState) (h : s.remaining < 2 * n) :
    Loader.replicate n readUint16LE s = Except.error LoadError.truncatedStream := by
  induction n generalizing s with
  | zero => omega
  | succ n ih =>
    change (readUint16LE >>= fun x => Loader.replicate n readUint16LE >>= fun ys =>
      Pure.pure (x :: ys)) s = _
    by_cases h2 : 2 ≤ s.remaining
    · rw [Loader.bind_ok _ _ _ _ _ (readUint16LE_ok s h2)]
      exact Loader.bind_error _ _ _ _ (ih _ (by rw [LoadState.remaining_skip]; omega))
    · exact Loader.bind_error _ _ _ _ (readUint16LE_eof s (by omega))

theorem readValueList_ok (s : LoadState) (h : 2 + 2 * s.uint16At 0 ≤ s.remaining) :
    readValueList s = Except.ok (s.valueListAt 0, s.skip (2 + 2 * s.uint16At 0)) := by
  unfold readValueList
  rw [Loader.bind_ok _ _ _ _ _ (readUint16LE_ok s (by omega))]
  rw [Loader.bind_ok _ _ _ _ _ (replicate_readUint16LE_ok _ _
    (by rw [LoadState.remaining_skip]; omega))]
  simp [Loader.pure_apply, LoadState.valueListAt, LoadState.skip_skip, LoadState.uint16At_skip]

theorem readValueList_eof (s : LoadState) (h : s.remaining < 2 + 2 * s.uint16At 0) :
    readValueList s = Except.error LoadError.truncatedStream := by
  unfold readValueList
  by_cases h2 : 2 ≤ s.remaining
  · rw [Loader.bind_ok _ _ _ _ _ (readUint16LE_ok s h2)]
    exact Loader.bind_error _ _ _ _ (replicate_readUint16LE_eof _ _
      (by rw [LoadState.remaining_skip]; omega))
  · exact Loader.bind_error _ _ _ _ (readUint16LE_eof s (by omega))

theorem LoadState.valueListAt_skip (s : LoadState) (n i : Nat) :
    (s.skip n).valueListAt i = s.valueListAt (n + i) := by
  simp [LoadState.valueListAt, LoadState.uint16At_skip, Nat.add_assoc]

theorem LoadState.valueLists_skip (s : LoadState) (k n i : Nat) :
    (s.skip n).valueLists k i = s.valueLists k (n + i) := by
  induction k generalizing i with
  | zero => rfl
  | succ k ih =>
    simp [LoadState.valueLists, LoadState.valueListAt_skip, LoadState.uint16At_skip, ih,
      Nat.add_assoc]

theorem LoadState.valueListsEnd_skip (s : LoadState) (k n i : Nat) :
    n + (s.skip n).valueListsEnd k i = s.valueListsEnd k (n + i) := by
  induction k generalizing i with
  | zero => rfl
  | succ k ih =>
    simp [LoadState.valueListsEnd, LoadState.uint16At_skip, ih, Nat.add_assoc]

theorem LoadState.le_valueListsEnd (s : LoadState) (k i : Nat) : i ≤ s.valueListsEnd k i := by
  induction k generalizing i with
  | zero => exact Nat.le_refl _
  | succ k ih =>
    have := ih (i + 2 + 2 * s.uint16At i)
    simp only [LoadState.valueListsEnd]
    omega

theorem replicate_readValueList_ok (k : Nat) (s : LoadState)
    (h : s.valueListsEnd k 0 ≤ s.remaining) :
    Loader.replicate k readValueList s =
      Except.ok (s.valueLists k 0, s.skip (s.valueListsEnd k 0)) := by
  induction k generalizing s with
  | zero => rfl
  | succ k ih =>
    have hle := s.le_valueListsEnd k (0 + 2 + 2 * s.uint16At 0)
    have hend := s.valueListsEnd_skip k (2 + 2 * s.uint16At 0) 0
    simp only [LoadState.valueListsEnd] at h
    simp only [Nat.zero_add, Nat.add_zero] at hle hend h
    have h1 := readValueList_ok s (by omega)
    have h2 := ih (s.skip (2 + 2 * s.uint16At 0)) (by rw [LoadState.remaining_skip]; omega)
    rw [Loader.replicate_succ_ok _ _ _ _ _ _ _ h1 h2]
    simp only [LoadState.valueLists, LoadState.valueListsEnd, LoadState.valueLists_skip,
      LoadState.skip_skip, Nat.zero_add, Nat.add_zero, hend]

theorem replicate_readValueList_eof (k : Nat) (s : LoadState)
    (h : s.remaining < s.valueListsEnd k 0) :
    Loader.replicate k readValueList s = Except.error LoadError.truncatedStream := by
  induction k generalizing s with
  | zero => simp [LoadState.valueListsEnd] at h
  | succ k ih =>
    change (readValueList >>= fun x => Loader.replicate k readValueList >>= fun ys =>
      Pure.pure (x :: ys)) s = _
    have hend := s.valueListsEnd_skip k (2 + 2 * s.uint16At 0) 0
    simp only [LoadState.valueListsEnd] at h
    simp only [Nat.zero_add, Nat.add_zero] at hend h
    by_cases h2 : 2 + 2 * s.uint16At 0 ≤ s.remaining
    · rw [Loader.bind_ok _ _ _ _ _ (readValueList_ok s h2)]
      exact Loader.bind_error _ _ _ _ (ih _ (by rw [LoadState.remaining_skip]; omega))
    · exact Loader.bind_error _ _ _ _ (readValueList_eof s (by omega))

theorem replicate_readValueList_inv (k : Nat) (s s1 : LoadState) (lists : List ValueList)
    (h : Loader.replicate k readValueList s = Except.ok (lists, s1)) :
    s.valueListsEnd k 0 ≤ s.remaining ∧ lists = s.valueLists k 0 ∧
    s1 = s.skip (s.valueListsEnd k 0) := by
  by_cases hr : s.valueListsEnd k 0 ≤ s.remaining
  · rw [replicate_readValueList_ok k s hr] at h
    cases h
    exact ⟨hr, rfl, rfl⟩
  · rw [replicate_readValueList_eof k s (by omega)] at h
    cases h

theorem replicate_readValueList_withWarnings (k : Nat) (s s1 : LoadState)
    (lists : List ValueList) (ws : List Warning)
    (h : Loader.replicate k readValueList s = Except.ok (lists, s1)) :
    Loader.replicate k readValueList (s.withWarnings ws) =
      Except.ok (lists, s1.withWarnings ws) := by
  obtain ⟨hr, hl, hs⟩ := replicate_readValueList_inv k s s1 lists h
  have hv : ∀ k i, (s.withWarnings ws).valueLists k i = s.valueLists k i := by
    intro k
    induction k with
    | zero => intro i; rfl
    | succ k ih => intro i; simp only [LoadState.valueLists, ih]; rfl
  have he : ∀ k i, (s.withWarnings ws).valueListsEnd k i = s.valueListsEnd k i := by
    intro k
    induction k with
    | zero => intro i; rfl
    | succ k ih => intro i; simp only [LoadState.valueListsEnd, ih]; rfl
  rw [replicate_readValueList_ok k (s.withWarnings ws) (by rw [he]; exact hr), hv, he, hl, hs]
  rfl

theorem warning_if_ok (c : Prop) [Decidable c] (w : Warning) (s : LoadState) :
    (if c then warning w else Pure.pure ()) s =
      Except.ok ((), s.withWarnings (s.warnings ++ (if c then [w] else []))) := by
  by_cases hc : c
  · simp [hc, warning, LoadState.withWarnings]
  · simp [hc, Loader.pure_apply, LoadState.withWarnings]


theorem LoadState.withWarnings_withWarnings (s : LoadState) (a b : List Warning) :
    (s.withWarnings a).withWarnings b = s.withWarnings b := rfl

theorem LoadState.warnings_withWarnings (s : LoadState) (a : List Warning) :
    (s.withWarnings a).warnings = a := rfl

theorem LoadState.warnings_skip (s : LoadState) (n : Nat) : (s.skip n).warnings = s.warnings :=
  rfl

theorem LoadState.remaining_withWarnings (s : LoadState) (a : List Warning) :
    (s.withWarnings a).remaining = s.remaining := rfl

theorem LoadState.uint16At_withWarnings (s : LoadState) (a : List Warning) (i : Nat) :
    (s.withWarnings a).uint16At i = s.uint16At i := rfl

theorem LoadState.skip_withWarnings (s : LoadState) (a : List Warning) (n : Nat) :
    (s.withWarnings a).skip n = (s.skip n).withWarnings a := rfl

theorem warning_withWarnings (w : Warning) (s : LoadState) :
    warning w s = Except.ok ((), s.withWarnings (s.warnings ++ [w])) := rfl

theorem MystResourceType10_ctor_ok {ρ : Type} (vm : MohawkEngine_Myst)
    (loadResource : Option MystResource → Loader ρ) (parent : Option MystResource)
    (s s0 s3 : LoadState) (base : MystResourceType8 ρ) (lists : List ValueList)
    (hb : MystResourceType8.MystResourceType8 vm loadResource parent s = Except.ok (base, s0))
    (h20 : 20 ≤ s0.remaining)
    (hl : Loader.replicate 4 readValueList (s0.skip 20) = Except.ok (lists, s3)) :
    MystResourceType10.MystResourceType10 vm loadResource parent s =
      Except.ok
        ({ toMystResourceType8 := base, kind := s0.uint16At 0,
           rect10 := { left := toSint16 (s0.uint16At 2), top := toSint16 (s0.uint16At 6),
                       right := toSint16 (s0.uint16At 4), bottom := toSint16 (s0.uint16At 8) },
           u0 := s0.uint16At 10, u1 := s0.uint16At 12, mouseDownOpcode := s0.uint16At 14,
           mouseDragOpcode := s0.uint16At 16, mouseUpOpcode := s0.uint16At 18,
           lists := lists, mouseDown := false },
         s3.withWarnings (s0.warnings ++
           (if s0.uint16At 10 ≠ 0 then [Warning.type10U0NonZero] else []) ++
           (if s0.uint16At 12 ≠ 0 then [Warning.type10U1NonZero] else []) ++
           [Warning.type10NotImplemented])) := by
  unfold MystResourceType10.MystResourceType10
  rw [Loader.bind_ok _ _ _ _ _ hb]
  rw [Loader.bind_ok _ _ _ _ _ (readUint16LE_ok s0 (by omega))]
  iterate 9 rw [Loader.bind_ok _ _ _ _ _ (readUint16LE_ok _
    (by simp only [LoadState.remaining_skip]; omega))]
  simp only [LoadState.skip_skip, LoadState.uint16At_skip, Nat.add_zero]
  rw [Loader.bind_ok _ _ _ _ _ (warning_if_ok _ _ _)]
  rw [Loader.bind_ok _ _ _ _ _ (warning_if_ok _ _ _)]
  simp only [LoadState.withWarnings_withWarnings, LoadState.warnings_withWarnings,
    LoadState.warnings_skip]
  rw [Loader.bind_ok _ _ _ _ _ (replicate_readValueList_withWarnings _ _ _ _ _ hl)]
  rw [Loader.bind_ok _ _ _ _ _ (warning_withWarnings _ _)]
  rfl

theorem MystResourceType11_ctor_ok {ρ : Type} (vm : MohawkEngine_Myst)
    (loadResource : Option MystResource → Loader ρ) (parent : Option MystResource)
    (s s0 s3 : LoadState) (base : MystResourceType8 ρ) (lists : List ValueList)
    (hb : MystResourceType8.MystResourceType8 vm loadResource parent s = Except.ok (base, s0))
    (h20 : 20 ≤ s0.remaining)
    (hl : Loader.replicate 3 readValueList (s0.skip 20) = Except.ok (lists, s3)) :
    MystResourceType11.MystResourceType11 vm loadResource parent s =
      Except.ok
        ({ toMystResourceType8 := base, kind := s0.uint16At 0,
           rect11 := { left := toSint16 (s0.uint16At 2), top := toSint16 (s0.uint16At 6),
                       right := toSint16 (s0.uint16At 4), bottom := toSint16 (s0.uint16At 8) },
           u0 := s0.uint16At 10, u1 := s0.uint16At 12, mouseDownOpcode := s0.uint16At 14,
           mouseDragOpcode := s0.uint16At 16, mouseUpOpcode := s0.uint16At 18,
           lists := lists, mouseDown := false },
         s3.withWarnings (s0.warnings ++
           (if s0.uint16At 10 ≠ 0 then [Warning.type11U0NonZero] else []) ++
           (if s0.uint16At 12 ≠ 0 then [Warning.type11U1NonZero] else []))) := by
  unfold MystResourceType11.MystResourceType11
  rw [Loader.bind_ok _ _ _ _ _ hb]
  rw [Loader.bind_ok _ _ _ _ _ (readUint16LE_ok s0 (by omega))]
  iterate 9 rw [Loader.bind_ok _ _ _ _ _ (readUint16LE_ok _
    (by simp only [LoadState.remaining_skip]; omega))]
  simp only [LoadState.skip_skip, LoadState.uint16At_skip, Nat.add_zero]
  rw [Loader.bind_ok _ _ _ _ _ (warning_if_ok _ _ _)]
  rw [Loader.bind_ok _ _ _ _ _ (warning_if_ok _ _ _)]
  simp only [LoadState.withWarnings_withWarnings, LoadState.warnings_withWarnings,
    LoadState.warnings_skip]
  rw [Loader.bind_ok _ _ _ _ _ (replicate_readValueList_withWarnings _ _ _ _ _ hl)]
  rfl

theorem MystResourceType12_ctor_ok {ρ : Type} (vm : MohawkEngine_Myst)
    (loadResource : Option MystResource → Loader ρ) (parent : Option MystResource)
    (currentFrame : Nat) (s s0 s3 : LoadState) (base : MystResourceType8 ρ)
    (lists : List ValueList)
    (hb : MystResourceType8.MystResourceType8 vm loadResource parent s = Except.ok (base, s0))
    (h20 : 20 ≤ s0.remaining)
    (hl : Loader.replicate 3 readValueList (s0.skip 20) = Except.ok (lists, s3))
    (h12 : 12 ≤ s3.remaining) :
    MystResourceType12.MystResourceType12 vm loadResource parent currentFrame s =
      Except.ok
        ({ toMystResourceType8 := base, kind := s0.uint16At 0,
           rect11 := { left := toSint16 (s0.uint16At 2), top := toSint16 (s0.uint16At 6),
                       right := toSint16 (s0.uint16At 4), bottom := toSint16 (s0.uint16At 8) },
           state0Frame := s0.uint16At 10, state1Frame := s0.uint16At 12,
           mouseDownOpcode := s0.uint16At 14, mouseDragOpcode := s0.uint16At 16,
           mouseUpOpcode := s0.uint16At 18, lists := lists,
           numFrames := s3.uint16At 0, firstFrame := s3.uint16At 2,
           frameRect := { left := toSint16 (s3.uint16At 8), top := toSint16 (s3.uint16At 10),
                          right := toSint16 (toSint16 (s3.uint16At 8) + s3.uint16At 4),
                          bottom := toSint16 (toSint16 (s3.uint16At 10) + s3.uint16At 6) },
           doAnimation := false, currentFrame := currentFrame % 65536 },
         (s3.skip 12).withWarnings (s0.warnings ++ [Warning.type12NotImplemented])) := by
  unfold MystResourceType12.MystResourceType12
  rw [Loader.bind_ok _ _ _ _ _ hb]
  rw [Loader.bind_ok _ _ _ _ _ (readUint16LE_ok s0 (by omega))]
  iterate 9 rw [Loader.bind_ok _ _ _ _ _ (readUint16LE_ok _
    (by simp only [LoadState.remaining_skip]; omega))]
  simp only [LoadState.skip_skip, LoadState.uint16At_skip, Nat.add_zero]
  rw [Loader.bind_ok _ _ _ _ _ hl]
  rw [Loader.bind_ok _ _ _ _ _ (warning_withWarnings _ _)]
  iterate 6 rw [Loader.bind_ok _ _ _ _ _ (readUint16LE_ok _
    (by simp only [LoadState.remaining_skip, LoadState.remaining_withWarnings]; omega))]
  have hw : s3.warnings = s0.warnings := by
    obtain ⟨_, _, hs⟩ := replicate_readValueList_inv _ _ _ _ hl
    rw [hs]
    rfl
  simp only [LoadState.skip_skip, LoadState.uint16At_skip, LoadState.uint16At_withWarnings,
    LoadState.skip_withWarnings, Nat.add_zero, Loader.pure_apply, hw]

/-! ### Claims on the video name -/

theorem MystResourceType6_convertLoop_eq (name : List Char) (rounds i : Nat) (temp : List Char)
    (h : name.length - i ≤ rounds) :
    MystResourceType6.convertLoop name rounds i temp =
      temp ++ (name.drop i).map (fun ch => if ch = Char.ofNat 92 then '/' else ch) := by
  induction rounds generalizing i temp with
  | zero =>
    have hd : name.drop i = [] := List.drop_eq_nil_of_le (by omega)
    simp [MystResourceType6.convertLoop, hd]
  | succ rounds ih =>
    unfold MystResourceType6.convertLoop
    by_cases hi : i < name.length
    · have hd : name.drop i = name[i] :: name.drop (i + 1) := List.drop_eq_getElem_cons hi
      have hg : name.getD i (Char.ofNat 0) = name[i] := by
        simp [List.getD_eq_getElem?_getD, List.getElem?_eq_getElem hi]
      rw [if_pos hi, hg, hd]
      by_cases hc : name[i] = Char.ofNat 92
      · rw [if_pos hc, ih _ _ (by omega)]
        simp only [List.map_cons, if_pos hc, List.append_assoc, List.cons_append,
          List.nil_append]
      · rw [if_neg hc, ih _ _ (by omega)]
        simp only [List.map_cons, if_neg hc, List.append_assoc, List.cons_append,
          List.nil_append]
    · have hd : name.drop i = [] := List.drop_eq_nil_of_le (by omega)
      simp [hi, hd]

theorem MystResourceType6_convertMystVideoName_eq (name : List Char) :
    MystResourceType6.convertMystVideoName name =
      (name.drop 1).map (fun ch => if ch = Char.ofNat 92 then '/' else ch) ++
        ['.', 'm', 'o', 'v'] := by
  unfold MystResourceType6.convertMystVideoName
  rw [MystResourceType6_convertLoop_eq name name.length 1 [] (by omega)]
  simp

/-- C27: for every string `name`, `convertMystVideoName(name)` is the characters of `name` from
index 1 on, with every backslash (character 92) replaced by a slash, followed by ".mov"; the
result contains no backslash, has length max(|name| - 1, 0) + 4, and is ".mov" for the empty
string and for every string of one character. -/
theorem MystResourceType6_convertMystVideoName_spec (name : List Char) :
    MystResourceType6.convertMystVideoName name =
      (name.drop 1).map (fun ch => if ch = Char.ofNat 92 then '/' else ch) ++
        ['.', 'm', 'o', 'v'] ∧
    Char.ofNat 92 ∉ MystResourceType6.convertMystVideoName name ∧
    ((MystResourceType6.convertMystVideoName name).length : Int) =
      max ((name.length : Int) - 1) 0 + 4 ∧
    MystResourceType6.convertMystVideoName [] = ['.', 'm', 'o', 'v'] ∧
    (∀ ch : Char, MystResourceType6.convertMystVideoName [ch] = ['.', 'm', 'o', 'v']) := by
  refine ⟨MystResourceType6_convertMystVideoName_eq name, ?_, ?_, ?_, ?_⟩
  · rw [MystResourceType6_convertMystVideoName_eq]
    intro hmem
    rw [List.mem_append] at hmem
    rcases hmem with hmem | hmem
    · rw [List.mem_map] at hmem
      obtain ⟨ch, _, hch⟩ := hmem
      by_cases hc : ch = Char.ofNat 92
      · rw [if_pos hc] at hch
        revert hch
        decide
      · rw [if_neg hc] at hch
        exact hc hch
    · revert hmem
      decide
  · rw [MystResourceType6_convertMystVideoName_eq]
    simp only [List.length_append, List.length_map, List.length_drop, List.length_cons,
      List.length_nil]
    omega
  · rw [MystResourceType6_convertMystVideoName_eq]
    rfl
  · intro ch
    rw [MystResourceType6_convertMystVideoName_eq]
    rfl

/-! ### Claims on the frame cycle, on Type 13, on the lists and on the reserved fields -/

theorem MystResourceType12_ticks_wrapped {ρ : Type} (r : MystResourceType12 ρ)
    (history : List Effect) (hf : r.firstFrame < 65536)
    (hbound : 65535 < r.firstFrame + r.numFrames) (k : Nat) :
    (MystResourceType12.ticks k (MystResourceType12.handleMouseUp r history)).1.doAnimation
      = true ∧
    (MystResourceType12.ticks k (MystResourceType12.handleMouseUp r history)).1.currentFrame
      < 65536 ∧
    (MystResourceType12.ticks k (MystResourceType12.handleMouseUp r history)).1.firstFrame
      = r.firstFrame ∧
    (MystResourceType12.ticks k (MystResourceType12.handleMouseUp r history)).1.numFrames
      = r.numFrames := by
  induction k with
  | zero => exact ⟨rfl, hf, rfl, rfl⟩
  | succ k ih =>
    rw [MystResourceType12_ticks_succ]
    generalize MystResourceType12.ticks k (MystResourceType12.handleMouseUp r history) = q at ih
    obtain ⟨hd, hc, hff, hnn⟩ := ih
    have hlt : (q.1.currentFrame + 1) % 65536 < 65536 := Nat.mod_lt _ (by omega)
    have hng : ¬ (((q.1.currentFrame + 1) % 65536 : Nat) : Int) - (q.1.firstFrame : Int)
        ≥ (q.1.numFrames : Int) := by omega
    unfold MystResourceType12.handleAnimation
    simp only [hd, if_true]
    rw [if_neg (by exact_mod_cast hng)]
    exact ⟨rfl, hlt, hff, hnn⟩

theorem MystResourceType12_ticks_zero_frames {ρ : Type} (r : MystResourceType12 ρ)
    (history : List Effect) (hn : r.numFrames = 0) (hbound : r.firstFrame + 1 ≤ 65535) :
    (MystResourceType12.ticks 1 (MystResourceType12.handleMouseUp r history)).1.doAnimation
      = false := by
  have hmod : (r.firstFrame + 1) % 65536 = r.firstFrame + 1 := Nat.mod_eq_of_lt (by omega)
  have hge : ((r.firstFrame + 1 : Nat) : Int) - (r.firstFrame : Int) ≥ (r.numFrames : Int) := by
    omega
  simp only [MystResourceType12.ticks, Function.iterate_succ, Function.iterate_zero,
    Function.comp, id, MystResourceType12.handleMouseUp, MystResourceType12.handleAnimation,
    hmod, if_true, if_pos hge]

/-- Counterexample to C25 as stated: the first frame 65535 and the frame count 1 are read from a
record, and after handleMouseUp no number of ticks makes `_doAnimation` false. -/
theorem MystResourceType12_cycle_never_stops :
    MystResourceType12.MystResourceType12 sampleVm (fun _ => Pure.pure ())
        (some (sampleSwitch 3 1).toMystResource) 999 (sampleFramesRecord 65535 1)
      = Except.ok (sampleFrames 65535 1,
          ((sampleFramesRecord 65535 1).skip 46).warn Warning.type12NotImplemented) ∧
    ¬ ∃ k, (MystResourceType12.ticks k
        (MystResourceType12.handleMouseUp (sampleFrames 65535 1) [])).1.doAnimation = false := by
  refine ⟨by decide!, ?_⟩
  rintro ⟨k, hk⟩
  have h := (MystResourceType12_ticks_wrapped (sampleFrames 65535 1) [] (by decide)
    (by decide) k).1
  rw [h] at hk
  cases hk

/-- C25 (amended): for a first frame f and a frame count n with f + max(n, 1) <= 65535 (n = 0
included), a Type 12 cycle triggered by handleMouseUp stops automatically: after max(n, 1) ticks
of handleAnimation `_doAnimation` is false. For n >= 1 and f + n > 65535 the 16-bit frame counter
wraps before the difference to the first frame reaches n, and `_doAnimation` is true after every
number of ticks. -/
theorem MystResourceType12_cycle_stops {ρ : Type} (r : MystResourceType12 ρ)
    (history : List Effect) (hbound : r.firstFrame + max r.numFrames 1 ≤ 65535) :
    (MystResourceType12.ticks (max r.numFrames 1)
      (MystResourceType12.handleMouseUp r history)).1.doAnimation = false ∧
    (∀ (q : MystResourceType12 ρ) (k : Nat), q.firstFrame < 65536 →
      65535 < q.firstFrame + q.numFrames →
      (MystResourceType12.ticks k (MystResourceType12.handleMouseUp q history)).1.doAnimation
        = true) := by
  constructor
  · by_cases hn : 1 ≤ r.numFrames
    · rw [Nat.max_eq_left hn] at hbound ⊢
      rw [MystResourceType12_ticks_full r history hbound hn]
    · have h0 : r.numFrames = 0 := by omega
      rw [h0] at hbound ⊢
      exact MystResourceType12_ticks_zero_frames r history h0 (by simpa using hbound)
  · intro q k hf hb
    exact (MystResourceType12_ticks_wrapped q history hf hb k).1

/-- Witness of C25 (amended): first frame 10 and no frames; one tick stops the cycle. -/
theorem MystResourceType12_cycle_stops_witness :
    (sampleFrames 10 0).firstFrame + max (sampleFrames 10 0).numFrames 1 ≤ 65535 ∧
    (MystResourceType12.ticks 1
      (MystResourceType12.handleMouseUp (sampleFrames 10 0) [])).1.doAnimation = false :=
  ⟨by decide, (MystResourceType12_cycle_stops (sampleFrames 10 0) [] (by decide)).1⟩

/-- C26: a Type 13 resource does nothing on a mouse click: `handleMouseUp` leaves the history
and the resource as they are (no card change, no opcode, no warning), also with a nonzero dest,
for which the inherited default would request a card change; `handleMouseEnter` runs exactly the
enter opcode and `handleMouseLeave` exactly the leave opcode, which are the two words the
constructor read from the record after the base fields. -/
theorem MystResourceType13_mouse_hooks (vm : MohawkEngine_Myst) (parent : Option MystResource)
    (s s1 : LoadState) (base : MystResource) (history : List Effect)
    (hb : MystResource.MystResource vm parent s = Except.ok (base, s1))
    (h : 4 ≤ s1.remaining) :
    (∀ r : MystResourceType13,
      MystResourceType13.handleMouseUp r history = (r, history) ∧
      MystResourceType13.handleMouseEnter r history =
        (r, history ++ [Effect.runOpcode r.enterOpcode]) ∧
      MystResourceType13.handleMouseLeave r history =
        (r, history ++ [Effect.runOpcode r.leaveOpcode]) ∧
      (MystResource.handleMouseUp r.toMystResource history).2 ≠ history) ∧
    ∃ r, MystResourceType13.MystResourceType13 vm parent s = Except.ok (r, s1.skip 4) ∧
      r.toMystResource = base ∧
      MystResourceType13.handleMouseUp r history = (r, history) ∧
      MystResourceType13.handleMouseEnter r history =
        (r, history ++ [Effect.runOpcode (s1.uint16At 0)]) ∧
      MystResourceType13.handleMouseLeave r history =
        (r, history ++ [Effect.runOpcode (s1.uint16At 2)]) := by
  refine ⟨fun r => ⟨rfl, rfl, rfl, ?_⟩,
    ⟨_, MystResourceType13_ctor_ok vm parent s s1 base hb h, rfl, rfl, rfl, rfl⟩⟩
  unfold MystResource.handleMouseUp
  split_ifs <;> simp

/-- Witness of C26: the sample record (dest 5, enter opcode 7, leave opcode 9) read as a Type 13
record. -/
theorem MystResourceType13_mouse_hooks_witness :
    MystResource.MystResource sampleVm none sampleRecord =
      Except.ok ({ hasParent := false, flags := 3,
                   rect := { left := 2, top := 0, right := 544, bottom := 333 }, dest := 5,
                   enabled := true }, (sampleRecord.skip 12).warn Warning.invalidRectTop) ∧
    4 ≤ ((sampleRecord.skip 12).warn Warning.invalidRectTop).remaining ∧
    ∃ r, MystResourceType13.MystResourceType13 sampleVm none sampleRecord =
        Except.ok (r, ((sampleRecord.skip 12).warn Warning.invalidRectTop).skip 4) ∧
      r.dest = 5 ∧
      MystResourceType13.handleMouseUp r [] = (r, []) ∧
      MystResourceType13.handleMouseEnter r [] = (r, [Effect.runOpcode 7]) ∧
      MystResourceType13.handleMouseLeave r [] = (r, [Effect.runOpcode 9]) := by
  have hb : MystResource.MystResource sampleVm none sampleRecord =
      Except.ok ({ hasParent := false, flags := 3,
                   rect := { left := 2, top := 0, right := 544, bottom := 333 }, dest := 5,
                   enabled := true }, (sampleRecord.skip 12).warn Warning.invalidRectTop) := by
    decide!
  obtain ⟨_, r, hr, hbase, hup, henter, hleave⟩ :=
    MystResourceType13_mouse_hooks sampleVm none sampleRecord _ _ [] hb (by decide)
  refine ⟨hb, by decide, r, hr, ?_, hup, ?_, ?_⟩
  · have : r.dest = r.toMystResource.dest := rfl
    rw [this, hbase]
  · rw [henter]; rfl
  · rw [hleave]; rfl

theorem MystResourceType6_ctor_ok {σ : Type} (vm : MohawkEngine_Myst) (readScript : Loader σ)
    (parent : Option MystResource) (s s5 s6 s0 : LoadState) (base : MystResourceType5 σ)
    (videoFile : List Char)
    (hb : MystResourceType5.MystResourceType5 vm readScript parent s = Except.ok (base, s5))
    (hv : MystResourceType6.readVideoFile (s5.rlstStream.data.length - s5.rlstStream.pos + 1)
      [] s5 = Except.ok (videoFile, s6))
    (hs : skip (videoFile.length % 2) s6 = Except.ok ((), s0))
    (h14 : 14 ≤ s0.remaining) :
    MystResourceType6.MystResourceType6 vm readScript parent s =
      Except.ok
        ({ toMystResourceType5 := base,
           videoFile := MystResourceType6.convertMystVideoName
             (MystResourceType6.trimTrailingNulls videoFile),
           left := s0.uint16At 0 % 10000, top := s0.uint16At 2 % 10000, loop := s0.uint16At 4,
           u0 := s0.uint16At 6, playBlocking := s0.uint16At 8,
           playOnCardChange := s0.uint16At 10, u3 := s0.uint16At 12, videoRunning := false },
         (s0.skip 14).withWarnings (s0.warnings ++
           (if s0.uint16At 6 ≠ 1 then [Warning.type6U0NotOne] else []) ++
           (if s0.uint16At 12 ≠ 0 then [Warning.type6U3NonZero] else []))) := by
  unfold MystResourceType6.MystResourceType6
  rw [Loader.bind_ok _ _ _ _ _ hb]
  rw [Loader.bind_ok (fun s => MystResourceType6.readVideoFile
    (s.rlstStream.data.length - s.rlstStream.pos + 1) [] s : Loader (List Char)) _ s5 s6
    videoFile hv]
  rw [Loader.bind_ok _ _ _ _ _ hs]
  rw [Loader.bind_ok _ _ _ _ _ (readUint16LE_ok s0 (by omega))]
  iterate 6 rw [Loader.bind_ok _ _ _ _ _ (readUint16LE_ok _
    (by simp only [LoadState.remaining_skip]; omega))]
  simp only [LoadState.skip_skip, LoadState.uint16At_skip, Nat.add_zero]
  rw [Loader.bind_ok _ _ _ _ _ (warning_if_ok _ _ _)]
  rw [Loader.bind_ok _ _ _ _ _ (warning_if_ok _ _ _)]
  rfl

/-- C24: a numeric list decodes to exactly `listCount` 16-bit little-endian values in stream
order and consumes 2 + 2 * listCount bytes; a list with count 0 is valid, is the empty list,
consumes only its count word and the next list is read right after it. The lists of a record
follow one another: the four lists of a Type 10 record and the three lists of a Type 11 and of a
Type 12 record are the value lists found one after the other from the byte 20 after the Type 8
part on, and the constructor succeeds whenever these bytes (and, for Type 12, the 12 bytes of the
frame fields) are there. -/
theorem value_lists_decoded {ρ : Type} (vm : MohawkEngine_Myst)
    (loadResource : Option MystResource → Loader ρ) (parent : Option MystResource)
    (currentFrame : Nat) (s s0 : LoadState) (base : MystResourceType8 ρ)
    (hb : MystResourceType8.MystResourceType8 vm loadResource parent s = Except.ok (base, s0))
    (h20 : 20 ≤ s0.remaining) :
    (∀ t : LoadState, 2 + 2 * t.uint16At 0 ≤ t.remaining →
      readValueList t = Except.ok (t.valueListAt 0, t.skip (2 + 2 * t.uint16At 0)) ∧
      (t.valueListAt 0).listCount = t.uint16At 0 ∧
      (t.valueListAt 0).list.length = t.uint16At 0 ∧
      ∀ j, j < t.uint16At 0 → (t.valueListAt 0).list[j]? = some (t.uint16At (2 + 2 * j))) ∧
    (∀ t : LoadState, 2 ≤ t.remaining → t.uint16At 0 = 0 →
      readValueList t = Except.ok ({ listCount := 0, list := [] }, t.skip 2)) ∧
    (∀ (k : Nat) (t : LoadState), t.valueListsEnd k 0 ≤ t.remaining →
      Loader.replicate k readValueList t =
        Except.ok (t.valueLists k 0, t.skip (t.valueListsEnd k 0))) ∧
    ((s0.skip 20).valueListsEnd 4 0 ≤ (s0.skip 20).remaining →
      ∃ r s1, MystResourceType10.MystResourceType10 vm loadResource parent s =
          Except.ok (r, s1) ∧
        r.lists = (s0.skip 20).valueLists 4 0 ∧
        s1.rlstStream = (s0.skip (20 + (s0.skip 20).valueListsEnd 4 0)).rlstStream) ∧
    ((s0.skip 20).valueListsEnd 3 0 ≤ (s0.skip 20).remaining →
      ∃ r s1, MystResourceType11.MystResourceType11 vm loadResource parent s =
          Except.ok (r, s1) ∧
        r.lists = (s0.skip 20).valueLists 3 0 ∧
        s1.rlstStream = (s0.skip (20 + (s0.skip 20).valueListsEnd 3 0)).rlstStream) ∧
    ((s0.skip 20).valueListsEnd 3 0 + 12 ≤ (s0.skip 20).remaining →
      ∃ r s1, MystResourceType12.MystResourceType12 vm loadResource parent currentFrame s =
          Except.ok (r, s1) ∧
        r.lists = (s0.skip 20).valueLists 3 0 ∧
        s1.rlstStream =
          (s0.skip (20 + (s0.skip 20).valueListsEnd 3 0 + 12)).rlstStream) := by
  refine ⟨?_, ?_, ?_, ?_, ?_, ?_⟩
  · intro t ht
    refine ⟨readValueList_ok t ht, rfl, by simp [LoadState.valueListAt], ?_⟩
    intro j hj
    simp [LoadState.valueListAt, List.getElem?_map, List.getElem?_range hj]
  · intro t ht h0
    have h := readValueList_ok t (by omega)
    rw [h]
    simp [LoadState.valueListAt, h0]
  · intro k t ht
    exact replicate_readValueList_ok k t ht
  · intro h
    have hl := replicate_readValueList_ok 4 (s0.skip 20) h
    exact ⟨_, _, MystResourceType10_ctor_ok vm loadResource parent s s0 _ base _ hb h20 hl, rfl,
      by simp [LoadState.withWarnings, LoadState.skip, Nat.add_assoc]⟩
  · intro h
    have hl := replicate_readValueList_ok 3 (s0.skip 20) h
    exact ⟨_, _, MystResourceType11_ctor_ok vm loadResource parent s s0 _ base _ hb h20 hl, rfl,
      by simp [LoadState.withWarnings, LoadState.skip, Nat.add_assoc]⟩
  · intro h
    have hl := replicate_readValueList_ok 3 (s0.skip 20) (by omega)
    refine ⟨_, _, MystResourceType12_ctor_ok vm loadResource parent currentFrame s s0 _ base _
      hb h20 hl ?_, rfl, by simp [LoadState.withWarnings, LoadState.skip, Nat.add_assoc]⟩
    simp only [LoadState.remaining_skip] at h ⊢
    omega

/-- Witness of C24: the four lists (7, 9), (), (5) and () of the sample record; the Type 10
constructor ends at byte 42. -/
theorem value_lists_decoded_witness :
    MystResourceType8.MystResourceType8 sampleVm (fun _ => Pure.pure ())
        (some (sampleSwitch 3 1).toMystResource) sampleListsRecord
      = Except.ok (sampleDragBase, sampleListsRecord.skip 8) ∧
    20 ≤ (sampleListsRecord.skip 8).remaining ∧
    ((sampleListsRecord.skip 8).skip 20).valueListsEnd 4 0
      ≤ ((sampleListsRecord.skip 8).skip 20).remaining ∧
    ∃ r s1, MystResourceType10.MystResourceType10 sampleVm (fun _ => Pure.pure ())
        (some (sampleSwitch 3 1).toMystResource) sampleListsRecord = Except.ok (r, s1) ∧
      r.lists = [{ listCount := 2, list := [7, 9] }, { listCount := 0, list := [] },
                 { listCount := 1, list := [5] }, { listCount := 0, list := [] }] ∧
      s1.rlstStream.pos = 42 := by
  have hb : MystResourceType8.MystResourceType8 sampleVm (fun _ => Pure.pure ())
        (some (sampleSwitch 3 1).toMystResource) sampleListsRecord
      = Except.ok (sampleDragBase, sampleListsRecord.skip 8) := by
    decide!
  have hend : ((sampleListsRecord.skip 8).skip 20).valueListsEnd 4 0
      ≤ ((sampleListsRecord.skip 8).skip 20).remaining := by decide
  obtain ⟨r, s1, hr, hlists, hpos⟩ :=
    (value_lists_decoded sampleVm (fun _ => Pure.pure ())
      (some (sampleSwitch 3 1).toMystResource) 0 sampleListsRecord _ sampleDragBase hb
      (by decide)).2.2.2.1 hend
  exact ⟨hb, by decide, hend, r, s1, hr, hlists.trans (by decide),
    (congrArg SeekableReadStream.pos hpos).trans (by decide)⟩

/-- C28: unexpected values of the reserved fields do not abort decoding. Whenever the part of a
Type 6 record before its seven words has been read and the seven words are there, the
constructor succeeds: it stores the seven words as read (`_u0` is the fourth and `_u3` the
seventh), moves the cursor over these 14 bytes and adds the warning "Type 6 _u0 != 1" exactly
when u0 is not 1 and then the warning "Type 6 _u3 != 0" exactly when u3 is not 0. Whenever the
Type 8 part of a Type 10 (Type 11) record has been read, its ten words are there and the four
(three) lists can be read after them, the constructor succeeds: it stores the ten words as read
(`_u0` is the sixth and `_u1` the seventh), ends where the lists end and adds the warning
"u0 non-zero" exactly when u0 is not 0 and then the warning "u1 non-zero" exactly when u1 is not
0. No condition of success depends on the value of a reserved field. -/
theorem reserved_fields_never_abort {σ ρ : Type} (vm : MohawkEngine_Myst)
    (readScript : Loader σ) (loadResource : Option MystResource → Loader ρ)
    (parent : Option MystResource) (s : LoadState) :
    (∀ (base : MystResourceType5 σ) (s5 s6 s0 : LoadState) (videoFile : List Char),
      MystResourceType5.MystResourceType5 vm readScript parent s = Except.ok (base, s5) →
      MystResourceType6.readVideoFile (s5.rlstStream.data.length - s5.rlstStream.pos + 1)
        [] s5 = Except.ok (videoFile, s6) →
      skip (videoFile.length % 2) s6 = Except.ok ((), s0) →
      14 ≤ s0.remaining →
      MystResourceType6.MystResourceType6 vm readScript parent s =
        Except.ok
          ({ toMystResourceType5 := base,
             videoFile := MystResourceType6.convertMystVideoName
               (MystResourceType6.trimTrailingNulls videoFile),
             left := s0.uint16At 0 % 10000, top := s0.uint16At 2 % 10000,
             loop := s0.uint16At 4, u0 := s0.uint16At 6, playBlocking := s0.uint16At 8,
             playOnCardChange := s0.uint16At 10, u3 := s0.uint16At 12, videoRunning := false },
           (s0.skip 14).withWarnings (s0.warnings ++
             (if s0.uint16At 6 ≠ 1 then [Warning.type6U0NotOne] else []) ++
             (if s0.uint16At 12 ≠ 0 then [Warning.type6U3NonZero] else [])))) ∧
    (∀ (base : MystResourceType8 ρ) (s0 s3 : LoadState) (lists : List ValueList),
      MystResourceType8.MystResourceType8 vm loadResource parent s = Except.ok (base, s0) →
      20 ≤ s0.remaining →
      Loader.replicate 4 readValueList (s0.skip 20) = Except.ok (lists, s3) →
      MystResourceType10.MystResourceType10 vm loadResource parent s =
        Except.ok
          ({ toMystResourceType8 := base, kind := s0.uint16At 0,
             rect10 := { left := toSint16 (s0.uint16At 2), top := toSint16 (s0.uint16At 6),
                         right := toSint16 (s0.uint16At 4),
                         bottom := toSint16 (s0.uint16At 8) },
             u0 := s0.uint16At 10, u1 := s0.uint16At 12, mouseDownOpcode := s0.uint16At 14,
             mouseDragOpcode := s0.uint16At 16, mouseUpOpcode := s0.uint16At 18,
             lists := lists, mouseDown := false },
           s3.withWarnings (s0.warnings ++
             (if s0.uint16At 10 ≠ 0 then [Warning.type10U0NonZero] else []) ++
             (if s0.uint16At 12 ≠ 0 then [Warning.type10U1NonZero] else []) ++
             [Warning.type10NotImplemented]))) ∧
    (∀ (base : MystResourceType8 ρ) (s0 s3 : LoadState) (lists : List ValueList),
      MystResourceType8.MystResourceType8 vm loadResource parent s = Except.ok (base, s0) →
      20 ≤ s0.remaining →
      Loader.replicate 3 readValueList (s0.skip 20) = Except.ok (lists, s3) →
      MystResourceType11.MystResourceType11 vm loadResource parent s =
        Except.ok
          ({ toMystResourceType8 := base, kind := s0.uint16At 0,
             rect11 := { left := toSint16 (s0.uint16At 2), top := toSint16 (s0.uint16At 6),
                         right := toSint16 (s0.uint16At 4),
                         bottom := toSint16 (s0.uint16At 8) },
             u0 := s0.uint16At 10, u1 := s0.uint16At 12, mouseDownOpcode := s0.uint16At 14,
             mouseDragOpcode := s0.uint16At 16, mouseUpOpcode := s0.uint16At 18,
             lists := lists, mouseDown := false },
           s3.withWarnings (s0.warnings ++
             (if s0.uint16At 10 ≠ 0 then [Warning.type11U0NonZero] else []) ++
             (if s0.uint16At 12 ≠ 0 then [Warning.type11U1NonZero] else [])))) :=
  ⟨fun base s5 s6 s0 videoFile hb hv hs h14 =>
      MystResourceType6_ctor_ok vm readScript parent s s5 s6 s0 base videoFile hb hv hs h14,
   fun base s0 s3 lists hb h20 hl =>
      MystResourceType10_ctor_ok vm loadResource parent s s0 s3 base lists hb h20 hl,
   fun base s0 s3 lists hb h20 hl =>
      MystResourceType11_ctor_ok vm loadResource parent s s0 s3 base lists hb h20 hl⟩

/-- Witness of C28: a Type 6 record with u0 = 2 and u3 = 5 is decoded as the sample record with
the expected values is, to the same cursor, with the two warnings; a Type 10 record with u0 = 1
and u1 = 2 is decoded with the two warnings before the one every Type 10 record raises. -/
theorem reserved_fields_never_abort_witness :
    MystResourceType6.MystResourceType6 sampleVm (Pure.pure () : Loader Unit)
        (some (sampleSwitch 3 1).toMystResource) sampleVideoRecordReserved
      = Except.ok ({ sampleVideo with u0 := 2, u3 := 5 },
          (sampleVideoRecordReserved.skip 18).withWarnings
            [Warning.type6U0NotOne, Warning.type6U3NonZero]) ∧
    MystResourceType6.MystResourceType6 sampleVm (Pure.pure () : Loader Unit)
        (some (sampleSwitch 3 1).toMystResource) sampleVideoRecord
      = Except.ok (sampleVideo, sampleVideoRecord.skip 18) ∧
    MystResourceType10.MystResourceType10 sampleVm (fun _ => Pure.pure ())
        (some (sampleSwitch 3 1).toMystResource) sampleListsRecord
      = Except.ok ({ sampleDrag10 with
                     u0 := 1, u1 := 2,
                     lists := [{ listCount := 2, list := [7, 9] }, { listCount := 0, list := [] },
                               { listCount := 1, list := [5] }, { listCount := 0, list := [] }] },
          (sampleListsRecord.skip 42).withWarnings
            [Warning.type10U0NonZero, Warning.type10U1NonZero,
             Warning.type10NotImplemented]) := by
  have hb8 : MystResourceType8.MystResourceType8 sampleVm (fun _ => Pure.pure ())
        (some (sampleSwitch 3 1).toMystResource) sampleListsRecord
      = Except.ok (sampleDragBase, sampleListsRecord.skip 8) := by
    decide!
  have hl : Loader.replicate 4 readValueList ((sampleListsRecord.skip 8).skip 20)
      = Except.ok ([{ listCount := 2, list := [7, 9] }, { listCount := 0, list := [] },
                    { listCount := 1, list := [5] }, { listCount := 0, list := [] }],
          sampleListsRecord.skip 42) := by
    decide!
  have hb : MystResourceType5.MystResourceType5 sampleVm (Pure.pure () : Loader Unit)
        (some (sampleSwitch 3 1).toMystResource) sampleVideoRecordReserved
      = Except.ok ({ toMystResource := sampleVideo.toMystResource, script := () },
          sampleVideoRecordReserved) := by
    decide!
  have hv : MystResourceType6.readVideoFile
      (sampleVideoRecordReserved.rlstStream.data.length
        - sampleVideoRecordReserved.rlstStream.pos + 1) [] sampleVideoRecordReserved
      = Except.ok ([Char.ofNat 92, 'a', Char.ofNat 0], sampleVideoRecordReserved.skip 3) := by
    decide!
  have hs : skip ([Char.ofNat 92, 'a', Char.ofNat 0].length % 2)
      (sampleVideoRecordReserved.skip 3) = Except.ok ((), sampleVideoRecordReserved.skip 4) := by
    decide!
  refine ⟨?_, by decide!, ?_⟩
  · rw [(reserved_fields_never_abort sampleVm (Pure.pure () : Loader Unit)
      (fun _ => (Pure.pure () : Loader Unit)) (some (sampleSwitch 3 1).toMystResource)
      sampleVideoRecordReserved).1 _ _ _ _ _ hb hv hs (by decide)]
    decide!
  · rw [(reserved_fields_never_abort sampleVm (Pure.pure () : Loader Unit)
      (fun _ => (Pure.pure () : Loader Unit)) (some (sampleSwitch 3 1).toMystResource)
      sampleListsRecord).2.1 _ _ _ _ hb8 (by decide) hl]
    decide!

/-! ### Claims on the conditional draw -/

theorem conditionalImage_same_reads (vm : MohawkEngine_Myst)
    (hstable : ∀ h x v, vm.getVar (h ++ [Effect.getVar x]) v = vm.getVar h v)
    (conds : List MystCondition) (img : Nat) (h h2 : List Effect)
    (hinv : ∀ v, vm.getVar h v = vm.getVar h2 v) :
    ∃ image tail, MystResourceType8.conditionalImage vm conds img h = (image, h ++ tail) ∧
      MystResourceType8.conditionalImage vm conds img h2 = (image, h2 ++ tail) := by
  induction conds generalizing img h h2 with
  | nil => exact ⟨img, [], by simp [MystResourceType8.conditionalImage],
      by simp [MystResourceType8.conditionalImage]⟩
  | cons c cs ih =>
    have h1 : ∀ v, vm.getVar (h ++ [Effect.getVar c.var]) v
        = vm.getVar (h2 ++ [Effect.getVar c.var]) v :=
      fun v => (hstable h c.var v).trans ((hinv v).trans (hstable h2 c.var v).symm)
    have h3 : ∀ v, vm.getVar (h ++ [Effect.getVar c.var] ++ [Effect.getVar c.var]) v
        = vm.getVar (h2 ++ [Effect.getVar c.var] ++ [Effect.getVar c.var]) v :=
      fun v => (hstable _ c.var v).trans ((h1 v).trans (hstable _ c.var v).symm)
    simp only [MystResourceType8.conditionalImage]
    rw [hinv c.var, h1 c.var]
    by_cases hc : vm.getVar h2 c.var % 65536 < c.numStates
    · rw [if_pos hc, if_pos hc]
      obtain ⟨image, tail, e1, e2⟩ := ih
        (c.values.getD (vm.getVar (h2 ++ [Effect.getVar c.var]) c.var % 65536) 0) _ _ h3
      exact ⟨image, [Effect.getVar c.var, Effect.getVar c.var] ++ tail,
        by rw [e1]; simp, by rw [e2]; simp⟩
    · rw [if_neg hc, if_neg hc]
      obtain ⟨image, tail, e1, e2⟩ := ih img _ _ h1
      exact ⟨image, [Effect.getVar c.var] ++ tail, by rw [e1]; simp, by rw [e2]; simp⟩

theorem imageToDraw_same_reads (vm : MohawkEngine_Myst)
    (hstable : ∀ h x v, vm.getVar (h ++ [Effect.getVar x]) v = vm.getVar h v)
    (wdib : Nat) (h h2 : List Effect) (hinv : ∀ v, vm.getVar h v = vm.getVar h2 v) :
    ∃ image tail, MystResourceType8.imageToDraw vm wdib h = (image, h ++ tail) ∧
      MystResourceType8.imageToDraw vm wdib h2 = (image, h2 ++ tail) := by
  unfold MystResourceType8.imageToDraw
  by_cases hw : wdib = 0xFFFF
  · rw [if_pos hw, if_pos hw]
    by_cases hc : vm.view.conditionalImageCount = 0
    · rw [if_pos hc, if_pos hc]
      exact ⟨vm.view.mainImage, [], by simp, by simp⟩
    · rw [if_neg hc, if_neg hc]
      exact conditionalImage_same_reads vm hstable _ _ h h2 hinv
  · rw [if_neg hw, if_neg hw]
    exact ⟨wdib, [], by simp, by simp⟩

/-- C31: for a Type 8 resource whose control variable var8 is not the sentinel 0xFFFF,
`drawConditionalDataToScreen(state)` with `state` the value that variable var8 has when
`drawDataToScreen()` reads it (after the Type 7 part) does what `drawDataToScreen()` does: the
two histories start with the same Type 7 part (the sub-resource dispatch) and go on with the same
calls (the reads for the view image, the warning, the image draw); `drawDataToScreen()` has in
between the one read of var8 that `drawConditionalDataToScreen` gets as its argument (reads of
variables are taken not to change variables). -/
theorem MystResourceType8_conditional_draw_same {ρ : Type} (vm : MohawkEngine_Myst)
    (r : MystResourceType8 ρ) (history : List Effect)
    (hstable : ∀ h x v, vm.getVar (h ++ [Effect.getVar x]) v = vm.getVar h v)
    (hvar : r.var8 ≠ 0xFFFF) :
    ∃ tail,
      MystResourceType8.drawDataToScreen vm r history =
        MystResourceType7.drawDataToScreen vm r.toMystResourceType7 history ++
          [Effect.getVar r.var8] ++ tail ∧
      MystResourceType8.drawConditionalDataToScreen vm r
          (vm.getVar (MystResourceType7.drawDataToScreen vm r.toMystResourceType7 history)
            r.var8) history =
        MystResourceType7.drawDataToScreen vm r.toMystResourceType7 history ++ tail := by
  unfold MystResourceType8.drawDataToScreen MystResourceType8.drawConditionalDataToScreen
  generalize MystResourceType7.drawDataToScreen vm r.toMystResourceType7 history = h1
  unfold MystResourceType8.selectSubImage MystResourceType8.selectConditionalSubImage
  simp only [if_neg hvar]
  generalize vm.getVar h1 r.var8 % 65536 = state
  have hdraw : ∀ subImageId : Int, ∃ tail,
      (MystResourceType8.imageToDraw vm (MystResourceType8.subImageAt r subImageId).wdib
          (h1 ++ [Effect.getVar r.var8])).2 ++
        [Effect.copyImageSectionToScreen
          (MystResourceType8.imageToDraw vm (MystResourceType8.subImageAt r subImageId).wdib
            (h1 ++ [Effect.getVar r.var8])).1
          (MystResourceType8.subImageAt r subImageId).rect r.rect] =
        h1 ++ [Effect.getVar r.var8] ++ tail ∧
      (MystResourceType8.imageToDraw vm (MystResourceType8.subImageAt r subImageId).wdib
          h1).2 ++
        [Effect.copyImageSectionToScreen
          (MystResourceType8.imageToDraw vm (MystResourceType8.subImageAt r subImageId).wdib
            h1).1
          (MystResourceType8.subImageAt r subImageId).rect r.rect] = h1 ++ tail := by
    intro subImageId
    obtain ⟨image, tail, e1, e2⟩ := imageToDraw_same_reads vm hstable
      (MystResourceType8.subImageAt r subImageId).wdib (h1 ++ [Effect.getVar r.var8]) h1
      (fun v => hstable h1 r.var8 v)
    rw [e1, e2]
    exact ⟨tail ++ [Effect.copyImageSectionToScreen image
      (MystResourceType8.subImageAt r subImageId).rect r.rect], by simp, by simp⟩
  by_cases h1s : r.numSubImages = 1 ∧ state ≠ 0
  · simp only [if_pos h1s, if_true]
    exact hdraw 0
  · simp only [if_neg h1s]
    by_cases h0 : r.numSubImages ≠ 0
    · simp only [if_pos h0]
      by_cases hlt : state < r.numSubImages
      · simp only [if_pos hlt, if_true]
        exact hdraw (toSint16 state)
      · simp only [if_neg hlt]
        exact ⟨[Effect.warning (Warning.type8VarExceeds r.var8 state r.numSubImages)],
          by simp, by simp⟩
    · simp only [if_neg h0]
      exact ⟨[], by simp, by simp⟩


/-- Witness of C31: the sample Type 8 resource with control variable 5 and three sub-images, every
variable being 1: both methods draw image 7, `drawDataToScreen()` after its read of variable
5. -/
theorem MystResourceType8_conditional_draw_same_witness :
    (∀ h x v, (sampleVmWith 1).getVar (h ++ [Effect.getVar x]) v = (sampleVmWith 1).getVar h v) ∧
    (sampleImageSwitchOf 5 3).var8 ≠ 0xFFFF ∧
    MystResourceType8.drawDataToScreen (sampleVmWith 1) (sampleImageSwitchOf 5 3) [] =
      [Effect.getVar 5,
       Effect.copyImageSectionToScreen 7 { left := 0, top := 0, right := 10, bottom := 10 }
         { left := 2, top := 0, right := 544, bottom := 333 }] ∧
    MystResourceType8.drawConditionalDataToScreen (sampleVmWith 1) (sampleImageSwitchOf 5 3) 1 [] =
      [Effect.copyImageSectionToScreen 7 { left := 0, top := 0, right := 10, bottom := 10 }
         { left := 2, top := 0, right := 544, bottom := 333 }] ∧
    ∃ tail,
      MystResourceType8.drawDataToScreen (sampleVmWith 1) (sampleImageSwitchOf 5 3) [] =
        MystResourceType7.drawDataToScreen (sampleVmWith 1)
          (sampleImageSwitchOf 5 3).toMystResourceType7 [] ++ [Effect.getVar 5] ++ tail ∧
      MystResourceType8.drawConditionalDataToScreen (sampleVmWith 1) (sampleImageSwitchOf 5 3)
          ((sampleVmWith 1).getVar (MystResourceType7.drawDataToScreen (sampleVmWith 1)
            (sampleImageSwitchOf 5 3).toMystResourceType7 []) 5) [] =
        MystResourceType7.drawDataToScreen (sampleVmWith 1)
          (sampleImageSwitchOf 5 3).toMystResourceType7 [] ++ tail :=
  ⟨fun _ _ _ => rfl, by decide, by decide, by decide,
   MystResourceType8_conditional_draw_same (sampleVmWith 1) (sampleImageSwitchOf 5 3) []
     (fun _ _ _ => rfl) (by decide)⟩

end Mohawk

/-! ### Claims on Module1000 and on the door of Scene1001 -/

namespace Neverhood

theorem Module1000_createScene_sceneNum (m : Module1000) (sceneNum which : Int) :
    (Module1000.createScene m sceneNum which).sceneNum = sceneNum := by
  unfold Module1000.createScene
  simp only [Module1000.call, Module1000.createStaticScene]
  split_ifs <;> rfl

theorem Module1000_createScene_leaveCalls (m : Module1000) (sceneNum which : Int) :
    leaveCalls (Module1000.createScene m sceneNum which).calls = leaveCalls m.calls := by
  unfold Module1000.createScene
  simp only [Module1000.call, Module1000.createStaticScene]
  split_ifs <;> simp [leaveCalls, List.countP_append]

theorem Module1000_updateChild_sceneNum (m : Module1000) (finished : Option Nat) :
    (Module1000.updateChild m finished).2.sceneNum = m.sceneNum ∧
    leaveCalls (Module1000.updateChild m finished).2.calls = leaveCalls m.calls := by
  unfold Module1000.updateChild
  cases m.childObject with
  | none => simp
  | some child =>
    cases finished with
    | none => simp [Module1000.call, leaveCalls, List.countP_append]
    | some result => simp [Module1000.call, leaveCalls, List.countP_append]

theorem Module1000_updateChild_finished (m : Module1000) (finished : Option Nat)
    (h : (Module1000.updateChild m finished).1 = false) :
    ∃ child result, m.childObject = some child ∧ finished = some result ∧
      (Module1000.updateChild m finished).2.moduleResult = result % 4294967296 := by
  unfold Module1000.updateChild at h ⊢
  cases hc : m.childObject with
  | none => simp [hc] at h
  | some child =>
    cases finished with
    | none => simp [hc] at h
    | some result => exact ⟨child, result, rfl, rfl, by simp⟩

theorem Module1000_updateScene_sceneNum (m : Module1000) (finished : Option Nat)
    (h : 0 ≤ m.sceneNum ∧ m.sceneNum ≤ 4) :
    0 ≤ (Module1000.updateScene m finished).sceneNum ∧
    (Module1000.updateScene m finished).sceneNum ≤ 4 := by
  have hs := (Module1000_updateChild_sceneNum m finished).1
  unfold Module1000.updateScene
  simp only []
  split_ifs <;>
    simp only [Module1000_createScene_sceneNum, Module1000.call, hs] <;> omega

theorem Module1000_run_sceneNum (finished : List (Option Nat)) (m : Module1000)
    (h : 0 ≤ m.sceneNum ∧ m.sceneNum ≤ 4) :
    0 ≤ (Module1000.run m finished).sceneNum ∧ (Module1000.run m finished).sceneNum ≤ 4 := by
  induction finished generalizing m with
  | nil => exact h
  | cons f fs ih => exact ih _ (Module1000_updateScene_sceneNum m f h)

theorem Module1000_updateScene_leaves (m : Module1000) (finished : Option Nat)
    (h : leaveCalls (Module1000.updateScene m finished).calls ≠ leaveCalls m.calls) :
    m.sceneNum = 1 ∧ ∃ result, finished = some result ∧ result % 4294967296 = 1 := by
  have hs := Module1000_updateChild_sceneNum m finished
  unfold Module1000.updateScene at h
  simp only [] at h
  by_cases hu : (Module1000.updateChild m finished).1 = false
  · obtain ⟨child, result, _, hf, hr⟩ := Module1000_updateChild_finished m finished hu
    rw [if_pos hu] at h
    split_ifs at h with h0 h2 h1 h3 h4 h5 h6 h7 h8 <;>
      simp only [Module1000_createScene_leaveCalls, Module1000.call, hs.2, ne_eq,
        not_true_eq_false] at h
    all_goals first
      | exact ⟨by rw [← hs.1]; assumption, result, hf, by rw [← hr]; assumption⟩
      | (exfalso
         have h2 := hs.2
         unfold leaveCalls at h2 h
         simp [List.countP_append, h2] at h)
  · rw [if_neg hu] at h
    exact absurd hs.2 h


/-- C21: when the child scene has finished with result code `result`, `updateScene` selects the
next step from the scene number and the result by the table of the claim (scene 0 goes to scene 2
if the result is 2, else to scene 1; scene 1 leaves the module with result 0 if the result is 1,
goes to scene 3 if it is 2, else to scene 0; scene 2 goes to scene 0; scene 3 goes to scene 4 if
the result is 1, else to scene 1; scene 4 goes to scene 3). Consequently a scene number in 0..4
stays in 0..4 whatever the children do, and a call of `updateScene` leaves the module only in
scene 1 with result 1. -/
theorem Module1000_updateScene_table (m : Module1000) (child : ChildObject) (result : Nat)
    (hchild : m.childObject = some child) (hres : result < 4294967296) :
    Module1000.updateChild m (some result) =
      (false, { m.call (Call.childHandleUpdate (some child)) with
                moduleResult := result, childObject := none }) ∧
    (m.sceneNum = 0 → Module1000.updateScene m (some result) =
      Module1000.createScene (Module1000.updateChild m (some result)).2
        (if result = 2 then 2 else 1) 0) ∧
    (m.sceneNum = 1 → Module1000.updateScene m (some result) =
      if result = 1 then (Module1000.updateChild m (some result)).2.call (Call.leaveModule 0)
      else if result = 2 then
        Module1000.createScene (Module1000.updateChild m (some result)).2 3 0
      else Module1000.createScene (Module1000.updateChild m (some result)).2 0 1) ∧
    (m.sceneNum = 2 → Module1000.updateScene m (some result) =
      Module1000.createScene (Module1000.updateChild m (some result)).2 0 2) ∧
    (m.sceneNum = 3 → Module1000.updateScene m (some result) =
      if result = 1 then Module1000.createScene (Module1000.updateChild m (some result)).2 4 0
      else Module1000.createScene (Module1000.updateChild m (some result)).2 1 2) ∧
    (m.sceneNum = 4 → Module1000.updateScene m (some result) =
      Module1000.createScene
        ((Module1000.updateChild m (some result)).2.call
          (Call.stopMusic m.musicFileHash 0 1)) 3 1) ∧
    (∀ n w (m1 : Module1000), (Module1000.createScene m1 n w).sceneNum = n) ∧
    (∀ (m0 : Module1000) (finished : List (Option Nat)), 0 ≤ m0.sceneNum ∧ m0.sceneNum ≤ 4 →
      0 ≤ (Module1000.run m0 finished).sceneNum ∧ (Module1000.run m0 finished).sceneNum ≤ 4) ∧
    (∀ (m0 : Module1000) (finished : Option Nat),
      leaveCalls (Module1000.updateScene m0 finished).calls ≠ leaveCalls m0.calls →
      m0.sceneNum = 1 ∧ ∃ r, finished = some r ∧ r % 4294967296 = 1) := by
  have hu : Module1000.updateChild m (some result) =
      (false, { m.call (Call.childHandleUpdate (some child)) with
                moduleResult := result, childObject := none }) := by
    unfold Module1000.updateChild
    simp [hchild, Nat.mod_eq_of_lt hres]
  refine ⟨hu, ?_, ?_, ?_, ?_, ?_, ?_, ?_, ?_⟩
  · intro h
    unfold Module1000.updateScene
    simp only [hu]
    by_cases h2 : result = 2 <;> simp [Module1000.call, h, h2]
  · intro h
    unfold Module1000.updateScene
    simp only [hu]
    by_cases h1 : result = 1
    · simp [Module1000.call, h, h1]
    · by_cases h2 : result = 2 <;> simp [Module1000.call, h, h1, h2]
  · intro h
    unfold Module1000.updateScene
    simp only [hu]
    simp [Module1000.call, h]
  · intro h
    unfold Module1000.updateScene
    simp only [hu]
    by_cases h1 : result = 1 <;> simp [Module1000.call, h, h1]
  · intro h
    unfold Module1000.updateScene
    simp only [hu]
    simp [Module1000.call, h]
  · intro n w m1
    exact Module1000_createScene_sceneNum m1 n w
  · intro m0 finished h
    exact Module1000_run_sceneNum finished m0 h
  · intro m0 finished h
    exact Module1000_updateScene_leaves m0 finished h

/-- Witness of C21: in scene 1, a child that finishes with result 1 is updated, and the module
is left with result 0; no scene is created. -/
theorem Module1000_updateScene_table_witness :
    (sampleModule 1).childObject = some (ChildObject.scene1001 0) ∧ (1 : Nat) < 4294967296 ∧
    Module1000.updateScene (sampleModule 1) (some 1) =
      { sampleModule 1 with
        moduleResult := 1, childObject := none,
        calls := [Call.childHandleUpdate (some (ChildObject.scene1001 0)),
                  Call.leaveModule 0] } :=
  ⟨rfl, by decide,
    ((Module1000_updateScene_table (sampleModule 1) (ChildObject.scene1001 0) 1 rfl
      (by decide)).2.2.1 rfl).trans (by decide)⟩

/-- Counterexample to C22 as stated: the constructor with `which = -1` and the saved scene number
7 raises no error: it stores 7, installs the update handler and reaches the call
`_childObject->handleUpdate()` with a null `_childObject`; and `createScene(7, 0)` on a module
that has a child goes on to update that child. -/
theorem Module1000_createScene_no_error :
    Module1000.Module1000 0 7 (-1) =
      { sceneNum := 7, moduleResult := 0, childObject := none, musicFileHash := 0x00103144,
        updateHandler := some UpdateHandler.updateScene,
        calls := [Call.addMusic 0x03294419 0x061880C6, Call.addMusic 0x03294419 0x00103144,
                  Call.childHandleUpdate none] } ∧
    Module1000.createScene (sampleModule 0) 7 0 =
      { sampleModule 0 with
        sceneNum := 7,
        calls := [Call.childHandleUpdate (some (ChildObject.scene1001 0))] } := by
  constructor <;> decide

/-- C22 (amended): for every scene number outside 0..4, `createScene` installs no child scene
and raises no error: it stores the scene number in the game state, installs `updateScene` as
update handler, makes no call of the sound manager and goes on to the call
`_childObject->handleUpdate()` with the `_childObject` it found. In the call made by the
constructor for `which < 0` with such a saved scene number, `_childObject` is the null pointer
at that call. -/
theorem Module1000_createScene_unknown (m : Module1000) (sceneNum which : Int)
    (h : sceneNum < 0 ∨ 4 < sceneNum) :
    Module1000.createScene m sceneNum which =
      { m with sceneNum := sceneNum, updateHandler := some UpdateHandler.updateScene,
               calls := m.calls ++ [Call.childHandleUpdate m.childObject] } ∧
    (∀ entranceOpen w, w < 0 →
      Module1000.Module1000 entranceOpen sceneNum w =
        { sceneNum := sceneNum, moduleResult := 0, childObject := none,
          musicFileHash := if entranceOpen ≠ 0 then 0x81106480 else 0x00103144,
          updateHandler := some UpdateHandler.updateScene,
          calls := [Call.addMusic 0x03294419 0x061880C6,
                    Call.addMusic 0x03294419 (if entranceOpen ≠ 0 then 0x81106480 else 0x00103144),
                    Call.childHandleUpdate none] }) := by
  have hc : ∀ m1 : Module1000, Module1000.createScene m1 sceneNum which =
      { m1 with sceneNum := sceneNum, updateHandler := some UpdateHandler.updateScene,
                calls := m1.calls ++ [Call.childHandleUpdate m1.childObject] } := by
    intro m1
    unfold Module1000.createScene
    have h0 : sceneNum ≠ 0 := by omega
    have h1 : sceneNum ≠ 1 := by omega
    have h2 : sceneNum ≠ 2 := by omega
    have h3 : sceneNum ≠ 3 := by omega
    have h4 : sceneNum ≠ 4 := by omega
    simp [Module1000.call, h0, h1, h2, h3, h4]
  refine ⟨hc m, ?_⟩
  intro entranceOpen w hw
  unfold Module1000.Module1000
  simp only [if_pos hw, Module1000.call]
  unfold Module1000.createScene
  have h0 : sceneNum ≠ 0 := by omega
  have h1 : sceneNum ≠ 1 := by omega
  have h2 : sceneNum ≠ 2 := by omega
  have h3 : sceneNum ≠ 3 := by omega
  have h4 : sceneNum ≠ 4 := by omega
  simp [Module1000.call, h0, h1, h2, h3, h4]

/-- Witness of C22 (amended): `createScene(7, -1)` on the sample module. -/
theorem Module1000_createScene_unknown_witness :
    ((7 : Int) < 0 ∨ (4 : Int) < 7) ∧
    Module1000.createScene (sampleModule 0) 7 (-1) =
      { sampleModule 0 with
        sceneNum := 7, updateHandler := some UpdateHandler.updateScene,
        calls := (sampleModule 0).calls ++
          [Call.childHandleUpdate (sampleModule 0).childObject] } :=
  ⟨by decide, (Module1000_createScene_unknown (sampleModule 0) 7 (-1) (by decide)).1⟩

theorem AsScene1001Door_statesRun_call (d : AsScene1001Door) (c : SpriteCall) :
    statesRun (d.call c).calls = statesRun d.calls ++ statesRun [c] := by
  simp [statesRun, AsScene1001Door.call, List.filterMap_append]

theorem AsScene1001Door_gotoNextState_effects (d : AsScene1001Door) (c : DoorState) :
    (AsScene1001Door.handleMessage (d.NextState c) 0x3002).2 =
      (match c with
       | DoorState.stShowIdleDoor =>
           if d.globalVars GlobalVar.V_DOOR_STATUS = 1 then
             { d with nextStateCb := none, newStickFrameIndex := 4,
                      calls := d.calls ++ [SpriteCall.state DoorState.stShowIdleDoor,
                        SpriteCall.startAnimation 0x624C0498 4 (-1)] }
           else if d.globalVars GlobalVar.V_DOOR_STATUS = 2 then
             { d with nextStateCb := none, newStickFrameIndex := 1,
                      calls := d.calls ++ [SpriteCall.state DoorState.stShowIdleDoor,
                        SpriteCall.startAnimation 0x624C0498 1 (-1)] }
           else if d.globalVars GlobalVar.V_DOOR_STATUS = 3 then
             { d with nextStateCb := none,
                      calls := d.calls ++ [SpriteCall.state DoorState.stShowIdleDoor,
                        SpriteCall.stopAnimation, SpriteCall.setVisible false] }
           else
             { d with nextStateCb := none, newStickFrameIndex := 0,
                      calls := d.calls ++ [SpriteCall.state DoorState.stShowIdleDoor,
                        SpriteCall.startAnimation 0x624C0498 0 (-1)] }
       | DoorState.stBustedDoorMove =>
           { d with x := 30, nextStateCb := some DoorState.stBustedDoorGone,
                    calls := d.calls ++ [SpriteCall.state DoorState.stBustedDoorMove,
                      SpriteCall.startAnimation 0x624C0498 6 6],
                    globalVars := fun v =>
                      if v = GlobalVar.V_DOOR_BUSTED then 1 else d.globalVars v }
       | DoorState.stBustedDoorGone =>
           { d with nextStateCb := none,
                    calls := d.calls ++ [SpriteCall.state DoorState.stBustedDoorGone,
                      SpriteCall.playSound 0 none, SpriteCall.stopAnimation,
                      SpriteCall.setVisible false] }) := by
  cases c
  · simp only [AsScene1001Door.handleMessage, Sprite.handleMessage, AsScene1001Door.gotoNextState,
      AsScene1001Door.NextState, AsScene1001Door.runState, AsScene1001Door.stShowIdleDoor,
      AsScene1001Door.call, AsScene1001Door.getGlobalVar]
    norm_num
  · simp [AsScene1001Door.handleMessage, Sprite.handleMessage, AsScene1001Door.gotoNextState,
      AsScene1001Door.NextState, AsScene1001Door.runState, AsScene1001Door.stBustedDoorMove,
      AsScene1001Door.call, AsScene1001Door.setGlobalVar]
  · simp [AsScene1001Door.handleMessage, Sprite.handleMessage, AsScene1001Door.gotoNextState,
      AsScene1001Door.NextState, AsScene1001Door.runState, AsScene1001Door.stBustedDoorGone,
      AsScene1001Door.call]

theorem AsScene1001Door_two_hits (d : AsScene1001Door)
    (hstatus : d.getGlobalVar GlobalVar.V_DOOR_STATUS = 1) :
    (AsScene1001Door.handleMessage d 0x2000).2 =
      { d with nextStateCb := some DoorState.stShowIdleDoor,
               calls := d.calls ++ [SpriteCall.playSound 0 (some 0x65482F03),
                 SpriteCall.startAnimation 0x624C0498 1 3],
               globalVars := fun v =>
                 if v = GlobalVar.V_DOOR_STATUS then 2 else d.globalVars v } ∧
    (AsScene1001Door.handleMessage (AsScene1001Door.handleMessage d 0x2000).2 0x2000).2 =
      { d with nextStateCb := some DoorState.stBustedDoorMove,
               calls := d.calls ++ [SpriteCall.playSound 0 (some 0x65482F03),
                 SpriteCall.startAnimation 0x624C0498 1 3, SpriteCall.playSound 1 none,
                 SpriteCall.startAnimation 0x624C0498 6 6],
               globalVars := fun v =>
                 if v = GlobalVar.V_DOOR_STATUS then 3 else d.globalVars v } := by
  have hs : d.globalVars GlobalVar.V_DOOR_STATUS = 1 := hstatus
  have h1 : (AsScene1001Door.handleMessage d 0x2000).2 =
      { d with nextStateCb := some DoorState.stShowIdleDoor,
               calls := d.calls ++ [SpriteCall.playSound 0 (some 0x65482F03),
                 SpriteCall.startAnimation 0x624C0498 1 3],
               globalVars := fun v =>
                 if v = GlobalVar.V_DOOR_STATUS then 2 else d.globalVars v } := by
    simp [AsScene1001Door.handleMessage, AsScene1001Door.hammerHitsDoor, Sprite.handleMessage,
      AsScene1001Door.getGlobalVar, AsScene1001Door.incGlobalVar, AsScene1001Door.setGlobalVar,
      AsScene1001Door.NextState, AsScene1001Door.call, hs]
  refine ⟨h1, ?_⟩
  rw [h1]
  simp [AsScene1001Door.handleMessage, AsScene1001Door.hammerHitsDoor, Sprite.handleMessage,
    AsScene1001Door.getGlobalVar, AsScene1001Door.incGlobalVar, AsScene1001Door.setGlobalVar,
    AsScene1001Door.NextState, AsScene1001Door.call]
  funext v
  cases v <;> simp


/-- C23: an entity has one slot for its pending next state and the last scheduling wins:
scheduling `b` and then `c` leaves the door as scheduling `c` alone does, and the message 0x3002
that follows has the effects of the state function `c` and of no other, whatever `b` was (for
`stBustedDoorMove`: V_DOOR_BUSTED is 1, the animation 0x624C0498 runs from frame 6 to 6, x is 30
and `stBustedDoorGone` is pending). In `AsScene1001Door`, two hammer hits (message 0x2000) with
door status 1 and then 2 schedule `stShowIdleDoor` and then `stBustedDoorMove`, and the message
0x3002 that follows leaves the door with the effects of the two hits and of `stBustedDoorMove`
only: `stShowIdleDoor`, which with door status 3 would stop the animation and hide the door, has
made no call and `_newStickFrameIndex` is unchanged. -/
theorem AsScene1001Door_last_schedule_wins (d : AsScene1001Door) (b c : DoorState) :
    ((d.NextState b).NextState c).nextStateCb = some c ∧
    (d.NextState b).NextState c = d.NextState c ∧
    (AsScene1001Door.handleMessage ((d.NextState b).NextState c) 0x3002).2 =
      (match c with
       | DoorState.stShowIdleDoor =>
           if d.globalVars GlobalVar.V_DOOR_STATUS = 1 then
             { d with nextStateCb := none, newStickFrameIndex := 4,
                      calls := d.calls ++ [SpriteCall.state DoorState.stShowIdleDoor,
                        SpriteCall.startAnimation 0x624C0498 4 (-1)] }
           else if d.globalVars GlobalVar.V_DOOR_STATUS = 2 then
             { d with nextStateCb := none, newStickFrameIndex := 1,
                      calls := d.calls ++ [SpriteCall.state DoorState.stShowIdleDoor,
                        SpriteCall.startAnimation 0x624C0498 1 (-1)] }
           else if d.globalVars GlobalVar.V_DOOR_STATUS = 3 then
             { d with nextStateCb := none,
                      calls := d.calls ++ [SpriteCall.state DoorState.stShowIdleDoor,
                        SpriteCall.stopAnimation, SpriteCall.setVisible false] }
           else
             { d with nextStateCb := none, newStickFrameIndex := 0,
                      calls := d.calls ++ [SpriteCall.state DoorState.stShowIdleDoor,
                        SpriteCall.startAnimation 0x624C0498 0 (-1)] }
       | DoorState.stBustedDoorMove =>
           { d with x := 30, nextStateCb := some DoorState.stBustedDoorGone,
                    calls := d.calls ++ [SpriteCall.state DoorState.stBustedDoorMove,
                      SpriteCall.startAnimation 0x624C0498 6 6],
                    globalVars := fun v =>
                      if v = GlobalVar.V_DOOR_BUSTED then 1 else d.globalVars v }
       | DoorState.stBustedDoorGone =>
           { d with nextStateCb := none,
                    calls := d.calls ++ [SpriteCall.state DoorState.stBustedDoorGone,
                      SpriteCall.playSound 0 none, SpriteCall.stopAnimation,
                      SpriteCall.setVisible false] }) ∧
    (d.getGlobalVar GlobalVar.V_DOOR_STATUS = 1 →
      ((AsScene1001Door.handleMessage d 0x2000).2).nextStateCb =
        some DoorState.stShowIdleDoor ∧
      ((AsScene1001Door.handleMessage
        (AsScene1001Door.handleMessage d 0x2000).2 0x2000).2).nextStateCb =
          some DoorState.stBustedDoorMove ∧
      (AsScene1001Door.handleMessage (AsScene1001Door.handleMessage
          (AsScene1001Door.handleMessage d 0x2000).2 0x2000).2 0x3002).2 =
        { d with x := 30, nextStateCb := some DoorState.stBustedDoorGone,
                 calls := d.calls ++ [SpriteCall.playSound 0 (some 0x65482F03),
                   SpriteCall.startAnimation 0x624C0498 1 3, SpriteCall.playSound 1 none,
                   SpriteCall.startAnimation 0x624C0498 6 6,
                   SpriteCall.state DoorState.stBustedDoorMove,
                   SpriteCall.startAnimation 0x624C0498 6 6],
                 globalVars := fun v =>
                   if v = GlobalVar.V_DOOR_BUSTED then 1 else 3 } ∧
      statesRun (AsScene1001Door.handleMessage (AsScene1001Door.handleMessage
          (AsScene1001Door.handleMessage d 0x2000).2 0x2000).2 0x3002).2.calls =
        statesRun d.calls ++ [DoorState.stBustedDoorMove]) := by
  refine ⟨rfl, rfl, AsScene1001Door_gotoNextState_effects d c, ?_⟩
  intro hstatus
  obtain ⟨h1, h2⟩ := AsScene1001Door_two_hits d hstatus
  have h3 : (AsScene1001Door.handleMessage (AsScene1001Door.handleMessage
      (AsScene1001Door.handleMessage d 0x2000).2 0x2000).2 0x3002).2 =
        { d with x := 30, nextStateCb := some DoorState.stBustedDoorGone,
                 calls := d.calls ++ [SpriteCall.playSound 0 (some 0x65482F03),
                   SpriteCall.startAnimation 0x624C0498 1 3, SpriteCall.playSound 1 none,
                   SpriteCall.startAnimation 0x624C0498 6 6,
                   SpriteCall.state DoorState.stBustedDoorMove,
                   SpriteCall.startAnimation 0x624C0498 6 6],
                 globalVars := fun v =>
                   if v = GlobalVar.V_DOOR_BUSTED then 1 else 3 } := by
    rw [h2]
    simp [AsScene1001Door.handleMessage, Sprite.handleMessage, AsScene1001Door.gotoNextState,
      AsScene1001Door.runState, AsScene1001Door.stBustedDoorMove, AsScene1001Door.NextState,
      AsScene1001Door.call, AsScene1001Door.setGlobalVar]
    funext v
    cases v <;> simp
  refine ⟨?_, ?_, h3, ?_⟩
  · rw [h1]
  · rw [h2]
  · rw [h3]
    simp [statesRun, List.filterMap_append]

/-- Witness of C23: the sample door with door status 1; after two hammer hits and the message
0x3002 the calls are those of the two hits and of `stBustedDoorMove`, x is 30, and the only
state function invoked is `stBustedDoorMove`. -/
theorem AsScene1001Door_last_schedule_wins_witness :
    (sampleDoor 1).getGlobalVar GlobalVar.V_DOOR_STATUS = 1 ∧
    (AsScene1001Door.handleMessage (AsScene1001Door.handleMessage
        (AsScene1001Door.handleMessage (sampleDoor 1) 0x2000).2 0x2000).2 0x3002).2.calls =
      [SpriteCall.playSound 0 (some 0x65482F03), SpriteCall.startAnimation 0x624C0498 1 3,
       SpriteCall.playSound 1 none, SpriteCall.startAnimation 0x624C0498 6 6,
       SpriteCall.state DoorState.stBustedDoorMove,
       SpriteCall.startAnimation 0x624C0498 6 6] ∧
    (AsScene1001Door.handleMessage (AsScene1001Door.handleMessage
        (AsScene1001Door.handleMessage (sampleDoor 1) 0x2000).2 0x2000).2 0x3002).2.x = 30 ∧
    statesRun (AsScene1001Door.handleMessage (AsScene1001Door.handleMessage
        (AsScene1001Door.handleMessage (sampleDoor 1) 0x2000).2 0x2000).2 0x3002).2.calls =
      [DoorState.stBustedDoorMove] :=
  ⟨rfl,
   congrArg AsScene1001Door.calls ((AsScene1001Door_last_schedule_wins (sampleDoor 1) DoorState.stShowIdleDoor
     DoorState.stBustedDoorMove).2.2.2 rfl).2.2.1,
   congrArg AsScene1001Door.x ((AsScene1001Door_last_schedule_wins (sampleDoor 1) DoorState.stShowIdleDoor
     DoorState.stBustedDoorMove).2.2.2 rfl).2.2.1,
   ((AsScene1001Door_last_schedule_wins (sampleDoor 1) DoorState.stShowIdleDoor
     DoorState.stBustedDoorMove).2.2.2 rfl).2.2.2⟩

/-! ### Claims on the sprites of Scene1002 and on Scene1005 -/

theorem AsScene1002Door_suOpenDoor_y (d : AsScene1002Door) (h : 49 ≤ d.y ∧ d.y ≤ 239) :
    (AsScene1002Door.suOpenDoor d).y =
      if d.y ≤ 49 then d.y else if d.y - 8 < 49 then 49 else d.y - 8 := by
  unfold AsScene1002Door.suOpenDoor
  have hs : Mohawk.toSint16 (d.y - 8) = d.y - 8 := by
    unfold Mohawk.toSint16
    omega
  by_cases h1 : d.y > 49
  · rw [if_pos h1, if_neg (by omega)]
    simp only [hs]
    by_cases h2 : d.y - 8 < 49
    · rw [if_pos h2, if_pos h2]
    · rw [if_neg h2, if_neg h2]
  · rw [if_neg h1, if_pos (by omega)]

theorem AsScene1002Door_suCloseDoor_y (d : AsScene1002Door) (h : 49 ≤ d.y ∧ d.y ≤ 239) :
    (AsScene1002Door.suCloseDoor d).y =
      if 239 ≤ d.y then d.y else if d.y + 8 > 239 then 239 else d.y + 8 := by
  unfold AsScene1002Door.suCloseDoor
  have hs : Mohawk.toSint16 (d.y + 8) = d.y + 8 := by
    unfold Mohawk.toSint16
    omega
  by_cases h1 : d.y < 239
  · rw [if_pos h1, if_neg (by omega)]
    simp only [hs]
    by_cases h2 : d.y + 8 > 239
    · rw [if_pos h2, if_pos h2]
    · rw [if_neg h2, if_neg h2]
  · rw [if_neg h1, if_pos (by omega)]

theorem AsScene1002Door_open_steps (d : AsScene1002Door) (hy : d.y = 239) (k : Nat) :
    (Nat.iterate AsScene1002Door.suOpenDoor k d).y = if k < 24 then 239 - 8 * (k : Int) else 49 := by
  induction k with
  | zero => simp [hy]
  | succ k ih =>
    rw [Function.iterate_succ_apply']
    generalize Nat.iterate AsScene1002Door.suOpenDoor k d = q at ih
    have hr : 49 ≤ q.y ∧ q.y ≤ 239 := by
      rw [ih]
      split_ifs <;> omega
    rw [AsScene1002Door_suOpenDoor_y q hr, ih]
    push_cast
    split_ifs <;> omega

theorem AsScene1002Door_close_steps (d : AsScene1002Door) (hy : d.y = 49) (k : Nat) :
    (Nat.iterate AsScene1002Door.suCloseDoor k d).y = if k < 24 then 49 + 8 * (k : Int) else 239 := by
  induction k with
  | zero => simp [hy]
  | succ k ih =>
    rw [Function.iterate_succ_apply']
    generalize Nat.iterate AsScene1002Door.suCloseDoor k d = q at ih
    have hr : 49 ≤ q.y ∧ q.y ≤ 239 := by
      rw [ih]
      split_ifs <;> omega
    rw [AsScene1002Door_suCloseDoor_y q hr, ih]
    push_cast
    split_ifs <;> omega

/-- C33: for every y in [49, 239], `suOpenDoor` and `suCloseDoor` each leave y in [49, 239]. From
the closed position y = 239, k applications of `suOpenDoor` give y = 239 - 8k for k < 24 (above
49) and y = 49 for every k >= 24; at y = 49 `suOpenDoor` changes nothing. From y = 49, k
applications of `suCloseDoor` give y = 49 + 8k for k < 24 and y = 239 for every k >= 24; at
y = 239 `suCloseDoor` changes nothing. -/
theorem AsScene1002Door_position (d : AsScene1002Door) (h : 49 ≤ d.y ∧ d.y ≤ 239) :
    (49 ≤ (AsScene1002Door.suOpenDoor d).y ∧ (AsScene1002Door.suOpenDoor d).y ≤ 239) ∧
    (49 ≤ (AsScene1002Door.suCloseDoor d).y ∧ (AsScene1002Door.suCloseDoor d).y ≤ 239) ∧
    (∀ k : Nat, (Nat.iterate AsScene1002Door.suOpenDoor k { d with y := 239 }).y =
      if k < 24 then 239 - 8 * (k : Int) else 49) ∧
    (∀ d2 : AsScene1002Door, d2.y = 49 → AsScene1002Door.suOpenDoor d2 = d2) ∧
    (∀ k : Nat, (Nat.iterate AsScene1002Door.suCloseDoor k { d with y := 49 }).y =
      if k < 24 then 49 + 8 * (k : Int) else 239) ∧
    (∀ d2 : AsScene1002Door, d2.y = 239 → AsScene1002Door.suCloseDoor d2 = d2) := by
  refine ⟨?_, ?_, ?_, ?_, ?_, ?_⟩
  · rw [AsScene1002Door_suOpenDoor_y d h]
    split_ifs <;> omega
  · rw [AsScene1002Door_suCloseDoor_y d h]
    split_ifs <;> omega
  · intro k
    exact AsScene1002Door_open_steps _ rfl k
  · intro d2 h2
    unfold AsScene1002Door.suOpenDoor
    rw [if_neg (by omega)]
  · intro k
    exact AsScene1002Door_close_steps _ rfl k
  · intro d2 h2
    unfold AsScene1002Door.suCloseDoor
    rw [if_neg (by omega)]

/-- Witness of C33: the door as the constructor builds it when V_FLYTRAP_RING_DOOR is 0 (closed,
y = 239): after 23 calls of `suOpenDoor` y is 55, after 24 calls it is 49. -/
theorem AsScene1002Door_position_witness :
    (49 ≤ (AsScene1002Door.AsScene1002Door 0).y ∧ (AsScene1002Door.AsScene1002Door 0).y ≤ 239) ∧
    (AsScene1002Door.AsScene1002Door 0).y = 239 ∧
    (Nat.iterate AsScene1002Door.suOpenDoor 23 (AsScene1002Door.AsScene1002Door 0)).y = 55 ∧
    (Nat.iterate AsScene1002Door.suOpenDoor 24 (AsScene1002Door.AsScene1002Door 0)).y = 49 :=
  ⟨by decide, by decide,
   ((AsScene1002Door_position (AsScene1002Door.AsScene1002Door 0) (by decide)).2.2.1 23).trans
     (by decide),
   ((AsScene1002Door_position (AsScene1002Door.AsScene1002Door 0) (by decide)).2.2.1 24).trans
     (by decide)⟩

/-- C34: the handlers of `AsScene1002OutsideDoorBackground` do not react to the number of the
message: their switches are on the result of the base handler. With the base result 0, message
0x4808, message 0x4809 and (in `hmAnimation`) message 0x3002 leave the sprite as it is, for every
sprite; with the base result 0x4808 a message of any number, here 0, sets `_isDoorClosed` to
false and `_countdown` to 2. `AsScene1002Door::handleMessage`, which Scene1002 sends the same two
messages to, reacts to the message number. -/
theorem AsScene1002OutsideDoorBackground_switch_on_result :
    (∀ (b : AsScene1002OutsideDoorBackground) (messageNum : Nat),
      AsScene1002OutsideDoorBackground.handleMessage b 0 messageNum = (0, b) ∧
      AsScene1002OutsideDoorBackground.hmAnimation b 0 messageNum = (0, b)) ∧
    AsScene1002OutsideDoorBackground.handleMessage
        { isDoorClosed := true, countdown := 0, gotoNextStateCalls := 0 } 0 0x4808 =
      (0, { isDoorClosed := true, countdown := 0, gotoNextStateCalls := 0 }) ∧
    outsideDoorAsClaimed { isDoorClosed := true, countdown := 0, gotoNextStateCalls := 0 }
        false 0x4808 = { isDoorClosed := false, countdown := 2, gotoNextStateCalls := 0 } ∧
    AsScene1002OutsideDoorBackground.handleMessage sampleBackground 0 0x4809 =
      (0, sampleBackground) ∧
    outsideDoorAsClaimed sampleBackground false 0x4809 =
      { isDoorClosed := true, countdown := 2, gotoNextStateCalls := 0 } ∧
    AsScene1002OutsideDoorBackground.hmAnimation sampleBackground 0 0x3002 =
      (0, sampleBackground) ∧
    outsideDoorAsClaimed sampleBackground true 0x3002 =
      { isDoorClosed := false, countdown := 0, gotoNextStateCalls := 1 } ∧
    AsScene1002OutsideDoorBackground.handleMessage
        { isDoorClosed := true, countdown := 0, gotoNextStateCalls := 0 } 0x4808 0 =
      (0x4808, { isDoorClosed := false, countdown := 2, gotoNextStateCalls := 0 }) ∧
    (AsScene1002Door.handleMessage (AsScene1002Door.AsScene1002Door 0) 0 0x4808).2.spriteUpdate =
      some DoorSpriteUpdate.suOpenDoor := by
  refine ⟨?_, by decide, by decide, by decide, by decide, by decide, by decide, by decide,
    by decide⟩
  intro b messageNum
  constructor
  · simp [AsScene1002OutsideDoorBackground.handleMessage, Sprite.baseHandleMessage]
  · simp [AsScene1002OutsideDoorBackground.hmAnimation,
      AsScene1002OutsideDoorBackground.handleMessage, Sprite.baseHandleMessage]

theorem VariableStore_get_set (vars : VariableStore) (name value : Nat) :
    (vars.setGlobalVar name value).getGlobalVar name = value % 4294967296 := by
  simp [VariableStore.getGlobalVar, VariableStore.setGlobalVar]

theorem Scene1005_getTextIndex2_step (names : GlobalVarNames) (vars : VariableStore)
    (h2 : vars.getGlobalVar names.V_TEXT_COUNTING_INDEX1 ≤ 9) :
    Scene1005.getTextIndex2 names vars =
      if vars.getGlobalVar names.V_TEXT_COUNTING_INDEX1 ≤ 8 then
        (40 + vars.getGlobalVar names.V_TEXT_COUNTING_INDEX1,
          vars.setGlobalVar names.V_TEXT_COUNTING_INDEX1
            (vars.getGlobalVar names.V_TEXT_COUNTING_INDEX1 + 1))
      else (40, vars.setGlobalVar names.V_TEXT_COUNTING_INDEX1 0) := by
  unfold Scene1005.getTextIndex2
  generalize vars.getGlobalVar names.V_TEXT_COUNTING_INDEX1 = c at h2
  have e : (c + 1) % 4294967296 = c + 1 := Nat.mod_eq_of_lt (by omega)
  have f : (c + 40) % 4294967296 = c + 40 := Nat.mod_eq_of_lt (by omega)
  simp only [e, f]
  by_cases g : c ≤ 8
  · rw [if_neg (by omega), if_pos g, Nat.add_comm]
  · rw [if_pos (by omega), if_neg g]

theorem Scene1005_getTextIndex3_step (names : GlobalVarNames) (vars : VariableStore)
    (h3 : vars.getGlobalVar names.V_TEXT_COUNTING_INDEX2 ≤ 9) :
    Scene1005.getTextIndex3 names vars =
      if vars.getGlobalVar names.V_TEXT_COUNTING_INDEX2 ≤ 8 then
        (30 + vars.getGlobalVar names.V_TEXT_COUNTING_INDEX2,
          vars.setGlobalVar names.V_TEXT_COUNTING_INDEX2
            (vars.getGlobalVar names.V_TEXT_COUNTING_INDEX2 + 1))
      else (30, vars.setGlobalVar names.V_TEXT_COUNTING_INDEX2 0) := by
  unfold Scene1005.getTextIndex3
  generalize vars.getGlobalVar names.V_TEXT_COUNTING_INDEX2 = c at h3
  have e : (c + 1) % 4294967296 = c + 1 := Nat.mod_eq_of_lt (by omega)
  have f : (c + 30) % 4294967296 = c + 30 := Nat.mod_eq_of_lt (by omega)
  simp only [e, f]
  by_cases g : c ≤ 8
  · rw [if_neg (by omega), if_pos g, Nat.add_comm]
  · rw [if_pos (by omega), if_neg g]

/-- C35: `getTextIndex2` on a stored counter c in 0..9 returns 40 + c and stores c + 1 when
c <= 8, and returns 40 and stores 0 when c = 9: the counter stays in 0..9 and the result is in
40..48. `getTextIndex3` does the same with base 30 on its own counter (results in 30..38). -/
theorem Scene1005_getTextIndex_counting (names : GlobalVarNames) (vars : VariableStore)
    (h2 : vars.getGlobalVar names.V_TEXT_COUNTING_INDEX1 ≤ 9)
    (h3 : vars.getGlobalVar names.V_TEXT_COUNTING_INDEX2 ≤ 9) :
    ((Scene1005.getTextIndex2 names vars).1 =
      if vars.getGlobalVar names.V_TEXT_COUNTING_INDEX1 ≤ 8
      then 40 + vars.getGlobalVar names.V_TEXT_COUNTING_INDEX1 else 40) ∧
    ((Scene1005.getTextIndex2 names vars).2.getGlobalVar names.V_TEXT_COUNTING_INDEX1 =
      if vars.getGlobalVar names.V_TEXT_COUNTING_INDEX1 ≤ 8
      then vars.getGlobalVar names.V_TEXT_COUNTING_INDEX1 + 1 else 0) ∧
    (Scene1005.getTextIndex2 names vars).2.getGlobalVar names.V_TEXT_COUNTING_INDEX1 ≤ 9 ∧
    40 ≤ (Scene1005.getTextIndex2 names vars).1 ∧ (Scene1005.getTextIndex2 names vars).1 ≤ 48 ∧
    ((Scene1005.getTextIndex3 names vars).1 =
      if vars.getGlobalVar names.V_TEXT_COUNTING_INDEX2 ≤ 8
      then 30 + vars.getGlobalVar names.V_TEXT_COUNTING_INDEX2 else 30) ∧
    ((Scene1005.getTextIndex3 names vars).2.getGlobalVar names.V_TEXT_COUNTING_INDEX2 =
      if vars.getGlobalVar names.V_TEXT_COUNTING_INDEX2 ≤ 8
      then vars.getGlobalVar names.V_TEXT_COUNTING_INDEX2 + 1 else 0) ∧
    (Scene1005.getTextIndex3 names vars).2.getGlobalVar names.V_TEXT_COUNTING_INDEX2 ≤ 9 ∧
    30 ≤ (Scene1005.getTextIndex3 names vars).1 ∧ (Scene1005.getTextIndex3 names vars).1 ≤ 38 := by
  rw [Scene1005_getTextIndex2_step names vars h2, Scene1005_getTextIndex3_step names vars h3]
  generalize vars.getGlobalVar names.V_TEXT_COUNTING_INDEX1 = c2 at h2
  generalize vars.getGlobalVar names.V_TEXT_COUNTING_INDEX2 = c3 at h3
  have e2 : (c2 + 1) % 4294967296 = c2 + 1 := Nat.mod_eq_of_lt (by omega)
  have e3 : (c3 + 1) % 4294967296 = c3 + 1 := Nat.mod_eq_of_lt (by omega)
  refine ⟨?_, ?_, ?_, ?_, ?_, ?_, ?_, ?_, ?_, ?_⟩ <;>
    split_ifs <;> simp only [VariableStore_get_set, e2, e3] <;> omega

/-- Witness of C35: on the sample store both counters are 0; the results are 40 and 30 and the
counters become 1. -/
theorem Scene1005_getTextIndex_counting_witness :
    sampleVars.getGlobalVar sampleNames.V_TEXT_COUNTING_INDEX1 ≤ 9 ∧
    sampleVars.getGlobalVar sampleNames.V_TEXT_COUNTING_INDEX2 ≤ 9 ∧
    (Scene1005.getTextIndex2 sampleNames sampleVars).1 = 40 ∧
    (Scene1005.getTextIndex2 sampleNames sampleVars).2.getGlobalVar
      sampleNames.V_TEXT_COUNTING_INDEX1 = 1 ∧
    (Scene1005.getTextIndex3 sampleNames sampleVars).1 = 30 :=
  ⟨by decide, by decide,
   (Scene1005_getTextIndex_counting sampleNames sampleVars (by decide) (by decide)).1.trans
     (by decide),
   (Scene1005_getTextIndex_counting sampleNames sampleVars (by decide) (by decide)).2.1.trans
     (by decide),
   (Scene1005_getTextIndex_counting sampleNames sampleVars (by decide)
     (by decide)).2.2.2.2.2.1.trans (by decide)⟩

theorem Scene1005_textIndex1Ok_ite (vars : VariableStore) (c : Prop) [Decidable c]
    (a b : Nat × VariableStore) (ha : c → Scene1005.textIndex1Ok vars a)
    (hb : ¬ c → Scene1005.textIndex1Ok vars b) :
    Scene1005.textIndex1Ok vars (if c then a else b) := by
  by_cases h : c
  · rw [if_pos h]; exact ha h
  · rw [if_neg h]; exact hb h

theorem Scene1005_textIndex1Ok_value (vars : VariableStore) (v : Nat)
    (hv : v ≤ 27 ∨ v = 29 ∨ v = 50) : Scene1005.textIndex1Ok vars (v, vars) := by
  refine ⟨rfl, hv, ?_⟩
  show v ≠ 28
  omega

theorem Scene1005_getTextIndex1_ok (names : GlobalVarNames) (vars : VariableStore) :
    Scene1005.textIndex1Ok vars (Scene1005.getTextIndex1 names vars) := by
  unfold Scene1005.getTextIndex1
  repeat' first
    | exact Scene1005_textIndex1Ok_value vars _ (by decide)
    | exact absurd (by assumption : vars.getGlobalVar names.V_HAS_FINAL_KEY = 0) (by assumption)
    | (apply Scene1005_textIndex1Ok_ite <;> intro _)

/-- C36: `getTextIndex1` writes no variable and, for every assignment of values to the
variables, returns a value in 0..27 or 29 or 50; it does not return 28. -/
theorem Scene1005_getTextIndex1_range (names : GlobalVarNames) (vars : VariableStore) :
    (Scene1005.getTextIndex1 names vars).2 = vars ∧
    ((Scene1005.getTextIndex1 names vars).1 ≤ 27 ∨ (Scene1005.getTextIndex1 names vars).1 = 29 ∨
      (Scene1005.getTextIndex1 names vars).1 = 50) ∧
    (Scene1005.getTextIndex1 names vars).1 ≠ 28 := by
  obtain ⟨hstore, hvalue, hnot28⟩ := Scene1005_getTextIndex1_ok names vars
  exact ⟨hstore, hvalue, hnot28⟩

theorem SsCommonPressButton_update_fields (q : SsCommonPressButton) :
    (SsCommonPressButton.update q).status =
      (if q.countdown = 1 then
        (if q.status = 1 then 2 else if q.status = 2 then 3 else if q.status = 3 then 0
         else q.status)
       else q.status) ∧
    (SsCommonPressButton.update q).countdown =
      (if q.countdown = 0 then 0
       else if q.countdown = 1 then (if q.status = 1 ∨ q.status = 2 then 4 else 0)
       else q.countdown - 1) ∧
    (SsCommonPressButton.update q).visible =
      (if q.countdown = 1 ∧ q.status = 3 then false else q.visible) ∧
    (SsCommonPressButton.update q).spriteFileHash =
      (if q.countdown = 1 ∧ q.status = 1 then q.fileHash2
       else if q.countdown = 1 ∧ q.status = 2 then q.fileHash1 else q.spriteFileHash) ∧
    (SsCommonPressButton.update q).fileHash1 = q.fileHash1 ∧
    (SsCommonPressButton.update q).fileHash2 = q.fileHash2 := by
  unfold SsCommonPressButton.update
  by_cases h0 : q.countdown = 0
  · have h1 : ¬ q.countdown = 1 := by omega
    simp [h0]
  · by_cases h1 : q.countdown = 1
    · have hz : q.countdown - 1 = 0 := by omega
      by_cases s1 : q.status = 1
      · simp [h1, s1]
      · by_cases s2 : q.status = 2
        · simp [h1, s2]
        · by_cases s3 : q.status = 3
          · simp [h1, s3]
          · simp [h1, s1, s2, s3]
    · have hz : ¬ q.countdown - 1 = 0 := by omega
      simp [h0, h1, hz]

theorem SsCommonPressButton_pressed_fields (b : SsCommonPressButton) (baseResult : Nat)
    (k : Nat) :
    (SsCommonPressButton.pressed b baseResult k).status =
      (if k < 4 then 1 else if k < 8 then 2 else if k < 12 then 3 else 0) ∧
    (SsCommonPressButton.pressed b baseResult k).countdown =
      (if k < 4 then 4 - (k : Int) else if k < 8 then 8 - (k : Int)
       else if k < 12 then 12 - (k : Int) else 0) ∧
    (SsCommonPressButton.pressed b baseResult k).visible = decide (k < 12) ∧
    (SsCommonPressButton.pressed b baseResult k).spriteFileHash =
      (if k < 4 then b.spriteFileHash else if k < 8 then b.fileHash2 else b.fileHash1) ∧
    (SsCommonPressButton.pressed b baseResult k).fileHash1 = b.fileHash1 ∧
    (SsCommonPressButton.pressed b baseResult k).fileHash2 = b.fileHash2 := by
  induction k with
  | zero =>
    simp [SsCommonPressButton.pressed, SsCommonPressButton.handleMessage]
  | succ k ih =>
    have hstep : SsCommonPressButton.pressed b baseResult (k + 1) =
        SsCommonPressButton.update (SsCommonPressButton.pressed b baseResult k) := by
      unfold SsCommonPressButton.pressed
      rw [Function.iterate_succ_apply']
    rw [hstep]
    generalize SsCommonPressButton.pressed b baseResult k = q at ih
    obtain ⟨hs, hc, hv, hi, hf1, hf2⟩ := ih
    obtain ⟨us, uc, uv, ui, uf1, uf2⟩ := SsCommonPressButton_update_fields q
    rw [us, uc, uv, ui, uf1, uf2, hs, hc, hv, hi, hf1, hf2]
    refine ⟨?_, ?_, ?_, ?_, rfl, rfl⟩
    · split_ifs <;> omega
    · push_cast
      split_ifs <;> omega
    · by_cases h12 : k < 12
      · by_cases h11 : k + 1 < 12
        · have hne : ¬ ((if k < 4 then 4 - (k : Int) else if k < 8 then 8 - (k : Int)
              else if k < 12 then 12 - (k : Int) else 0) = 1 ∧
              (if k < 4 then (1 : Int) else if k < 8 then 2 else if k < 12 then 3 else 0) = 3) := by
            split_ifs <;> omega
          rw [if_neg hne]
          simp [h12, h11]
        · have he : ((if k < 4 then 4 - (k : Int) else if k < 8 then 8 - (k : Int)
              else if k < 12 then 12 - (k : Int) else 0) = 1 ∧
              (if k < 4 then (1 : Int) else if k < 8 then 2 else if k < 12 then 3 else 0) = 3) := by
            split_ifs <;> omega
          rw [if_pos he]
          simp [h11]
      · have h11 : ¬ k + 1 < 12 := by omega
        have hne : ¬ ((if k < 4 then 4 - (k : Int) else if k < 8 then 8 - (k : Int)
            else if k < 12 then 12 - (k : Int) else 0) = 1 ∧
            (if k < 4 then (1 : Int) else if k < 8 then 2 else if k < 12 then 3 else 0) = 3) := by
          split_ifs <;> omega
        rw [if_neg hne]
        simp [h12, h11]
    · split_ifs <;> first | rfl | omega

/-- Counterexample to C37 as stated: the sample button (file hashes 11 and 22) is pressed, four
updates bring it to status 2 with the second image shown, and a further 0x480B restarts the
cycle: the status is 1 and the image shown is still the second file hash, and stays so for the
next three updates. -/
theorem SsCommonPressButton_restart_keeps_image :
    (SsCommonPressButton.pressed sampleButton 0 4).status = 2 ∧
    (SsCommonPressButton.pressed (SsCommonPressButton.pressed sampleButton 0 4) 0 0).status = 1 ∧
    (SsCommonPressButton.pressed (SsCommonPressButton.pressed sampleButton 0 4) 0 0).spriteFileHash
      = 22 ∧
    (SsCommonPressButton.pressed (SsCommonPressButton.pressed sampleButton 0 4) 0 3).status = 1 ∧
    (SsCommonPressButton.pressed (SsCommonPressButton.pressed sampleButton 0 4) 0 3).spriteFileHash
      = 22 ∧
    (SsCommonPressButton.pressed (SsCommonPressButton.pressed sampleButton 0 4) 0 3).fileHash1
      = 11 ∧
    (SsCommonPressButton.pressed (SsCommonPressButton.pressed sampleButton 0 4) 0 3).fileHash2
      = 22 := by
  decide

/-- C37 (amended): after message 0x480B and k calls of `update()` with no further message, the
status is 1 for k in 0..3, 2 for k in 4..7, 3 for k in 8..11 and 0 for k >= 12, and the sprite is
visible exactly for k < 12 (it is hidden at the 12th update). The image shown is the one that was
shown when the message arrived for k in 0..3, the second file hash for k in 4..7 and the first
from k = 8 on: it is the second file hash while the status is 2 and the first otherwise whenever
the first was shown when the message arrived. A further 0x480B at any point gives status 1,
countdown 4 and a visible sprite, and neither `update()` nor a message takes the status out of
0..3. -/
theorem SsCommonPressButton_press_cycle (b : SsCommonPressButton) (baseResult : Nat) (k : Nat) :
    (SsCommonPressButton.pressed b baseResult 0).status = 1 ∧
    (SsCommonPressButton.pressed b baseResult 0).countdown = 4 ∧
    (SsCommonPressButton.pressed b baseResult k).status =
      (if k < 4 then 1 else if k < 8 then 2 else if k < 12 then 3 else 0) ∧
    (SsCommonPressButton.pressed b baseResult k).visible = decide (k < 12) ∧
    (SsCommonPressButton.pressed b baseResult k).spriteFileHash =
      (if k < 4 then b.spriteFileHash else if k < 8 then b.fileHash2 else b.fileHash1) ∧
    (b.spriteFileHash = b.fileHash1 →
      (SsCommonPressButton.pressed b baseResult k).spriteFileHash =
        if (SsCommonPressButton.pressed b baseResult k).status = 2 then b.fileHash2
        else b.fileHash1) ∧
    (SsCommonPressButton.pressed (SsCommonPressButton.pressed b baseResult k) baseResult 0).status
      = 1 ∧
    (SsCommonPressButton.pressed (SsCommonPressButton.pressed b baseResult k) baseResult
      0).countdown = 4 ∧
    (SsCommonPressButton.pressed (SsCommonPressButton.pressed b baseResult k) baseResult
      0).visible = true ∧
    (∀ (q : SsCommonPressButton) (messageNum : Nat), 0 ≤ q.status ∧ q.status ≤ 3 →
      (0 ≤ (SsCommonPressButton.update q).status ∧ (SsCommonPressButton.update q).status ≤ 3) ∧
      (0 ≤ (SsCommonPressButton.handleMessage q baseResult messageNum).2.status ∧
        (SsCommonPressButton.handleMessage q baseResult messageNum).2.status ≤ 3)) := by
  obtain ⟨hs, _, hv, hi, _, _⟩ := SsCommonPressButton_pressed_fields b baseResult k
  obtain ⟨hs0, hc0, hv0, _, _, _⟩ := SsCommonPressButton_pressed_fields
    (SsCommonPressButton.pressed b baseResult k) baseResult 0
  obtain ⟨hs1, hc1, _, _, _, _⟩ := SsCommonPressButton_pressed_fields b baseResult 0
  refine ⟨hs1, hc1, hs, hv, hi, ?_, hs0, hc0, hv0, ?_⟩
  · intro himg
    rw [hi, hs, himg]
    split_ifs <;> first | rfl | omega
  · intro q messageNum hq
    constructor
    · rw [(SsCommonPressButton_update_fields q).1]
      split_ifs <;> omega
    · unfold SsCommonPressButton.handleMessage
      split_ifs
      · simp
      · exact hq

/-- Witness of C37 (amended): the sample button, whose first image is shown when it is pressed;
after 5 updates the status is 2 and the second image (22) is shown. -/
theorem SsCommonPressButton_press_cycle_witness :
    sampleButton.spriteFileHash = sampleButton.fileHash1 ∧
    (SsCommonPressButton.pressed sampleButton 0 5).status = 2 ∧
    (SsCommonPressButton.pressed sampleButton 0 5).spriteFileHash = 22 :=
  ⟨rfl,
   (SsCommonPressButton_press_cycle sampleButton 0 5).2.2.1.trans (by decide),
   ((SsCommonPressButton_press_cycle sampleButton 0 5).2.2.2.2.2.1 rfl).trans (by decide)⟩

theorem tdiv_32_of_nonneg (a : Int) (h : 0 ≤ a) : a.tdiv 32 = a / 32 :=
  Int.tdiv_eq_ediv h (by decide)

theorem tdiv_32_of_neg (a : Int) (h : a < 0) : a.tdiv 32 = -((-a) / 32) := by
  have h1 : a = -(-a) := by omega
  rw [h1, Int.neg_tdiv, tdiv_32_of_nonneg (-a) (by omega)]
  simp

theorem flyTrap_back_186 (q : Int) (hq : -1 ≤ q) (hq2 : q ≤ 5) :
    Mohawk.toSint16 ((((186 + (toUint32 q % 4294967296) * 32) % 4294967296 : Nat) : Int))
      = 186 + 32 * q := by
  have hcases : q = -1 ∨ q = 0 ∨ q = 1 ∨ q = 2 ∨ q = 3 ∨ q = 4 ∨ q = 5 := by omega
  rcases hcases with h | h | h | h | h | h | h <;> subst h <;> decide

theorem flyTrap_back_174 (q : Int) (hq : 0 ≤ q) (hq2 : q ≤ 8) :
    Mohawk.toSint16 ((((174 + (toUint32 q % 4294967296) * 32) % 4294967296 : Nat) : Int))
      = 174 + 32 * q := by
  have hcases : q = 0 ∨ q = 1 ∨ q = 2 ∨ q = 3 ∨ q = 4 ∨ q = 5 ∨ q = 6 ∨ q = 7 ∨ q = 8 := by
    omega
  rcases hcases with h | h | h | h | h | h | h | h | h <;> subst h <;> decide

theorem toUint32_lt (v : Int) : toUint32 v < 4294967296 := by
  unfold toUint32
  omega

theorem AsScene1002VenusFlyTrap_stIdle_x (names : GlobalVarNames)
    (t : AsScene1002VenusFlyTrap) : (AsScene1002VenusFlyTrap.stIdle names t).x = t.x := by
  unfold AsScene1002VenusFlyTrap.stIdle
  simp only []
  split_ifs <;> rfl

theorem AsScene1002VenusFlyTrap_ctor_x_flag (names : GlobalVarNames) (vars : VariableStore) :
    (AsScene1002VenusFlyTrap.AsScene1002VenusFlyTrap names vars true).x =
      Mohawk.toSint16 (((186 + vars.getGlobalVar names.V_FLYTRAP_POSITION_2 * 32)
        % 4294967296 : Nat) : Int) := by
  unfold AsScene1002VenusFlyTrap.AsScene1002VenusFlyTrap
  simp only [Bool.true_eq_false, if_false]
  split_ifs
  · rfl
  · rw [AsScene1002VenusFlyTrap_stIdle_x]

theorem AsScene1002VenusFlyTrap_ctor_x_noflag (names : GlobalVarNames) (vars : VariableStore)
    (hdoor : vars.getGlobalVar names.V_FLYTRAP_RING_DOOR = 0) :
    (AsScene1002VenusFlyTrap.AsScene1002VenusFlyTrap names vars false).x =
      Mohawk.toSint16 (((174 + vars.getGlobalVar names.V_FLYTRAP_POSITION_1 * 32)
        % 4294967296 : Nat) : Int) := by
  unfold AsScene1002VenusFlyTrap.AsScene1002VenusFlyTrap
  simp only [if_true, hdoor, ne_eq, not_true_eq_false, if_false]
  rw [AsScene1002VenusFlyTrap_stIdle_x]


theorem AsScene1002VenusFlyTrap_stIdle_flag (names : GlobalVarNames)
    (t : AsScene1002VenusFlyTrap) (hflag : t.flag = true) (h1 : 154 ≤ t.x) (h2 : t.x ≤ 346) :
    (AsScene1002VenusFlyTrap.stIdle names t).vars =
      t.vars.setGlobalVar names.V_FLYTRAP_POSITION_2 (toUint32 ((t.x - 186).tdiv 32)) := by
  unfold AsScene1002VenusFlyTrap.stIdle
  simp only [hflag, if_true]
  rw [if_pos ⟨by omega, h2⟩]

theorem AsScene1002VenusFlyTrap_stIdle_noflag (names : GlobalVarNames)
    (t : AsScene1002VenusFlyTrap) (hflag : t.flag = false) (h1 : 174 ≤ t.x) (h2 : t.x ≤ 430) :
    (AsScene1002VenusFlyTrap.stIdle names t).vars =
      t.vars.setGlobalVar names.V_FLYTRAP_POSITION_1 (toUint32 ((t.x - 174).tdiv 32)) := by
  unfold AsScene1002VenusFlyTrap.stIdle
  simp only [hflag, Bool.false_eq_true, if_false]
  rw [if_pos ⟨by omega, h2⟩]

theorem VariableStore_get_set_other (vars : VariableStore) (name other value : Nat)
    (h : other ≠ name) :
    (vars.setGlobalVar name value).getGlobalVar other = vars.getGlobalVar other := by
  simp [VariableStore.getGlobalVar, VariableStore.setGlobalVar, h]

theorem AsScene1002VenusFlyTrap_ctor_ring_door (names : GlobalVarNames) (vars : VariableStore)
    (hdoor : vars.getGlobalVar names.V_FLYTRAP_RING_DOOR ≠ 0) :
    (AsScene1002VenusFlyTrap.AsScene1002VenusFlyTrap names vars false).x = 366 ∧
    (AsScene1002VenusFlyTrap.AsScene1002VenusFlyTrap names vars false).y = 435 := by
  unfold AsScene1002VenusFlyTrap.AsScene1002VenusFlyTrap
  simp only [if_true, hdoor, ne_eq, not_false_eq_true]
  exact ⟨rfl, rfl⟩

/-- C38 (amended): the position of the fly trap survives the round trip through the variable.
With `_flag` set and x in [154, 346], `stIdle` stores p = (x - 186) / 32 (truncated, as a
`uint32`) in V_FLYTRAP_POSITION_2, and the constructor run on the store so left places the sprite
at x' = 186 + 32 * ((x - 186) / 32), again in [154, 346], with |x' - x| <= 31, and x' = x when
x - 186 is a multiple of 32. Without `_flag` and with x in [174, 430] the same holds with 174 and
V_FLYTRAP_POSITION_1 when V_FLYTRAP_RING_DOOR is 0 in the store that the constructor reads; when
V_FLYTRAP_RING_DOOR is not 0 the constructor without `_flag` places the sprite at (366, 435)
whatever the stored position is. -/
theorem AsScene1002VenusFlyTrap_round_trip (names : GlobalVarNames)
    (t : AsScene1002VenusFlyTrap) (vars : VariableStore) :
    (t.flag = true → 154 ≤ t.x → t.x ≤ 346 →
      (AsScene1002VenusFlyTrap.stIdle names t).vars.getGlobalVar names.V_FLYTRAP_POSITION_2 =
        toUint32 ((t.x - 186).tdiv 32) ∧
      (AsScene1002VenusFlyTrap.AsScene1002VenusFlyTrap names
        (AsScene1002VenusFlyTrap.stIdle names t).vars true).x =
          186 + 32 * (t.x - 186).tdiv 32 ∧
      154 ≤ (AsScene1002VenusFlyTrap.AsScene1002VenusFlyTrap names
        (AsScene1002VenusFlyTrap.stIdle names t).vars true).x ∧
      (AsScene1002VenusFlyTrap.AsScene1002VenusFlyTrap names
        (AsScene1002VenusFlyTrap.stIdle names t).vars true).x ≤ 346 ∧
      |(AsScene1002VenusFlyTrap.AsScene1002VenusFlyTrap names
        (AsScene1002VenusFlyTrap.stIdle names t).vars true).x - t.x| ≤ 31 ∧
      ((t.x - 186) % 32 = 0 → (AsScene1002VenusFlyTrap.AsScene1002VenusFlyTrap names
        (AsScene1002VenusFlyTrap.stIdle names t).vars true).x = t.x)) ∧
    (t.flag = false → 174 ≤ t.x → t.x ≤ 430 →
      (AsScene1002VenusFlyTrap.stIdle names t).vars.getGlobalVar names.V_FLYTRAP_RING_DOOR = 0 →
      (AsScene1002VenusFlyTrap.stIdle names t).vars.getGlobalVar names.V_FLYTRAP_POSITION_1 =
        toUint32 ((t.x - 174).tdiv 32) ∧
      (AsScene1002VenusFlyTrap.AsScene1002VenusFlyTrap names
        (AsScene1002VenusFlyTrap.stIdle names t).vars false).x =
          174 + 32 * (t.x - 174).tdiv 32 ∧
      174 ≤ (AsScene1002VenusFlyTrap.AsScene1002VenusFlyTrap names
        (AsScene1002VenusFlyTrap.stIdle names t).vars false).x ∧
      (AsScene1002VenusFlyTrap.AsScene1002VenusFlyTrap names
        (AsScene1002VenusFlyTrap.stIdle names t).vars false).x ≤ 430 ∧
      |(AsScene1002VenusFlyTrap.AsScene1002VenusFlyTrap names
        (AsScene1002VenusFlyTrap.stIdle names t).vars false).x - t.x| ≤ 31 ∧
      ((t.x - 174) % 32 = 0 → (AsScene1002VenusFlyTrap.AsScene1002VenusFlyTrap names
        (AsScene1002VenusFlyTrap.stIdle names t).vars false).x = t.x)) ∧
    (vars.getGlobalVar names.V_FLYTRAP_RING_DOOR ≠ 0 →
      (AsScene1002VenusFlyTrap.AsScene1002VenusFlyTrap names vars false).x = 366 ∧
      (AsScene1002VenusFlyTrap.AsScene1002VenusFlyTrap names vars false).y = 435) := by
  refine ⟨?_, ?_, AsScene1002VenusFlyTrap_ctor_ring_door names vars⟩
  · intro hflag h1 h2
    have hq : (t.x - 186).tdiv 32 =
        if 0 ≤ t.x - 186 then (t.x - 186) / 32 else -((-(t.x - 186)) / 32) := by
      split_ifs with h
      · exact tdiv_32_of_nonneg _ h
      · exact tdiv_32_of_neg _ (by omega)
    have hb1 : -1 ≤ (t.x - 186).tdiv 32 := by rw [hq]; split_ifs <;> omega
    have hb2 : (t.x - 186).tdiv 32 ≤ 5 := by rw [hq]; split_ifs <;> omega
    have hx : (AsScene1002VenusFlyTrap.AsScene1002VenusFlyTrap names
        (AsScene1002VenusFlyTrap.stIdle names t).vars true).x =
          186 + 32 * (t.x - 186).tdiv 32 := by
      rw [AsScene1002VenusFlyTrap_ctor_x_flag, AsScene1002VenusFlyTrap_stIdle_flag names t hflag
        h1 h2, VariableStore_get_set]
      exact flyTrap_back_186 _ hb1 hb2
    refine ⟨?_, hx, ?_, ?_, ?_, ?_⟩
    · rw [AsScene1002VenusFlyTrap_stIdle_flag names t hflag h1 h2, VariableStore_get_set]
      exact Nat.mod_eq_of_lt (toUint32_lt _)
    · rw [hx, hq]; split_ifs <;> omega
    · rw [hx, hq]; split_ifs <;> omega
    · rw [hx, hq, abs_le]; split_ifs <;> omega
    · intro hm
      rw [hx, hq]; split_ifs <;> omega
  · intro hflag h1 h2 hdoor
    have hq : (t.x - 174).tdiv 32 = (t.x - 174) / 32 := tdiv_32_of_nonneg _ (by omega)
    have hb1 : 0 ≤ (t.x - 174).tdiv 32 := by rw [hq]; omega
    have hb2 : (t.x - 174).tdiv 32 ≤ 8 := by rw [hq]; omega
    have hx : (AsScene1002VenusFlyTrap.AsScene1002VenusFlyTrap names
        (AsScene1002VenusFlyTrap.stIdle names t).vars false).x =
          174 + 32 * (t.x - 174).tdiv 32 := by
      rw [AsScene1002VenusFlyTrap_ctor_x_noflag _ _ hdoor,
        AsScene1002VenusFlyTrap_stIdle_noflag names t hflag h1 h2, VariableStore_get_set]
      exact flyTrap_back_174 _ hb1 hb2
    refine ⟨?_, hx, ?_, ?_, ?_, ?_⟩
    · rw [AsScene1002VenusFlyTrap_stIdle_noflag names t hflag h1 h2, VariableStore_get_set]
      exact Nat.mod_eq_of_lt (toUint32_lt _)
    · rw [hx, hq]; omega
    · rw [hx, hq]; omega
    · rw [hx, hq, abs_le]; omega
    · intro hm
      rw [hx, hq]; omega

/-- Witness of C38 (amended): with `_flag` set and x = 154 the stored position is -1 as a
`uint32` (4294967295) and the constructor places the sprite at 154 again; without `_flag` and
x = 200, V_FLYTRAP_RING_DOOR being 0, the constructor places it at 174; with V_FLYTRAP_RING_DOOR
1 it places it at 366. -/
theorem AsScene1002VenusFlyTrap_round_trip_witness :
    (sampleFlyTrap true 154).flag = true ∧
    (AsScene1002VenusFlyTrap.stIdle sampleNames (sampleFlyTrap true 154)).vars.getGlobalVar
      sampleNames.V_FLYTRAP_POSITION_2 = 4294967295 ∧
    (AsScene1002VenusFlyTrap.AsScene1002VenusFlyTrap sampleNames
      (AsScene1002VenusFlyTrap.stIdle sampleNames (sampleFlyTrap true 154)).vars true).x = 154 ∧
    (AsScene1002VenusFlyTrap.stIdle sampleNames (sampleFlyTrap false 200)).vars.getGlobalVar
      sampleNames.V_FLYTRAP_RING_DOOR = 0 ∧
    (AsScene1002VenusFlyTrap.AsScene1002VenusFlyTrap sampleNames
      (AsScene1002VenusFlyTrap.stIdle sampleNames (sampleFlyTrap false 200)).vars false).x
      = 174 ∧
    (sampleFlyTrapRingDoor 174).vars.getGlobalVar sampleNames.V_FLYTRAP_RING_DOOR ≠ 0 ∧
    (AsScene1002VenusFlyTrap.AsScene1002VenusFlyTrap sampleNames
      (sampleFlyTrapRingDoor 174).vars false).x = 366 :=
  ⟨rfl,
   ((AsScene1002VenusFlyTrap_round_trip sampleNames (sampleFlyTrap true 154) sampleVars).1 rfl (by decide)
     (by decide)).1.trans (by decide),
   ((AsScene1002VenusFlyTrap_round_trip sampleNames (sampleFlyTrap true 154) sampleVars).1 rfl (by decide)
     (by decide)).2.1.trans (by decide),
   by decide,
   ((AsScene1002VenusFlyTrap_round_trip sampleNames (sampleFlyTrap false 200) sampleVars).2.1 rfl (by decide)
     (by decide) (by decide)).2.1.trans (by decide),
   by decide,
   ((AsScene1002VenusFlyTrap_round_trip sampleNames (sampleFlyTrap false 200) (sampleFlyTrapRingDoor 174).vars).2.2
     (by decide)).1⟩

/-- C38 as stated fails when V_FLYTRAP_RING_DOOR is set: a fly trap without `_flag` at x = 174
(in the valid range, x - 174 a multiple of 32) stores the position 0, and the constructor run on
that store, in which V_FLYTRAP_RING_DOOR is 1, places the sprite at 366, which is not 174 and is
192 away from it. -/
theorem AsScene1002VenusFlyTrap_ring_door_placement :
    (sampleFlyTrapRingDoor 174).flag = false ∧
    174 ≤ (sampleFlyTrapRingDoor 174).x ∧ (sampleFlyTrapRingDoor 174).x ≤ 430 ∧
    ((sampleFlyTrapRingDoor 174).x - 174) % 32 = 0 ∧
    (AsScene1002VenusFlyTrap.stIdle sampleNames (sampleFlyTrapRingDoor 174)).vars.getGlobalVar
      sampleNames.V_FLYTRAP_POSITION_1 = 0 ∧
    (AsScene1002VenusFlyTrap.AsScene1002VenusFlyTrap sampleNames
      (AsScene1002VenusFlyTrap.stIdle sampleNames (sampleFlyTrapRingDoor 174)).vars false).x
        = 366 ∧
    (AsScene1002VenusFlyTrap.AsScene1002VenusFlyTrap sampleNames
      (AsScene1002VenusFlyTrap.stIdle sampleNames (sampleFlyTrapRingDoor 174)).vars false).x
        ≠ (sampleFlyTrapRingDoor 174).x ∧
    ¬ |(AsScene1002VenusFlyTrap.AsScene1002VenusFlyTrap sampleNames
      (AsScene1002VenusFlyTrap.stIdle sampleNames (sampleFlyTrapRingDoor 174)).vars false).x
        - (sampleFlyTrapRingDoor 174).x| ≤ 31 := by
  have hx : (AsScene1002VenusFlyTrap.AsScene1002VenusFlyTrap sampleNames
      (AsScene1002VenusFlyTrap.stIdle sampleNames (sampleFlyTrapRingDoor 174)).vars false).x
        = 366 := by decide
  refine ⟨rfl, by decide, by decide, by decide, by decide, hx, ?_, ?_⟩
  · rw [hx]; decide
  · rw [hx]; decide

end Neverhood

/-! ### Claims on taffich and on the plugin manager -/

namespace Mortevielle

/-- C29: the luminance that `taffich` computes for a palette word is not the sum of the three
4-bit components at the bit offsets 0, 4 and 8 of the Pascal original: the second summand is
taken at bit offset 12. For the palette word 0x0010 the code computes 0 and the formula of the
Pascal comment gives 1; for 0x1000 the code computes 1 and the formula gives 0. -/
theorem taffich_luminance_offset_12 :
    taffich.luminance 0x0010 = 0 ∧ pascalLuminance 0x0010 = 1 ∧
    taffich.luminance 0x1000 = 1 ∧ pascalLuminance 0x1000 = 0 ∧
    (taffich.alllum sampleMem).head? = some 0 ∧
    pascalLuminance (READ_LE_UINT16 sampleMem 0x7002) = 1 := by
  decide

theorem argmax_range (g : Nat → Int) (m : Nat) :
    (List.range (m + 1)).foldl (fun k j => if g j > g k then j else k) 0 ≤ m ∧
    (∀ j, j ≤ m → g j ≤ g ((List.range (m + 1)).foldl (fun k j => if g j > g k then j else k) 0)) ∧
    (∀ j, j < (List.range (m + 1)).foldl (fun k j => if g j > g k then j else k) 0 →
      g j < g ((List.range (m + 1)).foldl (fun k j => if g j > g k then j else k) 0)) := by
  induction m with
  | zero =>
    simp [List.range_succ]
  | succ m ih =>
    rw [List.range_succ, List.foldl_append]
    generalize (List.range (m + 1)).foldl (fun k j => if g j > g k then j else k) 0 = k at ih
    obtain ⟨hk, hmax, hfirst⟩ := ih
    simp only [List.foldl_cons, List.foldl_nil]
    by_cases hg : g (m + 1) > g k
    · rw [if_pos hg]
      refine ⟨Nat.le_refl _, ?_, ?_⟩
      · intro j hj
        by_cases hj1 : j = m + 1
        · rw [hj1]
        · have := hmax j (by omega)
          omega
      · intro j hj
        have := hmax j (by omega)
        omega
    · rw [if_neg hg]
      refine ⟨by omega, ?_, hfirst⟩
      intro j hj
      by_cases hj1 : j = m + 1
      · rw [hj1]; omega
      · exact hmax j (by omega)

theorem taffich_brightest_spec (alllum : List Int) :
    taffich.brightest alllum < 16 ∧
    (∀ j, j < 16 → alllum.getD j 0 ≤ alllum.getD (taffich.brightest alllum) 0) ∧
    (∀ j, j < taffich.brightest alllum →
      alllum.getD j 0 < alllum.getD (taffich.brightest alllum) 0) := by
  obtain ⟨h1, h2, h3⟩ := argmax_range (fun j => alllum.getD j 0) 15
  exact ⟨Nat.lt_succ_of_le h1, fun j hj => h2 j (by omega), h3⟩


theorem exists_unranked (ks : List Nat) (hnd : ks.Nodup) (hlen : ks.length < 16) :
    ∃ u, u < 16 ∧ u ∉ ks := by
  by_contra hall
  have hsub : List.range 16 ⊆ ks := by
    intro u hu
    by_contra hmem
    exact hall ⟨u, List.mem_range.mp hu, hmem⟩
  have hle := (List.subperm_of_subset (List.nodup_range 16) hsub).length_le
  rw [List.length_range] at hle
  have _ := hnd
  omega

theorem getD_set_int (l : List Int) (k j : Nat) (v : Int) (hk : k < l.length) :
    (l.set k v).getD j 0 = if j = k then v else l.getD j 0 := by
  simp only [List.getD_eq_getElem?_getD, List.getElem?_set]
  by_cases hjk : k = j
  · subst hjk
    simp [hk]
  · have hjk2 : ¬ j = k := fun h => hjk h.symm
    simp [hjk, hjk2]

theorem taffich_rank_invariant (rang : Nat → Nat) (a0 : List Int) (hlen : a0.length = 16)
    (hpos : ∀ j, j < 16 → 0 ≤ a0.getD j 0) (n : Nat) (hn : n ≤ 16) :
    ∃ ks : List Nat, ks.length = n ∧ ks.Nodup ∧ (∀ k ∈ ks, k < 16) ∧
      ((List.range n).foldl (taffich.rankStep rang) (a0, [])).2 =
        List.zipWith (fun k i => (0x7000 * 16 + 2 + 2 * k, rang i)) ks (List.range n) ∧
      ((List.range n).foldl (taffich.rankStep rang) (a0, [])).1.length = 16 ∧
      (∀ j, j < 16 → ((List.range n).foldl (taffich.rankStep rang) (a0, [])).1.getD j 0 =
        if j ∈ ks then -1 else a0.getD j 0) ∧
      ks.Pairwise (rankedBefore (fun j => a0.getD j 0)) ∧
      (∀ x ∈ ks, ∀ y, y < 16 → y ∉ ks → rankedBefore (fun j => a0.getD j 0) x y) := by
  induction n with
  | zero =>
    exact ⟨[], rfl, List.nodup_nil, by simp, rfl, hlen, by simp, List.Pairwise.nil, by simp⟩
  | succ n ih =>
    obtain ⟨ks, hks, hnd, hlt, hw, hl, harr, hpair, hrest⟩ := ih (by omega)
    rw [List.range_succ, List.foldl_append]
    generalize (List.range n).foldl (taffich.rankStep rang) (a0, []) = st at hw hl harr
    simp only [List.foldl_cons, List.foldl_nil, taffich.rankStep]
    obtain ⟨hk16, hmax, hfirst⟩ := taffich_brightest_spec st.1
    generalize taffich.brightest st.1 = k at hk16 hmax hfirst
    obtain ⟨u, hu16, hu⟩ := exists_unranked ks hnd (by omega)
    have hku : st.1.getD u 0 ≤ st.1.getD k 0 := hmax u hu16
    have hua : st.1.getD u 0 = a0.getD u 0 := by rw [harr u hu16, if_neg hu]
    have hk : k ∉ ks := by
      intro hmem
      have hka := harr k hk16
      rw [if_pos hmem] at hka
      have := hpos u hu16
      omega
    have hka : st.1.getD k 0 = a0.getD k 0 := by rw [harr k hk16, if_neg hk]
    refine ⟨ks ++ [k], by simp [hks], ?_, ?_, ?_, ?_, ?_, ?_, ?_⟩
    · rw [List.nodup_append]
      refine ⟨hnd, List.nodup_singleton k, ?_⟩
      intro a ha hb
      rw [List.mem_singleton] at hb
      rw [hb] at ha
      exact hk ha
    · intro x hx
      rw [List.mem_append, List.mem_singleton] at hx
      rcases hx with hx | hx
      · exact hlt x hx
      · rw [hx]; exact hk16
    · rw [hw, List.zipWith_append _ _ _ _ _ (by rw [hks, List.length_range])]
      simp only [List.zipWith_cons_cons, List.zipWith_nil_right, Nat.shiftLeft_eq, pow_one]
      rw [Nat.mul_comm k 2]
    · rw [List.length_set]; exact hl
    · intro j hj
      rw [getD_set_int _ _ _ _ (by omega), harr j hj]
      by_cases hjk : j = k
      · simp [hjk]
      · by_cases hjm : j ∈ ks
        · simp [hjk, hjm]
        · simp [hjk, hjm]
    · rw [List.pairwise_append]
      refine ⟨hpair, List.pairwise_singleton _ _, ?_⟩
      intro x hx y hy
      rw [List.mem_singleton] at hy
      rw [hy]
      exact hrest x hx k hk16 hk
    · intro x hx y hy hny
      rw [List.mem_append, List.mem_singleton] at hx
      have hy1 : y ∉ ks := fun h => hny (List.mem_append_left _ h)
      have hy2 : y ≠ k := fun h => hny (by rw [h]; simp)
      rcases hx with hx | hx
      · exact hrest x hx y hy hy1
      · rw [hx]
        have hya : st.1.getD y 0 = a0.getD y 0 := by rw [harr y hy, if_neg hy1]
        have hle := hmax y hy
        unfold rankedBefore
        simp only
        by_cases hlt2 : y < k
        · have := hfirst y hlt2
          left
          omega
        · by_cases heq : a0.getD k 0 = a0.getD y 0
          · right
            exact ⟨heq, by omega⟩
          · left
            omega

theorem zipWith_fst_eq_map (rang : Nat → Nat) (ks is : List Nat)
    (hl : ks.length = is.length) :
    (List.zipWith (fun k i => (0x7000 * 16 + 2 + 2 * k, rang i)) ks is).map Prod.fst
      = ks.map (fun k => 0x7000 * 16 + 2 + 2 * k) := by
  induction ks generalizing is with
  | nil => simp
  | cons k ks ih =>
    cases is with
    | nil => simp at hl
    | cons i is =>
      simp only [List.zipWith_cons_cons, List.map_cons]
      rw [ih is (by simpa using hl)]

/-- C32: in the Hercules palette pass, for every memory (16 palette words) the ranking loop
makes 16 writes, the write number i storing `rang[i]` in the slot of a chosen index; the 16
chosen indices are a permutation of 0..15, the 16 addresses are pairwise distinct, and the
indices are chosen in the order of non-increasing luminance, the lower index first among slots of
equal luminance. -/
theorem taffich_ranking_permutation (rang : Nat → Nat) (mem : Nat → Nat) :
    ∃ ks : List Nat, ks.Perm (List.range 16) ∧
      taffich.herculesPass rang mem =
        List.zipWith (fun k i => (0x7000 * 16 + 2 + 2 * k, rang i)) ks (List.range 16) ∧
      ((taffich.herculesPass rang mem).map Prod.fst).Nodup ∧
      ks.Pairwise (rankedBefore (fun j => Int.ofNat ((taffich.alllum mem).getD j 0))) := by
  have hlen : ((taffich.alllum mem).map Int.ofNat).length = 16 := by
    simp [taffich.alllum]
  have hget : ∀ j, ((taffich.alllum mem).map Int.ofNat).getD j 0
      = Int.ofNat ((taffich.alllum mem).getD j 0) := by
    intro j
    simp only [List.getD_eq_getElem?_getD, List.getElem?_map]
    cases (taffich.alllum mem)[j]? <;> rfl
  obtain ⟨ks, hks, hnd, hlt, hw, _, _, hpair, _⟩ :=
    taffich_rank_invariant rang _ hlen (fun j _ => by rw [hget]; exact Int.ofNat_nonneg _) 16
      (Nat.le_refl _)
  have hperm : ks.Perm (List.range 16) := by
    apply List.Subperm.perm_of_length_le
    · apply List.subperm_of_subset hnd
      intro x hx
      exact List.mem_range.mpr (hlt x hx)
    · rw [List.length_range, hks]
  have hfun : (fun j => ((taffich.alllum mem).map Int.ofNat).getD j 0)
      = (fun j => Int.ofNat ((taffich.alllum mem).getD j 0)) := funext hget
  refine ⟨ks, hperm, hw, ?_, ?_⟩
  · have hw2 : taffich.herculesPass rang mem =
        List.zipWith (fun k i => (0x7000 * 16 + 2 + 2 * k, rang i)) ks (List.range 16) := hw
    rw [hw2]
    have hmap := zipWith_fst_eq_map rang ks (List.range 16) (by rw [hks, List.length_range])
    rw [hmap]
    apply List.Nodup.map _ hnd
    intro a b hab
    simp only at hab
    omega
  · rw [← hfun]
    exact hpair

end Mortevielle

namespace Base

/-- C30: `tryLoadPlugin(plugin)` returns true exactly when `plugin->loadPlugin()` succeeds; on
success the plugin is appended at the end of the list of its own type and the list of every
other type is unchanged; on failure it returns false and no plugin list is changed. -/
theorem PluginManager_tryLoadPlugin_lists {PLUGIN_TYPE_MAX : Nat}
    (pm : PluginManager PLUGIN_TYPE_MAX) (plugin : Plugin PLUGIN_TYPE_MAX) :
    ∃ pm1, PluginManager.tryLoadPlugin pm (some plugin) = Except.ok (plugin.loadPlugin, pm1) ∧
      (plugin.loadPlugin = true →
        pm1.getPlugins plugin.getType = pm.getPlugins plugin.getType ++ [plugin] ∧
        ∀ type, type ≠ plugin.getType → pm1.getPlugins type = pm.getPlugins type) ∧
      (plugin.loadPlugin = false → ∀ type, pm1.getPlugins type = pm.getPlugins type) := by
  by_cases h : plugin.loadPlugin = true
  · refine ⟨{ pm with plugins := fun type =>
        if type = plugin.getType then pm.plugins type ++ [plugin] else pm.plugins type }, ?_,
      fun _ => ⟨by simp [PluginManager.getPlugins], ?_⟩, ?_⟩
    · simp [PluginManager.tryLoadPlugin, h]
    · intro type ht
      simp [PluginManager.getPlugins, ht]
    · intro hf
      rw [h] at hf
      cases hf
  · have hf : plugin.loadPlugin = false := by simpa using h
    refine ⟨{ pm with deleted := pm.deleted ++ [plugin] }, ?_, ?_, fun _ type => rfl⟩
    · simp [PluginManager.tryLoadPlugin, hf]
    · intro ht
      exact absurd ht h

/-- Witness of C30: a plugin of type 1 that loads is appended to the list of type 1 of the
sample manager, and the list of type 0 is unchanged. -/
theorem PluginManager_tryLoadPlugin_lists_witness :
    ∃ pm1, PluginManager.tryLoadPlugin sampleManager
        (some { id := 3, type := 1, loadPlugin := true }) = Except.ok (true, pm1) ∧
      pm1.getPlugins 1 =
        [{ id := 2, type := 1, loadPlugin := true }, { id := 3, type := 1, loadPlugin := true }] ∧
      pm1.getPlugins 0 = [{ id := 1, type := 0, loadPlugin := true }] := by
  obtain ⟨pm1, h1, h2, _⟩ := PluginManager_tryLoadPlugin_lists sampleManager
    { id := 3, type := 1, loadPlugin := true }
  exact ⟨pm1, h1, (h2 rfl).1, (h2 rfl).2 0 (by decide)⟩

end Base
